import Mathlib

/-!
# VIGRA TIFF import and export (include/vigra/tiff.hxx)

A shallow embedding of the four conversion templates of `tiff.hxx`
(`tiffToScalarImage`, `tiffToRGBImage`, `createScalarTiffImage`,
`createRGBTiffImage`) and of the two forwarding templates `importTiffImage`
and `createTiffImage`, together with the facts proved about them.

Modelling conventions

* The codec handle `TiffImage` is the black box of the TIFF library: a tag
  store, the scanline size it reports, the scanlines it delivers or accepts
  and the raster of its indexed-colour expansion.
* A scanline buffer is a list of bytes (natural numbers, below 256 in a
  well-formed file).  A cast `((T *)buf)[i]` reads or writes the `sizeof(T)`
  bytes starting at byte `sizeof(T) * i`, least significant byte first.
  An access outside the buffer is undefined behaviour of the C++ code and is
  a separate outcome `Result.undefined`.
* IEEE `float` and `double` samples are carried as their bit patterns; no
  floating-point arithmetic occurs in the file.
* The destination image is a function from cursor offsets `(x, y)` (relative
  to the iterator passed in) to pixels, written through an accessor.
* Every call into the codec, the allocator and the destination accessor is
  appended to a trace, so that "no scanline was read" and similar frame
  statements can be expressed.
* Local variables that the C++ code leaves uninitialised, and the content of
  freshly allocated memory, are taken from an explicit `Indeterminate`
  parameter.
* The accessors of the first definitions always return. The definitions
  whose name ends in `T` are the same functions for accessors that may throw;
  they agree with the first ones on accessors that never throw. Allocation
  is taken to succeed.
* Image dimensions and loop counters are natural numbers (the C++ code uses
  `uint32` tags and `int` counters; dimensions are assumed to stay below
  `2^31`).
-/

namespace Vigra

/-! ## Codec vocabulary -/

/-- Tags of the codec's vocabulary that `tiff.hxx` reads or writes. -/
inductive Tag where
  | IMAGEWIDTH
  | IMAGELENGTH
  | BITSPERSAMPLE
  | SAMPLESPERPIXEL
  | SAMPLEFORMAT
  | PHOTOMETRIC
  | PLANARCONFIG
  | FILLORDER
  deriving DecidableEq

/-- Modelled from the spec: encoding "UnsignedInt" of the SampleFormat tag
(`SAMPLEFORMAT_UINT` of the codec's header `tiff.h`, value 1). -/
abbrev SAMPLEFORMAT_UINT : Nat := 1

/-- Modelled from the spec: encoding "SignedInt" of the SampleFormat tag
(`SAMPLEFORMAT_INT`, value 2). -/
abbrev SAMPLEFORMAT_INT : Nat := 2

/-- Modelled from the spec: encoding "IEEEFloat" of the SampleFormat tag
(`SAMPLEFORMAT_IEEEFP`, value 3). -/
abbrev SAMPLEFORMAT_IEEEFP : Nat := 3

/-- Modelled from the spec: the "Undefined" sentinel of the SampleFormat tag
(`SAMPLEFORMAT_VOID`, value 4). -/
abbrev SAMPLEFORMAT_VOID : Nat := 4

/-- Modelled from the spec: complex signed integer samples
(`SAMPLEFORMAT_COMPLEXINT`, value 5); never named by `tiff.hxx`. -/
abbrev SAMPLEFORMAT_COMPLEXINT : Nat := 5

/-- Modelled from the spec: photometric interpretation "MinIsWhite"
(`PHOTOMETRIC_MINISWHITE`, value 0). -/
abbrev PHOTOMETRIC_MINISWHITE : Nat := 0

/-- Modelled from the spec: photometric interpretation "MinIsBlack"
(`PHOTOMETRIC_MINISBLACK`, value 1). -/
abbrev PHOTOMETRIC_MINISBLACK : Nat := 1

/-- Modelled from the spec: photometric interpretation "RGB"
(`PHOTOMETRIC_RGB`, value 2). -/
abbrev PHOTOMETRIC_RGB : Nat := 2

/-- Modelled from the spec: photometric interpretation "Palette"
(`PHOTOMETRIC_PALETTE`, value 3). -/
abbrev PHOTOMETRIC_PALETTE : Nat := 3

/-- Modelled from the spec: planar configuration "Contiguous"
(`PLANARCONFIG_CONTIG`, value 1). -/
abbrev PLANARCONFIG_CONTIG : Nat := 1

/-- Modelled from the spec: planar configuration "Separate"
(`PLANARCONFIG_SEPARATE`, value 2). -/
abbrev PLANARCONFIG_SEPARATE : Nat := 2

/-- Modelled from the spec: fill order "most significant bit first"
(`FILLORDER_MSB2LSB`, value 1). -/
abbrev FILLORDER_MSB2LSB : Nat := 1

/-- Modelled from the spec: fill order "least significant bit first"
(`FILLORDER_LSB2MSB`, value 2). -/
abbrev FILLORDER_LSB2MSB : Nat := 2

/-- The tag store of a handle: a tag is absent (`none`) or has a value. -/
abbrev Tags := Tag → Option Nat

/-- The codec handle (`TiffImage`, the TIFF library's open image), as the
black box the conversion functions see. -/
structure TiffImage where
  /-- Current tag values. -/
  tags : Tags
  /-- The scanline size in bytes the codec reports for a tag store. -/
  scanlineSize : Tags → Nat
  /-- File content: `rows y s` is the byte stream of scanline `y` of sample
  plane `s`, or `none` when the codec cannot read that scanline. -/
  rows : Nat → Nat → Option (Nat → Nat)
  /-- Rows for which the codec's scanline write reports failure. -/
  writeFails : Nat → Bool
  /-- The raster produced by the indexed-colour expansion primitive, or
  `none` when the primitive reports failure. -/
  rgba : Option (Nat → Nat)

/-- The five scanline or raster buffers that the conversion functions
allocate, by the name of the C++ variable. -/
inductive Buffer where
  | buf
  | bufr
  | bufg
  | bufb
  | raster
  deriving DecidableEq

/-- A value handed to a destination accessor: a C integer (of any width, as
its mathematical value) or the bit pattern of an IEEE float or double. -/
inductive Value where
  | int (i : Int)
  | float (bits : Nat)
  | double (bits : Nat)
  deriving DecidableEq

/-- Calls that a conversion function makes into the codec, the allocator and
the destination accessor, in the order they are made. -/
inductive Event where
  | getField (t : Tag)
  | setField (t : Tag) (v : Nat)
  | scanlineSize
  | alloc (b : Buffer) (n : Nat)
  | release (b : Buffer)
  | readScanline (row sample : Nat)
  | readRGBAImage (w h : Nat)
  | writeScanline (row : Nat) (data : List Nat)
  | set (x y : Nat) (v : Value)
  | setRed (x y : Nat) (v : Value)
  | setGreen (x y : Nat) (v : Value)
  | setBlue (x y : Nat) (v : Value)
  deriving DecidableEq

/-- The exceptions that leave a function of `tiff.hxx`. Those thrown by
`tiff.hxx` itself come one per message text: the first six are raised by
`precondition(...)`, the next three by `fail(...)`. The last one stands for
an exception thrown by an accessor that the conversion function calls, which
its `catch(...)` block passes on with `throw;`. -/
inductive Failure where
  /-- Precondition "NULL pointer to input data." -/
  | nullPointer
  /-- Precondition "Image isn't grayscale." -/
  | notGrayscale
  /-- Precondition "Image is multiband, not scalar." -/
  | multiband
  /-- Precondition "undefined pixeltype (SAMPLEFORMAT_VOID)." -/
  | undefinedPixeltype
  /-- Precondition "Image isn't RGB." -/
  | notRGB
  /-- Precondition "number of samples per pixel must be 3." -/
  | samplesNot3
  /-- Failure "unsupported number of bits per pixel" -/
  | unsupportedBits
  /-- Failure "unable to read image data." -/
  | unableToRead
  /-- Failure "internal error." -/
  | internalError
  /-- An exception thrown by an accessor call. -/
  | foreign
  deriving DecidableEq

/-- Outcome of running a piece of the C++ code from some state. -/
inductive Result (σ : Type) where
  /-- Normal return in state `s`. -/
  | ok (s : σ)
  /-- An exception propagates to the caller; `s` is the state reached. -/
  | thrown (e : Failure) (s : σ)
  /-- Undefined behaviour: access outside a buffer, or through a null handle. -/
  | undefined

/-- Sequencing: continue with `f` after a normal return. -/
def Result.bind {σ : Type} (r : Result σ) (f : σ → Result σ) : Result σ :=
  match r with
  | .ok s => f s
  | .thrown e s => .thrown e s
  | .undefined => .undefined

/-- Apply `g` to the state in which the code returned or threw. -/
def Result.map {σ τ : Type} (g : σ → τ) (r : Result σ) : Result τ :=
  match r with
  | .ok s => .ok (g s)
  | .thrown e s => .thrown e (g s)
  | .undefined => .undefined

/-- Values that the C++ code reads without having initialised them: the
locals that `TIFFGetField` leaves untouched when a tag is absent, and the
content of memory returned by `new[]`. -/
structure Indeterminate where
  bitsPerSample : Nat
  fillorder : Nat
  samplesPerPixel : Nat
  photometric : Nat
  planarConfig : Nat
  w : Nat
  h : Nat
  heap : Buffer → Nat → Nat

/-! ## Codec primitives -/

/-- The library call `TIFFGetField(tiff, tag, &var)`: stores the tag's value
in `var` when the tag is present and leaves `var` as it was otherwise. -/
def TIFFGetField (tiff : TiffImage) (tag : Tag) (var : Nat) : Nat :=
  (tiff.tags tag).getD var

/-- The library call `TIFFSetField(tiff, tag, v)`. -/
def TIFFSetField (tiff : TiffImage) (tag : Tag) (v : Nat) : TiffImage :=
  { tiff with tags := fun t => if t = tag then some v else tiff.tags t }

/-- The library call `TIFFScanlineSize(tiff)`. -/
def TIFFScanlineSize (tiff : TiffImage) : Nat :=
  tiff.scanlineSize tiff.tags

/-- The library call `TIFFReadScanline(tiff, buf, row, sample)`: on success
the buffer (which every caller allocates with `TIFFScanlineSize(tiff)`
cells) is filled with the scanline's bytes; on failure it keeps its content.
The status the library returns is not looked at by any caller. -/
def TIFFReadScanline (tiff : TiffImage) (buf : List Nat) (row sample : Nat) : List Nat :=
  match tiff.rows row sample with
  | some data => (List.range buf.length).map data
  | none => buf

/-- The library call `TIFFWriteScanline(tiff, buf, row)`: on success the
buffer becomes scanline `row` of sample plane 0 of the file. -/
def TIFFWriteScanline (tiff : TiffImage) (buf : List Nat) (row : Nat) : TiffImage :=
  if tiff.writeFails row then tiff
  else { tiff with
    rows := fun y s => if y = row ∧ s = 0 then some (fun i => buf.getD i 0) else tiff.rows y s }

/-- The library call `TIFFReadRGBAImage(tiff, w, h, raster, 0)`: on success
the raster is filled with the expanded pixels. -/
def TIFFReadRGBAImage (tiff : TiffImage) (raster : List Nat) : Option (List Nat) :=
  match tiff.rgba with
  | some data => some ((List.range raster.length).map data)
  | none => none

/-- Modelled from the spec: the codec's fixed-position byte accessor for
red, `TIFFGetR(abgr) = abgr & 0xff`. -/
def TIFFGetR (abgr : Nat) : Nat := abgr &&& 0xff

/-- Modelled from the spec: the codec's fixed-position byte accessor for
green, `TIFFGetG(abgr) = (abgr >> 8) & 0xff`. -/
def TIFFGetG (abgr : Nat) : Nat := (abgr >>> 8) &&& 0xff

/-- Modelled from the spec: the codec's fixed-position byte accessor for
blue, `TIFFGetB(abgr) = (abgr >> 16) & 0xff`. -/
def TIFFGetB (abgr : Nat) : Nat := (abgr >>> 16) &&& 0xff

/-- Memory returned by `new T[n]`: `n` cells of indeterminate content. For a
scanline buffer (`new tdata_t[bufsize]`) the cells are the `bufsize` bytes
that the codec fills or consumes; `tdata_t` is wider than a byte, so the C++
allocation extends beyond them, and the model's range check on a buffer
access is the stricter one. -/
def newBuffer (u : Indeterminate) (b : Buffer) (n : Nat) : List Nat :=
  (List.range n).map (u.heap b)

/-! ## Typed access to a byte buffer -/

/-- The unsigned number whose little-endian bytes are `bs`. -/
def leValue : List Nat → Nat
  | [] => 0
  | b :: bs => b + 256 * leValue bs

/-- The `k` little-endian bytes of the unsigned number `v`. -/
def leBytes : Nat → Nat → List Nat
  | 0, _ => []
  | k + 1, v => v % 256 :: leBytes k (v / 256)

/-- The read `((T *)buf)[i]` for an unsigned `T` of `k` bytes. -/
def readLE (k : Nat) (buf : List Nat) (i : Nat) : Option Nat :=
  if k * i + k ≤ buf.length then some (leValue ((buf.drop (k * i)).take k)) else none

/-- The store `((T *)buf)[i] = v` for an unsigned `T` of `k` bytes. -/
def writeLE (k : Nat) (buf : List Nat) (i : Nat) (v : Nat) : Option (List Nat) :=
  if k * i + k ≤ buf.length then
    some (buf.take (k * i) ++ leBytes k v ++ buf.drop (k * i + k))
  else none

/-- The value of a `bits`-wide two's-complement pattern. -/
def toSigned (bits : Nat) (v : Nat) : Int :=
  if v < 2 ^ (bits - 1) then (v : Int) else (v : Int) - 2 ^ bits

/-- The `bits`-wide two's-complement pattern of an integer (conversion of a
C integer to an unsigned type of that width). -/
def toUnsigned (bits : Nat) (i : Int) : Nat :=
  (i % 2 ^ bits).toNat

/-- The expression `v & 1` on a C `int` (two's complement): the lowest bit. -/
def and1 (v : Int) : Int := v % 2

/-! ## Destination image -/

/-- A scalar destination accessor: `set v p` is the pixel that results from
`a.set(v, iter)` when the pixel under `iter` was `p`. -/
structure Accessor (α : Type) where
  set : Value → α → α

/-- An RGB destination accessor with its three component setters. -/
structure RGBAccessor (α : Type) where
  setRed : Value → α → α
  setGreen : Value → α → α
  setBlue : Value → α → α

/-- State of a decoding call: the destination image, indexed by the offset
`(x, y)` from the iterator passed in, and the trace of calls made so far. -/
structure Dest (α : Type) where
  image : Nat → Nat → α
  trace : List Event

/-- Record calls in the trace. -/
def Dest.log {α : Type} (d : Dest α) (es : List Event) : Dest α :=
  { d with trace := d.trace ++ es }

/-- One accessor call at cursor `(x, y)`: the pixel there is replaced by
`f` of its old content, and the call `e` is recorded. -/
def Dest.put {α : Type} (d : Dest α) (x y : Nat) (f : α → α) (e : Event) : Dest α :=
  { image := fun x1 y1 => if x1 = x ∧ y1 = y then f (d.image x1 y1) else d.image x1 y1
    trace := d.trace ++ [e] }

/-- The loop `for(int i = 0; i < n; ++i) body(i)`, stopping at the first
iteration that does not return normally. -/
def forLoop {σ : Type} (n : Nat) (body : Nat → σ → Result σ) (s : σ) : Result σ :=
  match n with
  | 0 => .ok s
  | n + 1 => (forLoop n body s).bind (body n)

/-! ## tiffToScalarImage -/

/-- Local state of `tiffToScalarImage` inside its row loop: the scanline
buffer `buf` and the destination. -/
structure ScalarState (α : Type) where
  buf : List Nat
  dest : Dest α

/-- The 1-bit sample expression of `SAMPLEFORMAT_UINT`:
`((((uint8 *)buf)[x/8] >> (7 - x%8)) & 1) ? max : min` when the fill order is
`FILLORDER_MSB2LSB`, and the same with shift `x%8` otherwise. -/
def sampleUInt1 (fillorder : Nat) (max min : Int) (buf : List Nat) (x : Nat) : Option Value :=
  (readLE 1 buf (x / 8)).map fun b =>
    if fillorder = FILLORDER_MSB2LSB then
      Value.int (if (b >>> (7 - x % 8)) &&& 1 ≠ 0 then max else min)
    else
      Value.int (if (b >>> (x % 8)) &&& 1 ≠ 0 then max else min)

/-- The 1-bit sample expression of `SAMPLEFORMAT_INT`: as `sampleUInt1`, but
the byte is read through `(int8 *)buf`, promoted to `int` and shifted
arithmetically. -/
def sampleInt1 (fillorder : Nat) (max min : Int) (buf : List Nat) (x : Nat) : Option Value :=
  (readLE 1 buf (x / 8)).map fun b =>
    if fillorder = FILLORDER_MSB2LSB then
      Value.int (if and1 (toSigned 8 b >>> (7 - x % 8)) ≠ 0 then max else min)
    else
      Value.int (if and1 (toSigned 8 b >>> (x % 8)) ≠ 0 then max else min)

/-- The 8-bit sample expression `offset + scale*((uint8 *)buf)[x]`, used by
the `SAMPLEFORMAT_UINT` and by the `SAMPLEFORMAT_INT` branch alike. -/
def sampleByte (offset scale : Int) (buf : List Nat) (x : Nat) : Option Value :=
  (readLE 1 buf x).map fun (b : Nat) => Value.int (offset + scale * (b : Int))

/-- The sample expression `((uintN *)buf)[x]` for an unsigned type of `k` bytes. -/
def sampleUInt (k : Nat) (buf : List Nat) (x : Nat) : Option Value :=
  (readLE k buf x).map fun (v : Nat) => Value.int (v : Int)

/-- The sample expression `((intN *)buf)[x]` for a signed type of `k` bytes. -/
def sampleInt (k : Nat) (buf : List Nat) (x : Nat) : Option Value :=
  (readLE k buf x).map fun v => Value.int (toSigned (8 * k) v)

/-- The sample expression `((float *)buf)[x]`. -/
def sampleFloat (buf : List Nat) (x : Nat) : Option Value :=
  (readLE 4 buf x).map Value.float

/-- The sample expression `((double *)buf)[x]`. -/
def sampleDouble (buf : List Nat) (x : Nat) : Option Value :=
  (readLE 8 buf x).map Value.double

/-- The nested `switch(sampleFormat)` / `switch(bitsPerSample)` of
`tiffToScalarImage`: the sample expression of the selected case, or the
failure of the `default:` label reached. The ten `case` bodies are the same
row loop around different sample expressions. -/
def scalarSwitch (sampleFormat bitsPerSample fillorder : Nat) (offset scale max min : Int) :
    Except Failure (List Nat → Nat → Option Value) :=
  if sampleFormat = SAMPLEFORMAT_UINT then
    if bitsPerSample = 1 then .ok (sampleUInt1 fillorder max min)
    else if bitsPerSample = 8 then .ok (sampleByte offset scale)
    else if bitsPerSample = 16 then .ok (sampleUInt 2)
    else if bitsPerSample = 32 then .ok (sampleUInt 4)
    else .error .unsupportedBits
  else if sampleFormat = SAMPLEFORMAT_INT then
    if bitsPerSample = 1 then .ok (sampleInt1 fillorder max min)
    else if bitsPerSample = 8 then .ok (sampleByte offset scale)
    else if bitsPerSample = 16 then .ok (sampleInt 2)
    else if bitsPerSample = 32 then .ok (sampleInt 4)
    else .error .unsupportedBits
  else if sampleFormat = SAMPLEFORMAT_IEEEFP then
    if bitsPerSample = 32 then .ok sampleFloat
    else if bitsPerSample = 64 then .ok sampleDouble
    else .error .unsupportedBits
  else .error .internalError

/-- The inner loop `for(int x=0; x<w; ++x, ++xd.x) a.set(sample, xd)` of
row `y`. -/
def scalarRow {α : Type} (a : Accessor α) (sample : List Nat → Nat → Option Value)
    (w y : Nat) (s : ScalarState α) : Result (ScalarState α) :=
  forLoop w (fun x s =>
    match sample s.buf x with
    | some v => .ok { s with dest := s.dest.put x y (a.set v) (.set x y v) }
    | none => .undefined) s

/-- The row loop `for(int y=0; y<h; ++y, ++yd.y)`: read scanline `y` into
`buf`, then run the inner loop. -/
def scalarLoop {α : Type} (tiff : TiffImage) (a : Accessor α)
    (sample : List Nat → Nat → Option Value) (w h : Nat) (s : ScalarState α) :
    Result (ScalarState α) :=
  forLoop h (fun y s =>
    scalarRow a sample w y
      { buf := TIFFReadScanline tiff s.buf y 0, dest := s.dest.log [.readScanline y 0] }) s

/-- The template `tiffToScalarImage(TiffImage * tiff, ImageIterator iter, Accessor a)`. -/
def tiffToScalarImage {α : Type} (u : Indeterminate) (tiff : Option TiffImage)
    (a : Accessor α) (d : Dest α) : Result (Dest α) :=
  match tiff with
  | none => .thrown .nullPointer d
  | some tiff =>
    let sampleFormat := TIFFGetField tiff .SAMPLEFORMAT 1
    let bitsPerSample := TIFFGetField tiff .BITSPERSAMPLE u.bitsPerSample
    let samplesPerPixel := TIFFGetField tiff .SAMPLESPERPIXEL u.samplesPerPixel
    let fillorder := TIFFGetField tiff .FILLORDER u.fillorder
    let photometric := TIFFGetField tiff .PHOTOMETRIC u.photometric
    let w := TIFFGetField tiff .IMAGEWIDTH u.w
    let h := TIFFGetField tiff .IMAGELENGTH u.h
    let d := d.log [.getField .SAMPLEFORMAT, .getField .BITSPERSAMPLE,
      .getField .SAMPLESPERPIXEL, .getField .FILLORDER, .getField .PHOTOMETRIC,
      .getField .IMAGEWIDTH, .getField .IMAGELENGTH]
    if ¬ (photometric = PHOTOMETRIC_MINISWHITE ∨ photometric = PHOTOMETRIC_MINISBLACK) then
      .thrown .notGrayscale d
    else if ¬ (samplesPerPixel = 1) then
      .thrown .multiband d
    else if ¬ (sampleFormat ≠ SAMPLEFORMAT_VOID) then
      .thrown .undefinedPixeltype d
    else
      let bufsize := TIFFScanlineSize tiff
      let buf := newBuffer u .buf bufsize
      let d := d.log [.scanlineSize, .alloc .buf bufsize]
      let offset : Int := if photometric = PHOTOMETRIC_MINISWHITE then 255 else 0
      let scale : Int := if photometric = PHOTOMETRIC_MINISWHITE then -1 else 1
      let max : Int := if photometric = PHOTOMETRIC_MINISWHITE then 0 else 255
      let min : Int := if photometric = PHOTOMETRIC_MINISWHITE then 255 else 0
      let body : Result (ScalarState α) :=
        match scalarSwitch sampleFormat bitsPerSample fillorder offset scale max min with
        | .ok sample => scalarLoop tiff a sample w h { buf := buf, dest := d }
        | .error e => .thrown e { buf := buf, dest := d }
      -- `catch(...) { delete[] buf; throw; }` and the final `delete[] buf;`
      body.map fun s => s.dest.log [.release .buf]

/-! ## tiffToRGBImage -/

/-- Local state of the palette branch: the expansion raster (one cell per
`uint32` pixel) and the destination. -/
structure PaletteState (α : Type) where
  raster : List Nat
  dest : Dest α

/-- The three scanline buffers of the `PHOTOMETRIC_RGB` branch. -/
structure RGBBuffers where
  bufr : List Nat
  bufg : List Nat
  bufb : List Nat

/-- Local state of the `PHOTOMETRIC_RGB` branch: the three scanline buffers
and the destination. -/
structure RGBState (α : Type) where
  bufs : RGBBuffers
  dest : Dest α

/-- Three values bound for the red, green and blue setter of one pixel. -/
structure RGBPixel where
  red : Value
  green : Value
  blue : Value
  deriving DecidableEq

/-- The nested `switch(sampleFormat)` / `switch(bitsPerSample)` of the
`PHOTOMETRIC_RGB` branch: the dereference `*p` of the pointer type declared
in the selected case (`uint8`, `uint16`, `uint32`, `int8`, `int16`, `int32`,
`float`, `double`), or the failure of the `default:` label reached. The
eight `case` bodies are the same row loop around different pointer types. -/
def rgbSwitch (sampleFormat bitsPerSample : Nat) :
    Except Failure (List Nat → Nat → Option Value) :=
  if sampleFormat = SAMPLEFORMAT_UINT then
    if bitsPerSample = 8 then .ok (sampleUInt 1)
    else if bitsPerSample = 16 then .ok (sampleUInt 2)
    else if bitsPerSample = 32 then .ok (sampleUInt 4)
    else .error .unsupportedBits
  else if sampleFormat = SAMPLEFORMAT_INT then
    if bitsPerSample = 8 then .ok (sampleInt 1)
    else if bitsPerSample = 16 then .ok (sampleInt 2)
    else if bitsPerSample = 32 then .ok (sampleInt 4)
    else .error .unsupportedBits
  else if sampleFormat = SAMPLEFORMAT_IEEEFP then
    if bitsPerSample = 32 then .ok sampleFloat
    else if bitsPerSample = 64 then .ok sampleDouble
    else .error .unsupportedBits
  else .error .internalError

/-- The three accessor calls `a.setRed(r, xd); a.setGreen(g, xd);
a.setBlue(b, xd);` at cursor `(x, y)`. -/
def Dest.putRGB {α : Type} (d : Dest α) (a : RGBAccessor α) (x y : Nat) (p : RGBPixel) :
    Dest α :=
  ((d.put x y (a.setRed p.red) (.setRed x y p.red)).put x y (a.setGreen p.green)
    (.setGreen x y p.green)).put x y (a.setBlue p.blue) (.setBlue x y p.blue)

/-- The values `TIFFGetR(p)`, `TIFFGetG(p)`, `TIFFGetB(p)` of a raster cell. -/
def palettePixel (p : Nat) : RGBPixel :=
  { red := .int (TIFFGetR p), green := .int (TIFFGetG p), blue := .int (TIFFGetB p) }

/-- The inner loop of the palette branch for row `y`:
`a.setRed(TIFFGetR(raster[x+y*w]), xd)` and likewise for green and blue. -/
def paletteRow {α : Type} (a : RGBAccessor α) (w y : Nat) (s : PaletteState α) :
    Result (PaletteState α) :=
  forLoop w (fun x s =>
    match s.raster[x + y * w]? with
    | some p => .ok { s with dest := s.dest.putRGB a x y (palettePixel p) }
    | none => .undefined) s

/-- The row loop of the palette branch. -/
def paletteLoop {α : Type} (a : RGBAccessor α) (w h : Nat) (s : PaletteState α) :
    Result (PaletteState α) :=
  forLoop h (fun y s => paletteRow a w y s) s

/-- The dereferences `*pr`, `*pg`, `*pb` in iteration `x` of the inner loop
`for(int x=0; x<w; ++x, ++xd.x, pr+=offset, pg+=offset, pb+=offset)`. With
`PLANARCONFIG_CONTIG` the three pointers start at elements 0, 1, 2 of
`bufr`; otherwise at element 0 of `bufr`, `bufg`, `bufb`. In iteration `x`
each has been advanced `x` times by `offset`. -/
def rgbDeref (deref : List Nat → Nat → Option Value) (planarConfig offset : Nat)
    (b : RGBBuffers) (x : Nat) : Option RGBPixel :=
  let pr := deref b.bufr (0 + x * offset)
  let pg := if planarConfig = PLANARCONFIG_CONTIG then deref b.bufr (1 + x * offset)
            else deref b.bufg (0 + x * offset)
  let pb := if planarConfig = PLANARCONFIG_CONTIG then deref b.bufr (2 + x * offset)
            else deref b.bufb (0 + x * offset)
  match pr, pg, pb with
  | some r, some g, some b => some { red := r, green := g, blue := b }
  | _, _, _ => none

/-- The inner loop of the `PHOTOMETRIC_RGB` branch for row `y`. -/
def rgbRow {α : Type} (a : RGBAccessor α) (deref : List Nat → Nat → Option Value)
    (planarConfig offset w y : Nat) (s : RGBState α) : Result (RGBState α) :=
  forLoop w (fun x s =>
    match rgbDeref deref planarConfig offset s.bufs x with
    | some p => .ok { s with dest := s.dest.putRGB a x y p }
    | none => .undefined) s

/-- The scanline reads of row `y`: `TIFFReadScanline(tiff, bufr, y)` with
`PLANARCONFIG_CONTIG`; otherwise the three reads of samples 0, 1, 2 into
`bufr`, `bufg`, `bufb`. -/
def rgbRead (tiff : TiffImage) (planarConfig y : Nat) (b : RGBBuffers) : RGBBuffers :=
  if planarConfig = PLANARCONFIG_CONTIG then
    { b with bufr := TIFFReadScanline tiff b.bufr y 0 }
  else
    { bufr := TIFFReadScanline tiff b.bufr y 0
      bufg := TIFFReadScanline tiff b.bufg y 1
      bufb := TIFFReadScanline tiff b.bufb y 2 }

/-- The trace entries of the scanline reads of row `y`. -/
def rgbReadEvents (planarConfig y : Nat) : List Event :=
  if planarConfig = PLANARCONFIG_CONTIG then [.readScanline y 0]
  else [.readScanline y 0, .readScanline y 1, .readScanline y 2]

/-- The row loop of the `PHOTOMETRIC_RGB` branch: the scanline reads of the
row followed by the inner loop. -/
def rgbLoop {α : Type} (tiff : TiffImage) (a : RGBAccessor α)
    (deref : List Nat → Nat → Option Value) (planarConfig offset w h : Nat)
    (s : RGBState α) : Result (RGBState α) :=
  forLoop h (fun y s =>
    rgbRow a deref planarConfig offset w y
      { bufs := rgbRead tiff planarConfig y s.bufs
        dest := s.dest.log (rgbReadEvents planarConfig y) }) s

/-- The template `tiffToRGBImage(TiffImage * tiff, RGBImageIterator iter, RGBAccessor a)`. -/
def tiffToRGBImage {α : Type} (u : Indeterminate) (tiff : Option TiffImage)
    (a : RGBAccessor α) (d : Dest α) : Result (Dest α) :=
  match tiff with
  | none => .thrown .nullPointer d
  | some tiff =>
    let sampleFormat := TIFFGetField tiff .SAMPLEFORMAT 1
    let bitsPerSample := TIFFGetField tiff .BITSPERSAMPLE u.bitsPerSample
    let samplesPerPixel := TIFFGetField tiff .SAMPLESPERPIXEL u.samplesPerPixel
    let photometric := TIFFGetField tiff .PHOTOMETRIC u.photometric
    let planarConfig := TIFFGetField tiff .PLANARCONFIG u.planarConfig
    let w := TIFFGetField tiff .IMAGEWIDTH u.w
    let h := TIFFGetField tiff .IMAGELENGTH u.h
    let d := d.log [.getField .SAMPLEFORMAT, .getField .BITSPERSAMPLE,
      .getField .SAMPLESPERPIXEL, .getField .PHOTOMETRIC, .getField .PLANARCONFIG,
      .getField .IMAGEWIDTH, .getField .IMAGELENGTH]
    if ¬ (photometric = PHOTOMETRIC_RGB ∨ photometric = PHOTOMETRIC_PALETTE) then
      .thrown .notRGB d
    else if ¬ (sampleFormat ≠ SAMPLEFORMAT_VOID) then
      .thrown .undefinedPixeltype d
    else if photometric = PHOTOMETRIC_PALETTE then
      let raster := newBuffer u .raster (w * h)
      let d := d.log [.alloc .raster (w * h), .readRGBAImage w h]
      let body : Result (PaletteState α) :=
        match TIFFReadRGBAImage tiff raster with
        | none => .thrown .unableToRead { raster := raster, dest := d }
        | some raster => paletteLoop a w h { raster := raster, dest := d }
      -- `catch(...) { delete[] raster; throw; }` and the final `delete[] raster;`
      body.map fun s => s.dest.log [.release .raster]
    else if photometric = PHOTOMETRIC_RGB then
      if ¬ (samplesPerPixel = 3) then
        .thrown .samplesNot3 d
      else
        let bufsize := TIFFScanlineSize tiff
        let d := d.log [.scanlineSize, .alloc .bufr bufsize, .alloc .bufg bufsize,
          .alloc .bufb bufsize]
        let offset := if planarConfig = PLANARCONFIG_CONTIG then 3 else 1
        let s : RGBState α :=
          { bufs := { bufr := newBuffer u .bufr bufsize, bufg := newBuffer u .bufg bufsize,
                      bufb := newBuffer u .bufb bufsize }
            dest := d }
        let body : Result (RGBState α) :=
          match rgbSwitch sampleFormat bitsPerSample with
          | .ok deref => rgbLoop tiff a deref planarConfig offset w h s
          | .error e => .thrown e s
        -- the `catch(...)` block and the three final `delete[]`
        body.map fun s => s.dest.log [.release .bufr, .release .bufg, .release .bufb]
    else
      .thrown .internalError d

/-! ## createScalarTiffImage and createRGBTiffImage -/

/-- State of an encoding call: the handle being written and the trace. -/
structure Sink where
  tiff : TiffImage
  trace : List Event

/-- Local state of an encoder inside its row loop. -/
structure EncodeState where
  buf : List Nat
  sink : Sink

/-- One `TIFFSetField` call, recorded in the trace. -/
def Sink.setField (s : Sink) (tag : Tag) (v : Nat) : Sink :=
  { tiff := TIFFSetField s.tiff tag v, trace := s.trace ++ [.setField tag v] }

/-- One `TIFFWriteScanline(tiff, buf, y)` call, recorded in the trace. -/
def EncodeState.writeScanline (s : EncodeState) (y : Nat) : EncodeState :=
  { s with sink := { tiff := TIFFWriteScanline s.sink.tiff s.buf y
                     trace := s.sink.trace ++ [.writeScanline y s.buf] } }

/-- The common body of the five overloads of `createScalarTiffImage`, which
differ in the BitsPerSample and SampleFormat tags they set and in the
pointer type `T` of `p` (`k = sizeof(T)`); `cell x y` is the bit pattern
that `p[x] = a(xs)` stores for the source pixel at `(x, y)`. A null handle
is dereferenced by the first `TIFFSetField`. -/
def createScalarTiffImageOf (bits format k : Nat) (cell : Nat → Nat → Nat)
    (u : Indeterminate) (w h : Nat) (tiff : Option TiffImage) (trace : List Event) :
    Result Sink :=
  match tiff with
  | none => .undefined
  | some tiff =>
    let s : Sink := { tiff := tiff, trace := trace }
    let s := s.setField .IMAGEWIDTH w
    let s := s.setField .IMAGELENGTH h
    let s := s.setField .BITSPERSAMPLE bits
    let s := s.setField .SAMPLESPERPIXEL 1
    let s := s.setField .PLANARCONFIG PLANARCONFIG_CONTIG
    let s := s.setField .SAMPLEFORMAT format
    let s := s.setField .PHOTOMETRIC PHOTOMETRIC_MINISBLACK
    let bufsize := TIFFScanlineSize s.tiff
    let s := { s with trace := s.trace ++ [.scanlineSize, .alloc .buf bufsize] }
    let body : Result EncodeState :=
      forLoop h (fun y s =>
        (forLoop w (fun x s =>
          match writeLE k s.buf x (cell x y) with
          | some buf => .ok { s with buf := buf }
          | none => .undefined) s).bind fun s => .ok (s.writeScanline y))
        { buf := newBuffer u .buf bufsize, sink := s }
    -- `catch(...) { delete[] buf; throw; }` and the final `delete[] buf;`
    body.map fun s => { s.sink with trace := s.sink.trace ++ [.release .buf] }

/-- The overload `createScalarTiffImage(upperleft, lowerright, a, tiff, unsigned char)`
for a `w` by `h` source range; `src x y` is the value `a(xs)` at offset
`(x, y)`, stored through `uint8 * p`. -/
def createScalarTiffImage_uchar (u : Indeterminate) (w h : Nat) (src : Nat → Nat → Int)
    (tiff : Option TiffImage) (trace : List Event) : Result Sink :=
  createScalarTiffImageOf 8 SAMPLEFORMAT_UINT 1 (fun x y => toUnsigned 8 (src x y))
    u w h tiff trace

/-- The overload for `short`, stored through `int16 * p`. -/
def createScalarTiffImage_short (u : Indeterminate) (w h : Nat) (src : Nat → Nat → Int)
    (tiff : Option TiffImage) (trace : List Event) : Result Sink :=
  createScalarTiffImageOf 16 SAMPLEFORMAT_INT 2 (fun x y => toUnsigned 16 (src x y))
    u w h tiff trace

/-- The overload for `int`, stored through `int32 * p`. -/
def createScalarTiffImage_int (u : Indeterminate) (w h : Nat) (src : Nat → Nat → Int)
    (tiff : Option TiffImage) (trace : List Event) : Result Sink :=
  createScalarTiffImageOf 32 SAMPLEFORMAT_INT 4 (fun x y => toUnsigned 32 (src x y))
    u w h tiff trace

/-- The overload for `float`, stored through `float * p`; `src x y` is the
bit pattern of the value. `sizeof(float)*8` is 32. -/
def createScalarTiffImage_float (u : Indeterminate) (w h : Nat) (src : Nat → Nat → Nat)
    (tiff : Option TiffImage) (trace : List Event) : Result Sink :=
  createScalarTiffImageOf 32 SAMPLEFORMAT_IEEEFP 4 (fun x y => src x y % 2 ^ 32)
    u w h tiff trace

/-- The overload for `double`, stored through `double * p`; `src x y` is the
bit pattern of the value. `sizeof(double)*8` is 64. -/
def createScalarTiffImage_double (u : Indeterminate) (w h : Nat) (src : Nat → Nat → Nat)
    (tiff : Option TiffImage) (trace : List Event) : Result Sink :=
  createScalarTiffImageOf 64 SAMPLEFORMAT_IEEEFP 8 (fun x y => src x y % 2 ^ 64)
    u w h tiff trace

/-- The common body of the five overloads of `createRGBTiffImage`; `red x y`,
`green x y`, `blue x y` are the bit patterns that `*pr = a.red(xs)`,
`*pg = a.green(xs)`, `*pb = a.blue(xs)` store, through pointers of a type of
`k` bytes that start at elements 0, 1, 2 of `buf` and advance by 3. -/
def createRGBTiffImageOf (bits format k : Nat) (red green blue : Nat → Nat → Nat)
    (u : Indeterminate) (w h : Nat) (tiff : Option TiffImage) (trace : List Event) :
    Result Sink :=
  match tiff with
  | none => .undefined
  | some tiff =>
    let s : Sink := { tiff := tiff, trace := trace }
    let s := s.setField .IMAGEWIDTH w
    let s := s.setField .IMAGELENGTH h
    let s := s.setField .BITSPERSAMPLE bits
    let s := s.setField .SAMPLESPERPIXEL 3
    let s := s.setField .PLANARCONFIG PLANARCONFIG_CONTIG
    let s := s.setField .SAMPLEFORMAT format
    let s := s.setField .PHOTOMETRIC PHOTOMETRIC_RGB
    let bufsize := TIFFScanlineSize s.tiff
    let s := { s with trace := s.trace ++ [.scanlineSize, .alloc .buf bufsize] }
    let body : Result EncodeState :=
      forLoop h (fun y s =>
        (forLoop w (fun x s =>
          match writeLE k s.buf (0 + x * 3) (red x y) with
          | none => .undefined
          | some buf1 =>
            match writeLE k buf1 (1 + x * 3) (green x y) with
            | none => .undefined
            | some buf2 =>
              match writeLE k buf2 (2 + x * 3) (blue x y) with
              | none => .undefined
              | some buf3 => .ok { s with buf := buf3 }) s).bind
          fun s => .ok (s.writeScanline y))
        { buf := newBuffer u .buf bufsize, sink := s }
    -- `catch(...) { delete[] buf; throw; }` and the final `delete[] buf;`
    body.map fun s => { s.sink with trace := s.sink.trace ++ [.release .buf] }

/-- A source RGB pixel of integer component type. -/
structure RGBValue where
  red : Int
  green : Int
  blue : Int

/-- A source RGB pixel of floating component type, as bit patterns. -/
structure RGBBits where
  red : Nat
  green : Nat
  blue : Nat

/-- The overload `createRGBTiffImage(..., RGBValue<unsigned char>)`; the
components are stored through `uint8 *` pointers. -/
def createRGBTiffImage_uchar (u : Indeterminate) (w h : Nat) (src : Nat → Nat → RGBValue)
    (tiff : Option TiffImage) (trace : List Event) : Result Sink :=
  createRGBTiffImageOf 8 SAMPLEFORMAT_UINT 1
    (fun x y => toUnsigned 8 (src x y).red) (fun x y => toUnsigned 8 (src x y).green)
    (fun x y => toUnsigned 8 (src x y).blue) u w h tiff trace

/-- The overload for `RGBValue<short>`; the components are stored through
`uint16 *` pointers and the file is tagged `SAMPLEFORMAT_INT`. -/
def createRGBTiffImage_short (u : Indeterminate) (w h : Nat) (src : Nat → Nat → RGBValue)
    (tiff : Option TiffImage) (trace : List Event) : Result Sink :=
  createRGBTiffImageOf 16 SAMPLEFORMAT_INT 2
    (fun x y => toUnsigned 16 (src x y).red) (fun x y => toUnsigned 16 (src x y).green)
    (fun x y => toUnsigned 16 (src x y).blue) u w h tiff trace

/-- The overload for `RGBValue<int>`; the components are stored through
`uint32 *` pointers and the file is tagged `SAMPLEFORMAT_INT`. -/
def createRGBTiffImage_int (u : Indeterminate) (w h : Nat) (src : Nat → Nat → RGBValue)
    (tiff : Option TiffImage) (trace : List Event) : Result Sink :=
  createRGBTiffImageOf 32 SAMPLEFORMAT_INT 4
    (fun x y => toUnsigned 32 (src x y).red) (fun x y => toUnsigned 32 (src x y).green)
    (fun x y => toUnsigned 32 (src x y).blue) u w h tiff trace

/-- The overload for `RGBValue<float>`, stored through `float *` pointers. -/
def createRGBTiffImage_float (u : Indeterminate) (w h : Nat) (src : Nat → Nat → RGBBits)
    (tiff : Option TiffImage) (trace : List Event) : Result Sink :=
  createRGBTiffImageOf 32 SAMPLEFORMAT_IEEEFP 4
    (fun x y => (src x y).red % 2 ^ 32) (fun x y => (src x y).green % 2 ^ 32)
    (fun x y => (src x y).blue % 2 ^ 32) u w h tiff trace

/-- The overload for `RGBValue<double>`, stored through `double *` pointers. -/
def createRGBTiffImage_double (u : Indeterminate) (w h : Nat) (src : Nat → Nat → RGBBits)
    (tiff : Option TiffImage) (trace : List Event) : Result Sink :=
  createRGBTiffImageOf 64 SAMPLEFORMAT_IEEEFP 8
    (fun x y => (src x y).red % 2 ^ 64) (fun x y => (src x y).green % 2 ^ 64)
    (fun x y => (src x y).blue % 2 ^ 64) u w h tiff trace

/-- The four-argument template `createScalarTiffImage(upperleft, lowerright,
a, tiff)` forwards to the overload selected by the static type of
`a(upperleft)`; a source image therefore comes with its pixel type. -/
inductive ScalarSource where
  | uchar (f : Nat → Nat → Int)
  | short (f : Nat → Nat → Int)
  | int (f : Nat → Nat → Int)
  | float (f : Nat → Nat → Nat)
  | double (f : Nat → Nat → Nat)

/-- The template `createScalarTiffImage(upperleft, lowerright, a, tiff)`. -/
def createScalarTiffImage (u : Indeterminate) (w h : Nat) (src : ScalarSource)
    (tiff : Option TiffImage) (trace : List Event) : Result Sink :=
  match src with
  | .uchar f => createScalarTiffImage_uchar u w h f tiff trace
  | .short f => createScalarTiffImage_short u w h f tiff trace
  | .int f => createScalarTiffImage_int u w h f tiff trace
  | .float f => createScalarTiffImage_float u w h f tiff trace
  | .double f => createScalarTiffImage_double u w h f tiff trace

/-- A source RGB image with its component type, as selected by the
four-argument template `createRGBTiffImage(upperleft, lowerright, a, tiff)`. -/
inductive RGBSource where
  | uchar (f : Nat → Nat → RGBValue)
  | short (f : Nat → Nat → RGBValue)
  | int (f : Nat → Nat → RGBValue)
  | float (f : Nat → Nat → RGBBits)
  | double (f : Nat → Nat → RGBBits)

/-- The template `createRGBTiffImage(upperleft, lowerright, a, tiff)`. -/
def createRGBTiffImage (u : Indeterminate) (w h : Nat) (src : RGBSource)
    (tiff : Option TiffImage) (trace : List Event) : Result Sink :=
  match src with
  | .uchar f => createRGBTiffImage_uchar u w h f tiff trace
  | .short f => createRGBTiffImage_short u w h f tiff trace
  | .int f => createRGBTiffImage_int u w h f tiff trace
  | .float f => createRGBTiffImage_float u w h f tiff trace
  | .double f => createRGBTiffImage_double u w h f tiff trace

/-! ## Vocabulary of the statements -/

/-- The accessor that stores the value it is given (`*iter = v`) in an image
whose pixel type holds every sample value exactly. -/
def StandardValueAccessor : Accessor Value where
  set := fun v _ => v

/-- The accessor that stores each component it is given in the
corresponding component of the pixel. -/
def StandardRGBAccessor : RGBAccessor RGBPixel where
  setRed := fun v p => { p with red := v }
  setGreen := fun v p => { p with green := v }
  setBlue := fun v p => { p with blue := v }

/-- Element `i` of a scanline byte stream, for an element type of `k` bytes. -/
def elemOf (k : Nat) (data : Nat → Nat) (i : Nat) : Nat :=
  leValue ((List.range k).map fun j => data (k * i + j))

/-- The scanline buffer of `tiffToScalarImage` after the first `n` rows have
been read, starting from content `buf`. -/
def scanBuf (tiff : TiffImage) (buf : List Nat) : Nat → List Nat
  | 0 => buf
  | n + 1 => TIFFReadScanline tiff (scanBuf tiff buf n) n 0

/-- The pixel that results from the three setter calls of an RGB accessor. -/
def RGBAccessor.store {α : Type} (a : RGBAccessor α) (p : RGBPixel) (old : α) : α :=
  a.setBlue p.blue (a.setGreen p.green (a.setRed p.red old))

/-- The three scanline buffers of the `PHOTOMETRIC_RGB` branch after the
first `n` rows have been read. -/
def rgbBufs (tiff : TiffImage) (planarConfig : Nat) (b : RGBBuffers) : Nat → RGBBuffers
  | 0 => b
  | n + 1 => rgbRead tiff planarConfig n (rgbBufs tiff planarConfig b n)

/-- The accessor calls of one decoded RGB row. -/
def rgbRowTrace (v : Nat → RGBPixel) (y : Nat) : Nat → List Event
  | 0 => []
  | w + 1 => rgbRowTrace v y w ++
      [.setRed w y (v w).red, .setGreen w y (v w).green, .setBlue w y (v w).blue]

/-- The codec and accessor calls of the first `h` decoded rows of the
`PHOTOMETRIC_RGB` branch. -/
def rgbTrace (planarConfig : Nat) (v : Nat → Nat → RGBPixel) (w : Nat) : Nat → List Event
  | 0 => []
  | h + 1 => rgbTrace planarConfig v w h ++ rgbReadEvents planarConfig h ++
      rgbRowTrace (fun x => v x h) h w

/-- The seven tag reads at the start of `tiffToRGBImage`. -/
def rgbTagReads : List Event :=
  [.getField .SAMPLEFORMAT, .getField .BITSPERSAMPLE, .getField .SAMPLESPERPIXEL,
   .getField .PHOTOMETRIC, .getField .PLANARCONFIG, .getField .IMAGEWIDTH,
   .getField .IMAGELENGTH]

/-- The accessor calls of one decoded scalar row. -/
def rowTrace (v : Nat → Value) (w y : Nat) : List Event :=
  (List.range w).map fun x => Event.set x y (v x)

/-- The codec and accessor calls of the first `h` decoded scalar rows. -/
def scalarTrace (v : Nat → Nat → Value) (w : Nat) : Nat → List Event
  | 0 => []
  | h + 1 => scalarTrace v w h ++ (Event.readScanline h 0 :: rowTrace (fun x => v x h) w h)

/-- The seven tag reads at the start of `tiffToScalarImage`. -/
def scalarTagReads : List Event :=
  [.getField .SAMPLEFORMAT, .getField .BITSPERSAMPLE, .getField .SAMPLESPERPIXEL,
   .getField .FILLORDER, .getField .PHOTOMETRIC, .getField .IMAGEWIDTH,
   .getField .IMAGELENGTH]

/-- The calls of `tiffToScalarImage` before its row loop, once the three
preconditions on the tags hold. -/
def scalarPrelude (bufsize : Nat) : List Event :=
  scalarTagReads ++ [.scanlineSize, .alloc .buf bufsize]

/-- The value that `tiffToScalarImage` hands to the accessor for column `x`
of row `y`: the selected sample expression applied to the scanline buffer as
it is after the first `y + 1` scanline reads. -/
def scalarValue (u : Indeterminate) (tiff : TiffImage)
    (sample : List Nat → Nat → Option Value) (x y : Nat) : Value :=
  (sample (scanBuf tiff (newBuffer u .buf (TIFFScanlineSize tiff)) (y + 1)) x).getD (.int 0)

/-- The value of a raw element `raw` (an unsigned bit pattern) in the
fixed-width type that matches the sample format and bit width: an unsigned
integer, a two's-complement integer, a float or a double. -/
def sampleValue (format bits raw : Nat) : Value :=
  if format = SAMPLEFORMAT_IEEEFP then
    if bits = 32 then .float raw else .double raw
  else if format = SAMPLEFORMAT_INT then .int (toSigned bits raw)
  else .int (raw : Int)

/-- The raw sample at element `x` of a scanline byte stream, interpreted in
the fixed-width type that matches the sample format and bit width. -/
def rawSample (format bits : Nat) (row : Nat → Nat) (x : Nat) : Value :=
  sampleValue format bits (elemOf (bits / 8) row x)

/-- The three freshly allocated scanline buffers of the `PHOTOMETRIC_RGB`
branch. -/
def newRGBBuffers (u : Indeterminate) (bufsize : Nat) : RGBBuffers where
  bufr := newBuffer u .bufr bufsize
  bufg := newBuffer u .bufg bufsize
  bufb := newBuffer u .bufb bufsize

/-- The calls of the `PHOTOMETRIC_RGB` branch of `tiffToRGBImage` before its
row loop, once the preconditions on the tags hold. -/
def rgbPrelude (bufsize : Nat) : List Event :=
  rgbTagReads ++ [.scanlineSize, .alloc .bufr bufsize, .alloc .bufg bufsize,
    .alloc .bufb bufsize]

/-- The calls of the palette branch of `tiffToRGBImage` before its row loop. -/
def palettePrelude (w h : Nat) : List Event :=
  rgbTagReads ++ [.alloc .raster (w * h), .readRGBAImage w h]

/-- The pixel whose three components are the integer 0. -/
def zeroPixel : RGBPixel where
  red := .int 0
  green := .int 0
  blue := .int 0

/-- The three values that the `PHOTOMETRIC_RGB` branch hands to the accessor
for column `x` of row `y`: the dereferences applied to the buffers as they
are after the scanline reads of the first `y + 1` rows. -/
def rgbValue (u : Indeterminate) (tiff : TiffImage) (deref : List Nat → Nat → Option Value)
    (planarConfig : Nat) (x y : Nat) : RGBPixel :=
  (rgbDeref deref planarConfig (if planarConfig = PLANARCONFIG_CONTIG then 3 else 1)
    (rgbBufs tiff planarConfig (newRGBBuffers u (TIFFScanlineSize tiff)) (y + 1)) x).getD
    zeroPixel

/-- The pixel value of a scalar source image at `(x, y)`. -/
def ScalarSource.value : ScalarSource → Nat → Nat → Value
  | .uchar f, x, y => .int (f x y)
  | .short f, x, y => .int (f x y)
  | .int f, x, y => .int (f x y)
  | .float f, x, y => .float (f x y)
  | .double f, x, y => .double (f x y)

/-- Every pixel of the `w` by `h` range is a value of the image's pixel type. -/
def ScalarSource.WellTyped (w h : Nat) : ScalarSource → Prop
  | .uchar f => ∀ x y, x < w → y < h → 0 ≤ f x y ∧ f x y < 2 ^ 8
  | .short f => ∀ x y, x < w → y < h → -(2 ^ 15) ≤ f x y ∧ f x y < 2 ^ 15
  | .int f => ∀ x y, x < w → y < h → -(2 ^ 31) ≤ f x y ∧ f x y < 2 ^ 31
  | .float f => ∀ x y, x < w → y < h → f x y < 2 ^ 32
  | .double f => ∀ x y, x < w → y < h → f x y < 2 ^ 64

/-- Bytes per sample of the pixel type. -/
def ScalarSource.bytes : ScalarSource → Nat
  | .uchar _ => 1
  | .short _ => 2
  | .int _ => 4
  | .float _ => 4
  | .double _ => 8

/-- A pointer type of `k` bytes whose dereference yields `f` of the raw
element. -/
def DerefSpec (deref : List Nat → Nat → Option Value) (k : Nat) (f : Nat → Value) : Prop :=
  (∀ (buf : List Nat) i, k * i + k ≤ buf.length → (deref buf i).isSome) ∧
  ∀ n (row : Nat → Nat) i, k * i + k ≤ n →
    deref ((List.range n).map row) i = some (f (elemOf k row i))

/-- The bytes of the first `n` elements of an encoded scanline: element `i`
is the `k`-byte pattern of `c i`. -/
def encodeRow (k : Nat) (c : Nat → Nat) : Nat → List Nat
  | 0 => []
  | n + 1 => encodeRow k c n ++ leBytes k (c n)

/-- The handle after the first `n` scanlines `rowData 0`, ..., `rowData (n-1)`
have been passed to `TIFFWriteScanline`. -/
def writtenHandle (tiff : TiffImage) (rowData : Nat → List Nat) : Nat → TiffImage
  | 0 => tiff
  | n + 1 => TIFFWriteScanline (writtenHandle tiff rowData n) (rowData n) n

/-- The trace entries of the first `n` scanline writes. -/
def writtenTrace (rowData : Nat → List Nat) : Nat → List Event
  | 0 => []
  | n + 1 => writtenTrace rowData n ++ [.writeScanline n (rowData n)]

/-- The handle after the seven `TIFFSetField` calls of an encoder. -/
def writtenTags (tiff : TiffImage) (w h bits spp format photometric : Nat) : TiffImage :=
  TIFFSetField (TIFFSetField (TIFFSetField (TIFFSetField (TIFFSetField (TIFFSetField
    (TIFFSetField tiff .IMAGEWIDTH w) .IMAGELENGTH h) .BITSPERSAMPLE bits)
    .SAMPLESPERPIXEL spp) .PLANARCONFIG PLANARCONFIG_CONTIG) .SAMPLEFORMAT format)
    .PHOTOMETRIC photometric

/-- The calls of an encoder before its row loop. -/
def encodePrelude (w h bits spp format photometric bufsize : Nat) : List Event :=
  [.setField .IMAGEWIDTH w, .setField .IMAGELENGTH h, .setField .BITSPERSAMPLE bits,
   .setField .SAMPLESPERPIXEL spp, .setField .PLANARCONFIG PLANARCONFIG_CONTIG,
   .setField .SAMPLEFORMAT format, .setField .PHOTOMETRIC photometric,
   .scanlineSize, .alloc .buf bufsize]

/-- The scanline that an encoder passes to `TIFFWriteScanline`: `n` encoded
elements followed by what the freshly allocated buffer held beyond them. -/
def encodedRow (u : Indeterminate) (bufsize k n : Nat) (c : Nat → Nat) : List Nat :=
  encodeRow k c n ++ (newBuffer u .buf bufsize).drop (k * n)

/-- Element `i` of an interleaved RGB scanline: the red, green or blue cell
of pixel `i / 3`. -/
def interleave (red green blue : Nat → Nat) (i : Nat) : Nat :=
  if i % 3 = 0 then red (i / 3) else if i % 3 = 1 then green (i / 3) else blue (i / 3)

/-- The pixel of an RGB source image at `(x, y)`, as the three values that
an exact destination would hold. -/
def RGBSource.value : RGBSource → Nat → Nat → RGBPixel
  | .uchar f, x, y =>
    { red := .int (f x y).red, green := .int (f x y).green, blue := .int (f x y).blue }
  | .short f, x, y =>
    { red := .int (f x y).red, green := .int (f x y).green, blue := .int (f x y).blue }
  | .int f, x, y =>
    { red := .int (f x y).red, green := .int (f x y).green, blue := .int (f x y).blue }
  | .float f, x, y =>
    { red := .float (f x y).red, green := .float (f x y).green, blue := .float (f x y).blue }
  | .double f, x, y =>
    { red := .double (f x y).red, green := .double (f x y).green, blue := .double (f x y).blue }

/-- Every component of an integer RGB pixel lies in `lo ≤ c < hi`. -/
def RGBValue.Within (p : RGBValue) (lo hi : Int) : Prop :=
  (lo ≤ p.red ∧ p.red < hi) ∧ (lo ≤ p.green ∧ p.green < hi) ∧ (lo ≤ p.blue ∧ p.blue < hi)

/-- Every component of a bit-pattern RGB pixel is below `hi`. -/
def RGBBits.Below (p : RGBBits) (hi : Nat) : Prop :=
  p.red < hi ∧ p.green < hi ∧ p.blue < hi

/-- Every component of every pixel of the `w` by `h` range is a value of the
image's component type. -/
def RGBSource.WellTyped (w h : Nat) : RGBSource → Prop
  | .uchar f => ∀ x y, x < w → y < h → (f x y).Within 0 (2 ^ 8)
  | .short f => ∀ x y, x < w → y < h → (f x y).Within (-(2 ^ 15)) (2 ^ 15)
  | .int f => ∀ x y, x < w → y < h → (f x y).Within (-(2 ^ 31)) (2 ^ 31)
  | .float f => ∀ x y, x < w → y < h → (f x y).Below (2 ^ 32)
  | .double f => ∀ x y, x < w → y < h → (f x y).Below (2 ^ 64)

/-- Bytes per component of the component type. -/
def RGBSource.bytes : RGBSource → Nat
  | .uchar _ => 1
  | .short _ => 2
  | .int _ => 4
  | .float _ => 4
  | .double _ => 8

/-! ## Example inputs -/

/-- A tag store in which all eight tags are present. -/
def exampleTags (w h bits spp format photometric planar fill : Nat) : Tags
  | .IMAGEWIDTH => some w
  | .IMAGELENGTH => some h
  | .BITSPERSAMPLE => some bits
  | .SAMPLESPERPIXEL => some spp
  | .SAMPLEFORMAT => some format
  | .PHOTOMETRIC => some photometric
  | .PLANARCONFIG => some planar
  | .FILLORDER => some fill

/-- A readable file with the given tags and scanline size in which every
scanline of every sample plane is the byte stream `row`. -/
def exampleHandle (tags : Tags) (size : Nat) (row : Nat → Nat) : TiffImage where
  tags := tags
  scanlineSize := fun _ => size
  rows := fun _ _ => some row
  writeFails := fun _ => false
  rgba := none

/-- A readable indexed-colour file with the given tags whose expansion
primitive yields `raster`; its scanlines cannot be read one by one. -/
def exampleIndexed (tags : Tags) (raster : Nat → Nat) : TiffImage where
  tags := tags
  scanlineSize := fun _ => 0
  rows := fun _ _ => none
  writeFails := fun _ => false
  rgba := some raster

/-- A readable planar file with the given tags and scanline size in which
every scanline of sample plane 0, 1, 2 is the byte stream `rr`, `rg`, `rb`. -/
def examplePlanar (tags : Tags) (size : Nat) (rr rg rb : Nat → Nat) : TiffImage where
  tags := tags
  scanlineSize := fun _ => size
  rows := fun _ s => if s = 0 then some rr else if s = 1 then some rg else some rb
  writeFails := fun _ => false
  rgba := none

/-- Indeterminate values that are all zero. -/
def zeroIndeterminate : Indeterminate where
  bitsPerSample := 0
  fillorder := 0
  samplesPerPixel := 0
  photometric := 0
  planarConfig := 0
  w := 0
  h := 0
  heap := fun _ _ => 0

/-- A scalar destination whose pixels are all `-7`, with an empty trace. -/
def blankImage : Dest Value where
  image := fun _ _ => .int (-7)
  trace := []

/-- An RGB destination whose pixels are all `(-7, -7, -7)`, with an empty
trace. -/
def blankRGBImage : Dest RGBPixel where
  image := fun _ _ => { red := .int (-7), green := .int (-7), blue := .int (-7) }
  trace := []

/-- A handle on which no tag has been set and nothing has been written, of a
codec that reports `ceil(ImageWidth * SamplesPerPixel * BitsPerSample / 8)`
bytes per scanline and whose writes succeed. -/
def freshHandle : TiffImage where
  tags := fun _ => none
  scanlineSize := fun tags =>
    ((tags .IMAGEWIDTH).getD 0 * (tags .SAMPLESPERPIXEL).getD 1 * (tags .BITSPERSAMPLE).getD 1
      + 7) / 8
  rows := fun _ _ => none
  writeFails := fun _ => false
  rgba := none

/-! ## Vocabulary of the error-handling statements -/

/-- The (SampleFormat, BitsPerSample) pairs that scalar decoding supports:
unsigned or signed integers of 1, 8, 16 or 32 bits, and IEEE floats of 32 or
64 bits. -/
def ScalarSupported (format bits : Nat) : Prop :=
  (format = SAMPLEFORMAT_UINT ∨ format = SAMPLEFORMAT_INT) ∧
      (bits = 1 ∨ bits = 8 ∨ bits = 16 ∨ bits = 32) ∨
    format = SAMPLEFORMAT_IEEEFP ∧ (bits = 32 ∨ bits = 64)

instance (format bits : Nat) : Decidable (ScalarSupported format bits) :=
  inferInstanceAs (Decidable
    ((format = SAMPLEFORMAT_UINT ∨ format = SAMPLEFORMAT_INT) ∧
        (bits = 1 ∨ bits = 8 ∨ bits = 16 ∨ bits = 32) ∨
      format = SAMPLEFORMAT_IEEEFP ∧ (bits = 32 ∨ bits = 64)))

/-- The (SampleFormat, BitsPerSample) pairs that three-channel decoding
supports: unsigned or signed integers of 8, 16 or 32 bits, and IEEE floats
of 32 or 64 bits. -/
def RGBSupported (format bits : Nat) : Prop :=
  (format = SAMPLEFORMAT_UINT ∨ format = SAMPLEFORMAT_INT) ∧
      (bits = 8 ∨ bits = 16 ∨ bits = 32) ∨
    format = SAMPLEFORMAT_IEEEFP ∧ (bits = 32 ∨ bits = 64)

instance (format bits : Nat) : Decidable (RGBSupported format bits) :=
  inferInstanceAs (Decidable
    ((format = SAMPLEFORMAT_UINT ∨ format = SAMPLEFORMAT_INT) ∧
        (bits = 8 ∨ bits = 16 ∨ bits = 32) ∨
      format = SAMPLEFORMAT_IEEEFP ∧ (bits = 32 ∨ bits = 64)))

/-- A file with the given tags and scanline size none of whose scanlines the
codec can read. -/
def exampleUnreadable (tags : Tags) (size : Nat) : TiffImage where
  tags := tags
  scanlineSize := fun _ => size
  rows := fun _ _ => none
  writeFails := fun _ => false
  rgba := none

/-- A handle like `freshHandle` whose every scanline write reports failure. -/
def exampleUnwritable : TiffImage where
  tags := fun _ => none
  scanlineSize := fun tags =>
    ((tags .IMAGEWIDTH).getD 0 * (tags .SAMPLESPERPIXEL).getD 1 * (tags .BITSPERSAMPLE).getD 1
      + 7) / 8
  rows := fun _ _ => none
  writeFails := fun _ => true
  rgba := none

/-- Whether the failure is raised by `precondition(...)`, as opposed to
`fail(...)`: the two functions throw exceptions of different classes. -/
def Failure.isPrecondition : Failure → Bool
  | .nullPointer => true
  | .notGrayscale => true
  | .multiband => true
  | .undefinedPixeltype => true
  | .notRGB => true
  | .samplesNot3 => true
  | .unsupportedBits => false
  | .unableToRead => false
  | .internalError => false
  | .foreign => false

/-- Indeterminate values in which every byte of fresh heap memory is 99 and
every uninitialised local is zero. -/
def exampleStale : Indeterminate where
  bitsPerSample := 0
  fillorder := 0
  samplesPerPixel := 0
  photometric := 0
  planarConfig := 0
  w := 0
  h := 0
  heap := fun _ _ => 99

/-! ## importTiffImage and createTiffImage -/

/-- The accessor handed to `importTiffImage`, with the static property
`NumericTraits<Accessor::value_type>::isScalar` of its value type:
`VigraTrueType` for a scalar accessor, `VigraFalseType` for a vector (RGB)
accessor. -/
inductive DestAccessor (α : Type) where
  | isScalar (a : Accessor α)
  | isVector (a : RGBAccessor α)

/-- The template `importTiffImage(tiff, iter, a)`: it forwards to the overload
chosen by `isScalar()`, which calls `tiffToScalarImage(tiff, iter, a)` for
`VigraTrueType` and `tiffToRGBImage(tiff, iter, a)` for `VigraFalseType`. -/
def importTiffImage {α : Type} (u : Indeterminate) (tiff : Option TiffImage)
    (a : DestAccessor α) (d : Dest α) : Result (Dest α) :=
  match a with
  | .isScalar a => tiffToScalarImage u tiff a d
  | .isVector a => tiffToRGBImage u tiff a d

/-- The source image handed to `createTiffImage`, with the static property
`isScalar` of its value type and the value type itself. -/
inductive Source where
  | isScalar (src : ScalarSource)
  | isVector (src : RGBSource)

/-- The template `createTiffImage(upperleft, lowerright, a, tiff)`: it
forwards to the overload chosen by `isScalar()`, which calls
`createScalarTiffImage(upperleft, lowerright, a, tiff, a(upperleft))` for
`VigraTrueType` and `createRGBTiffImage(upperleft, lowerright, a, tiff,
a(upperleft))` for `VigraFalseType`. -/
def createTiffImage (u : Indeterminate) (w h : Nat) (src : Source)
    (tiff : Option TiffImage) (trace : List Event) : Result Sink :=
  match src with
  | .isScalar src => createScalarTiffImage u w h src tiff trace
  | .isVector src => createRGBTiffImage u w h src tiff trace

/-! ## Vocabulary of the encoding statements -/

/-- The pair (BitsPerSample, SampleFormat) that the statement of
`createScalarTiffImage` names for each pixel type: (8, UnsignedInt) for
unsigned char, (16, SignedInt) for short, (32, SignedInt) for int,
(32, IEEEFloat) for float and (64, IEEEFloat) for double. -/
def ScalarSource.encoding : ScalarSource → Nat × Nat
  | .uchar _ => (8, SAMPLEFORMAT_UINT)
  | .short _ => (16, SAMPLEFORMAT_INT)
  | .int _ => (32, SAMPLEFORMAT_INT)
  | .float _ => (32, SAMPLEFORMAT_IEEEFP)
  | .double _ => (64, SAMPLEFORMAT_IEEEFP)

/-- The pair (BitsPerSample, SampleFormat) that the statement of
`createRGBTiffImage` names for each component type. -/
def RGBSource.encoding : RGBSource → Nat × Nat
  | .uchar _ => (8, SAMPLEFORMAT_UINT)
  | .short _ => (16, SAMPLEFORMAT_INT)
  | .int _ => (32, SAMPLEFORMAT_INT)
  | .float _ => (32, SAMPLEFORMAT_IEEEFP)
  | .double _ => (64, SAMPLEFORMAT_IEEEFP)

/-- The seven `TIFFSetField` calls of an encoder, in the order of the source. -/
def tagWrites (w h bits spp format photometric : Nat) : List Event :=
  [.setField .IMAGEWIDTH w, .setField .IMAGELENGTH h, .setField .BITSPERSAMPLE bits,
   .setField .SAMPLESPERPIXEL spp, .setField .PLANARCONFIG PLANARCONFIG_CONTIG,
   .setField .SAMPLEFORMAT format, .setField .PHOTOMETRIC photometric]

/-- The integer held by an integer value; 0 for a floating value. -/
def Value.toInt : Value → Int
  | .int i => i
  | .float _ => 0
  | .double _ => 0

/-- A decoded image whose pixel type is `unsigned char`, as the source of an
encoding call. -/
def ucharImage (image : Nat → Nat → Value) : ScalarSource :=
  .uchar fun x y => (image x y).toInt

/-- A tag store like `exampleTags` in which the SampleFormat tag is absent. -/
def exampleTagsNoFormat (w h bits spp photometric planar fill : Nat) : Tags
  | .IMAGEWIDTH => some w
  | .IMAGELENGTH => some h
  | .BITSPERSAMPLE => some bits
  | .SAMPLESPERPIXEL => some spp
  | .SAMPLEFORMAT => none
  | .PHOTOMETRIC => some photometric
  | .PLANARCONFIG => some planar
  | .FILLORDER => some fill
/-! ## Conversion with accessors that may throw

The definitions above take accessors whose calls always return. The
`try { ... } catch(...) { delete[] buf; throw; }` blocks of `tiff.hxx` exist
for the case that an accessor call throws; the definitions of this section
are the same functions with accessors that may throw. -/

/-- A scalar destination accessor whose call may throw: `set x y v p` is the
pixel that results from `a.set(v, iter)` at cursor `(x, y)` when the pixel
there was `p`, or `none` when the call throws. -/
structure ThrowingAccessor (α : Type) where
  set : Nat → Nat → Value → α → Option α

/-- An RGB destination accessor whose three setters may throw. -/
structure ThrowingRGBAccessor (α : Type) where
  setRed : Nat → Nat → Value → α → Option α
  setGreen : Nat → Nat → Value → α → Option α
  setBlue : Nat → Nat → Value → α → Option α

/-- One accessor call at cursor `(x, y)` that may throw; the call is recorded
in the trace in both cases. -/
def Dest.tryPut {α : Type} (d : Dest α) (x y : Nat) (f : α → Option α) (e : Event) :
    Result (Dest α) :=
  match f (d.image x y) with
  | some p => .ok (d.put x y (fun _ => p) e)
  | none => .thrown .foreign (d.log [e])

/-- The inner loop of `tiffToScalarImage` for row `y`, with an accessor that
may throw. -/
def scalarRowT {α : Type} (a : ThrowingAccessor α) (sample : List Nat → Nat → Option Value)
    (w y : Nat) (s : ScalarState α) : Result (ScalarState α) :=
  forLoop w (fun x s =>
    match sample s.buf x with
    | some v => (s.dest.tryPut x y (a.set x y v) (.set x y v)).map fun d => { s with dest := d }
    | none => .undefined) s

/-- The row loop of `tiffToScalarImage`, with an accessor that may throw. -/
def scalarLoopT {α : Type} (tiff : TiffImage) (a : ThrowingAccessor α)
    (sample : List Nat → Nat → Option Value) (w h : Nat) (s : ScalarState α) :
    Result (ScalarState α) :=
  forLoop h (fun y s =>
    scalarRowT a sample w y
      { buf := TIFFReadScanline tiff s.buf y 0, dest := s.dest.log [.readScanline y 0] }) s

/-- The template `tiffToScalarImage(tiff, iter, a)` for an accessor that may
throw. -/
def tiffToScalarImageT {α : Type} (u : Indeterminate) (tiff : Option TiffImage)
    (a : ThrowingAccessor α) (d : Dest α) : Result (Dest α) :=
  match tiff with
  | none => .thrown .nullPointer d
  | some tiff =>
    let sampleFormat := TIFFGetField tiff .SAMPLEFORMAT 1
    let bitsPerSample := TIFFGetField tiff .BITSPERSAMPLE u.bitsPerSample
    let samplesPerPixel := TIFFGetField tiff .SAMPLESPERPIXEL u.samplesPerPixel
    let fillorder := TIFFGetField tiff .FILLORDER u.fillorder
    let photometric := TIFFGetField tiff .PHOTOMETRIC u.photometric
    let w := TIFFGetField tiff .IMAGEWIDTH u.w
    let h := TIFFGetField tiff .IMAGELENGTH u.h
    let d := d.log [.getField .SAMPLEFORMAT, .getField .BITSPERSAMPLE,
      .getField .SAMPLESPERPIXEL, .getField .FILLORDER, .getField .PHOTOMETRIC,
      .getField .IMAGEWIDTH, .getField .IMAGELENGTH]
    if ¬ (photometric = PHOTOMETRIC_MINISWHITE ∨ photometric = PHOTOMETRIC_MINISBLACK) then
      .thrown .notGrayscale d
    else if ¬ (samplesPerPixel = 1) then
      .thrown .multiband d
    else if ¬ (sampleFormat ≠ SAMPLEFORMAT_VOID) then
      .thrown .undefinedPixeltype d
    else
      let bufsize := TIFFScanlineSize tiff
      let buf := newBuffer u .buf bufsize
      let d := d.log [.scanlineSize, .alloc .buf bufsize]
      let offset : Int := if photometric = PHOTOMETRIC_MINISWHITE then 255 else 0
      let scale : Int := if photometric = PHOTOMETRIC_MINISWHITE then -1 else 1
      let max : Int := if photometric = PHOTOMETRIC_MINISWHITE then 0 else 255
      let min : Int := if photometric = PHOTOMETRIC_MINISWHITE then 255 else 0
      let body : Result (ScalarState α) :=
        match scalarSwitch sampleFormat bitsPerSample fillorder offset scale max min with
        | .ok sample => scalarLoopT tiff a sample w h { buf := buf, dest := d }
        | .error e => .thrown e { buf := buf, dest := d }
      -- `catch(...) { delete[] buf; throw; }` and the final `delete[] buf;`
      body.map fun s => s.dest.log [.release .buf]

/-- The three accessor calls `a.setRed(r, xd); a.setGreen(g, xd);
a.setBlue(b, xd);` at cursor `(x, y)`, each of which may throw. -/
def Dest.tryPutRGB {α : Type} (d : Dest α) (a : ThrowingRGBAccessor α) (x y : Nat)
    (p : RGBPixel) : Result (Dest α) :=
  ((d.tryPut x y (a.setRed x y p.red) (.setRed x y p.red)).bind fun d =>
    d.tryPut x y (a.setGreen x y p.green) (.setGreen x y p.green)).bind fun d =>
    d.tryPut x y (a.setBlue x y p.blue) (.setBlue x y p.blue)

/-- The inner loop of the palette branch for row `y`, with an accessor that
may throw. -/
def paletteRowT {α : Type} (a : ThrowingRGBAccessor α) (w y : Nat) (s : PaletteState α) :
    Result (PaletteState α) :=
  forLoop w (fun x s =>
    match s.raster[x + y * w]? with
    | some p => (s.dest.tryPutRGB a x y (palettePixel p)).map fun d => { s with dest := d }
    | none => .undefined) s

/-- The row loop of the palette branch, with an accessor that may throw. -/
def paletteLoopT {α : Type} (a : ThrowingRGBAccessor α) (w h : Nat) (s : PaletteState α) :
    Result (PaletteState α) :=
  forLoop h (fun y s => paletteRowT a w y s) s

/-- The inner loop of the `PHOTOMETRIC_RGB` branch for row `y`, with an
accessor that may throw. -/
def rgbRowT {α : Type} (a : ThrowingRGBAccessor α) (deref : List Nat → Nat → Option Value)
    (planarConfig offset w y : Nat) (s : RGBState α) : Result (RGBState α) :=
  forLoop w (fun x s =>
    match rgbDeref deref planarConfig offset s.bufs x with
    | some p => (s.dest.tryPutRGB a x y p).map fun d => { s with dest := d }
    | none => .undefined) s

/-- The row loop of the `PHOTOMETRIC_RGB` branch, with an accessor that may
throw. -/
def rgbLoopT {α : Type} (tiff : TiffImage) (a : ThrowingRGBAccessor α)
    (deref : List Nat → Nat → Option Value) (planarConfig offset w h : Nat)
    (s : RGBState α) : Result (RGBState α) :=
  forLoop h (fun y s =>
    rgbRowT a deref planarConfig offset w y
      { bufs := rgbRead tiff planarConfig y s.bufs
        dest := s.dest.log (rgbReadEvents planarConfig y) }) s

/-- The template `tiffToRGBImage(tiff, iter, a)` for an accessor that may
throw. -/
def tiffToRGBImageT {α : Type} (u : Indeterminate) (tiff : Option TiffImage)
    (a : ThrowingRGBAccessor α) (d : Dest α) : Result (Dest α) :=
  match tiff with
  | none => .thrown .nullPointer d
  | some tiff =>
    let sampleFormat := TIFFGetField tiff .SAMPLEFORMAT 1
    let bitsPerSample := TIFFGetField tiff .BITSPERSAMPLE u.bitsPerSample
    let samplesPerPixel := TIFFGetField tiff .SAMPLESPERPIXEL u.samplesPerPixel
    let photometric := TIFFGetField tiff .PHOTOMETRIC u.photometric
    let planarConfig := TIFFGetField tiff .PLANARCONFIG u.planarConfig
    let w := TIFFGetField tiff .IMAGEWIDTH u.w
    let h := TIFFGetField tiff .IMAGELENGTH u.h
    let d := d.log [.getField .SAMPLEFORMAT, .getField .BITSPERSAMPLE,
      .getField .SAMPLESPERPIXEL, .getField .PHOTOMETRIC, .getField .PLANARCONFIG,
      .getField .IMAGEWIDTH, .getField .IMAGELENGTH]
    if ¬ (photometric = PHOTOMETRIC_RGB ∨ photometric = PHOTOMETRIC_PALETTE) then
      .thrown .notRGB d
    else if ¬ (sampleFormat ≠ SAMPLEFORMAT_VOID) then
      .thrown .undefinedPixeltype d
    else if photometric = PHOTOMETRIC_PALETTE then
      let raster := newBuffer u .raster (w * h)
      let d := d.log [.alloc .raster (w * h), .readRGBAImage w h]
      let body : Result (PaletteState α) :=
        match TIFFReadRGBAImage tiff raster with
        | none => .thrown .unableToRead { raster := raster, dest := d }
        | some raster => paletteLoopT a w h { raster := raster, dest := d }
      -- `catch(...) { delete[] raster; throw; }` and the final `delete[] raster;`
      body.map fun s => s.dest.log [.release .raster]
    else if photometric = PHOTOMETRIC_RGB then
      if ¬ (samplesPerPixel = 3) then
        .thrown .samplesNot3 d
      else
        let bufsize := TIFFScanlineSize tiff
        let d := d.log [.scanlineSize, .alloc .bufr bufsize, .alloc .bufg bufsize,
          .alloc .bufb bufsize]
        let offset := if planarConfig = PLANARCONFIG_CONTIG then 3 else 1
        let s : RGBState α :=
          { bufs := { bufr := newBuffer u .bufr bufsize, bufg := newBuffer u .bufg bufsize,
                      bufb := newBuffer u .bufb bufsize }
            dest := d }
        let body : Result (RGBState α) :=
          match rgbSwitch sampleFormat bitsPerSample with
          | .ok deref => rgbLoopT tiff a deref planarConfig offset w h s
          | .error e => .thrown e s
        -- the `catch(...)` block and the three final `delete[]`
        body.map fun s => s.dest.log [.release .bufr, .release .bufg, .release .bufb]
    else
      .thrown .internalError d

/-- The common body of the overloads of `createScalarTiffImage` for a source
accessor that may throw: `cell x y` is the bit pattern that `p[x] = a(xs)`
stores, or `none` when `a(xs)` throws. -/
def createScalarTiffImageOfT (bits format k : Nat) (cell : Nat → Nat → Option Nat)
    (u : Indeterminate) (w h : Nat) (tiff : Option TiffImage) (trace : List Event) :
    Result Sink :=
  match tiff with
  | none => .undefined
  | some tiff =>
    let s : Sink := { tiff := tiff, trace := trace }
    let s := s.setField .IMAGEWIDTH w
    let s := s.setField .IMAGELENGTH h
    let s := s.setField .BITSPERSAMPLE bits
    let s := s.setField .SAMPLESPERPIXEL 1
    let s := s.setField .PLANARCONFIG PLANARCONFIG_CONTIG
    let s := s.setField .SAMPLEFORMAT format
    let s := s.setField .PHOTOMETRIC PHOTOMETRIC_MINISBLACK
    let bufsize := TIFFScanlineSize s.tiff
    let s := { s with trace := s.trace ++ [.scanlineSize, .alloc .buf bufsize] }
    let body : Result EncodeState :=
      forLoop h (fun y s =>
        (forLoop w (fun x s =>
          match cell x y with
          | none => .thrown .foreign s
          | some c =>
            match writeLE k s.buf x c with
            | some buf => .ok { s with buf := buf }
            | none => .undefined) s).bind fun s => .ok (s.writeScanline y))
        { buf := newBuffer u .buf bufsize, sink := s }
    -- `catch(...) { delete[] buf; throw; }` and the final `delete[] buf;`
    body.map fun s => { s.sink with trace := s.sink.trace ++ [.release .buf] }

/-- The common body of the overloads of `createRGBTiffImage` for a source
accessor whose component reads `a.red(xs)`, `a.green(xs)`, `a.blue(xs)` may
throw. -/
def createRGBTiffImageOfT (bits format k : Nat) (red green blue : Nat → Nat → Option Nat)
    (u : Indeterminate) (w h : Nat) (tiff : Option TiffImage) (trace : List Event) :
    Result Sink :=
  match tiff with
  | none => .undefined
  | some tiff =>
    let s : Sink := { tiff := tiff, trace := trace }
    let s := s.setField .IMAGEWIDTH w
    let s := s.setField .IMAGELENGTH h
    let s := s.setField .BITSPERSAMPLE bits
    let s := s.setField .SAMPLESPERPIXEL 3
    let s := s.setField .PLANARCONFIG PLANARCONFIG_CONTIG
    let s := s.setField .SAMPLEFORMAT format
    let s := s.setField .PHOTOMETRIC PHOTOMETRIC_RGB
    let bufsize := TIFFScanlineSize s.tiff
    let s := { s with trace := s.trace ++ [.scanlineSize, .alloc .buf bufsize] }
    let body : Result EncodeState :=
      forLoop h (fun y s =>
        (forLoop w (fun x s =>
          match red x y with
          | none => .thrown .foreign s
          | some r =>
            match writeLE k s.buf (0 + x * 3) r with
            | none => .undefined
            | some buf1 =>
              match green x y with
              | none => .thrown .foreign { s with buf := buf1 }
              | some g =>
                match writeLE k buf1 (1 + x * 3) g with
                | none => .undefined
                | some buf2 =>
                  match blue x y with
                  | none => .thrown .foreign { s with buf := buf2 }
                  | some b =>
                    match writeLE k buf2 (2 + x * 3) b with
                    | none => .undefined
                    | some buf3 => .ok { s with buf := buf3 }) s).bind
          fun s => .ok (s.writeScanline y))
        { buf := newBuffer u .buf bufsize, sink := s }
    -- `catch(...) { delete[] buf; throw; }` and the final `delete[] buf;`
    body.map fun s => { s.sink with trace := s.sink.trace ++ [.release .buf] }

/-- The accessor that never throws and stores what `a` stores. -/
def Accessor.total {α : Type} (a : Accessor α) : ThrowingAccessor α where
  set := fun _ _ v p => some (a.set v p)

/-- The RGB accessor that never throws and stores what `a` stores. -/
def RGBAccessor.total {α : Type} (a : RGBAccessor α) : ThrowingRGBAccessor α where
  setRed := fun _ _ v p => some (a.setRed v p)
  setGreen := fun _ _ v p => some (a.setGreen v p)
  setBlue := fun _ _ v p => some (a.setBlue v p)

/-! ## Vocabulary of the resource-safety statement -/

/-- Whether a call is an allocation or a release of a buffer. -/
def Event.isHeap : Event → Bool
  | .alloc _ _ => true
  | .release _ => true
  | _ => false

/-- The allocations and releases among a sequence of calls, in order. -/
def heapEvents (t : List Event) : List Event :=
  t.filter Event.isHeap

/-- The buffers that are live after a sequence of calls, starting from the
live buffers `live`: an allocation adds its buffer, a release removes it. -/
def liveAfter (live : List Buffer) : List Event → List Buffer
  | [] => live
  | .alloc b _ :: t => liveAfter (b :: live) t
  | .release b :: t => liveAfter (live.erase b) t
  | _ :: t => liveAfter live t

/-- The calls `l` allocate the distinct buffers `bs` (with their sizes), then
release each of them once, and make no other allocation or release. -/
def ReleasesAll (bs : List (Buffer × Nat)) (l : List Event) : Prop :=
  (bs.map Prod.fst).Nodup ∧
  heapEvents l = (bs.map fun p => Event.alloc p.1 p.2) ++ (bs.map fun p => Event.release p.1)

/-- The trace `t1` extends the trace `t0` by calls that release every buffer
they allocate exactly once, so that no buffer is live after them. -/
def Balanced (t0 t1 : List Event) : Prop :=
  ∃ l bs, t1 = t0 ++ l ∧ ReleasesAll bs l ∧ liveAfter [] l = []

/-- The property `P` holds of the state in which the code returned or threw. -/
def Result.All {σ : Type} (P : σ → Prop) : Result σ → Prop
  | .ok s => P s
  | .thrown _ s => P s
  | .undefined => True

/-- A scalar accessor that throws at row `row` and stores the value
elsewhere. -/
def exampleFailingAccessor (row : Nat) : ThrowingAccessor Value where
  set := fun _ y v _ => if y = row then none else some v

/-- An RGB accessor whose green setter throws at row `row`. -/
def exampleFailingRGBAccessor (row : Nat) : ThrowingRGBAccessor RGBPixel where
  setRed := fun _ _ v p => some { p with red := v }
  setGreen := fun _ y v p => if y = row then none else some { p with green := v }
  setBlue := fun _ _ v p => some { p with blue := v }

/-- The trace `t` extends the trace `t0` by calls whose allocations and
releases are `H`. -/
def Extends (t0 H t : List Event) : Prop :=
  ∃ l, t = t0 ++ l ∧ heapEvents l = H

/-! ## Vocabulary of the 1-bit statements -/

/-- The intensity that the statements about 1-bit decoding assign to column
`x` of a packed scanline `row`: the bit of byte `x div 8` at position
`7 - x mod 8` when the fill order is most-significant-bit-first, and at
position `x mod 8` otherwise, mapped to 255 (set) or 0 (clear) under
MinIsBlack and to 0 (set) or 255 (clear) under MinIsWhite. -/
def bitIntensity (fill p : Nat) (row : Nat → Nat) (x : Nat) : Int :=
  if (row (x / 8)).testBit (if fill = FILLORDER_MSB2LSB then 7 - x % 8 else x % 8) = true then
    (if p = PHOTOMETRIC_MINISWHITE then 0 else 255)
  else
    (if p = PHOTOMETRIC_MINISWHITE then 255 else 0)

/-- The byte whose bit `i` is bit `7 - i` of the byte `b`. -/
def reverseBits8 (b : Nat) : Nat :=
  (b / 128 % 2) + 2 * (b / 64 % 2) + 4 * (b / 32 % 2) + 8 * (b / 16 % 2) +
    16 * (b / 8 % 2) + 32 * (b / 4 % 2) + 64 * (b / 2 % 2) + 128 * (b % 2)

/-- The file whose FillOrder tag is `fill` and in which every byte of every
scanline of `tiff` has its 8 bits reversed. -/
def reverseFill (tiff : TiffImage) (fill : Nat) : TiffImage :=
  { TIFFSetField tiff .FILLORDER fill with
    rows := fun y s => (tiff.rows y s).map fun row i => reverseBits8 (row i) }

/-! ## Vocabulary of the packing statement -/

/-- The elements that `createRGBTiffImage` stores for the source pixel at
`(x, y)`: each component converted to the pointer type of the overload
(`uint8`, `uint16`, `uint32`, `float`, `double`), as a bit pattern. -/
def RGBSource.onDisk : RGBSource → Nat → Nat → RGBBits
  | .uchar f, x, y =>
    { red := toUnsigned 8 (f x y).red, green := toUnsigned 8 (f x y).green,
      blue := toUnsigned 8 (f x y).blue }
  | .short f, x, y =>
    { red := toUnsigned 16 (f x y).red, green := toUnsigned 16 (f x y).green,
      blue := toUnsigned 16 (f x y).blue }
  | .int f, x, y =>
    { red := toUnsigned 32 (f x y).red, green := toUnsigned 32 (f x y).green,
      blue := toUnsigned 32 (f x y).blue }
  | .float f, x, y =>
    { red := (f x y).red % 2 ^ 32, green := (f x y).green % 2 ^ 32,
      blue := (f x y).blue % 2 ^ 32 }
  | .double f, x, y =>
    { red := (f x y).red % 2 ^ 64, green := (f x y).green % 2 ^ 64,
      blue := (f x y).blue % 2 ^ 64 }

/-! # Theorems -/

/-! ## Buffers -/

theorem length_newBuffer (u : Indeterminate) (b : Buffer) (n : Nat) :
    (newBuffer u b n).length = n := by
  simp [newBuffer]

theorem length_TIFFReadScanline (tiff : TiffImage) (buf : List Nat) (y s : Nat) :
    (TIFFReadScanline tiff buf y s).length = buf.length := by
  unfold TIFFReadScanline
  cases tiff.rows y s <;> simp

theorem length_scanBuf (tiff : TiffImage) (buf : List Nat) (n : Nat) :
    (scanBuf tiff buf n).length = buf.length := by
  induction n with
  | zero => rfl
  | succ n ih => simp [scanBuf, length_TIFFReadScanline, ih]

theorem scanBuf_succ_of_row (tiff : TiffImage) (buf : List Nat) (y : Nat) (row : Nat → Nat)
    (hrow : tiff.rows y 0 = some row) :
    scanBuf tiff buf (y + 1) = (List.range buf.length).map row := by
  simp [scanBuf, TIFFReadScanline, hrow, length_scanBuf]

theorem drop_take_map_range (data : Nat → Nat) (n k m : Nat) (h : m + k ≤ n) :
    (((List.range n).map data).drop m).take k = (List.range k).map fun j => data (m + j) := by
  apply List.ext_getElem
  · simp; omega
  · intro i h1 h2
    simp

theorem readLE_map_range (k n i : Nat) (data : Nat → Nat) (h : k * i + k ≤ n) :
    readLE k ((List.range n).map data) i = some (elemOf k data i) := by
  simp [readLE, h, elemOf, drop_take_map_range data n k (k * i) h]

theorem readLE_isSome (k : Nat) (buf : List Nat) (i : Nat) (h : k * i + k ≤ buf.length) :
    (readLE k buf i).isSome := by
  simp [readLE, h]

theorem elemOf_one (data : Nat → Nat) (i : Nat) : elemOf 1 data i = data i := by
  simp [elemOf, leValue]

/-! ## The scalar decoding loops -/

theorem rowTrace_succ (v : Nat → Value) (w y : Nat) :
    rowTrace v (w + 1) y = rowTrace v w y ++ [Event.set w y (v w)] := by
  simp [rowTrace, List.range_succ]

theorem scalarRow_ok {α : Type} (a : Accessor α) (sample : List Nat → Nat → Option Value)
    (w y : Nat) (s : ScalarState α) (v : Nat → Value)
    (hv : ∀ x, x < w → sample s.buf x = some (v x)) :
    scalarRow a sample w y s = .ok
      { buf := s.buf
        dest :=
          { image := fun x1 y1 =>
              if x1 < w ∧ y1 = y then a.set (v x1) (s.dest.image x1 y1) else s.dest.image x1 y1
            trace := s.dest.trace ++ rowTrace v w y } } := by
  induction w with
  | zero => simp [scalarRow, forLoop, rowTrace]
  | succ w ih =>
    have ih1 := ih (fun x hx => hv x (Nat.lt_succ_of_lt hx))
    unfold scalarRow at ih1 ⊢
    rw [forLoop, ih1]
    simp only [Result.bind, hv w (Nat.lt_succ_self w), Dest.put, rowTrace_succ]
    congr 2
    simp only [Dest.mk.injEq, List.append_assoc, and_true]
    funext x1 y1
    by_cases h1 : x1 = w
    · subst h1; by_cases h2 : y1 = y <;> simp [h2]
    · have : (x1 < w + 1) = (x1 < w) := by
        apply propext; constructor <;> intro h <;> omega
      simp [h1, this]

theorem scalarLoop_ok {α : Type} (tiff : TiffImage) (a : Accessor α)
    (sample : List Nat → Nat → Option Value) (w h : Nat) (s : ScalarState α)
    (v : Nat → Nat → Value)
    (hv : ∀ y, y < h → ∀ x, x < w → sample (scanBuf tiff s.buf (y + 1)) x = some (v x y)) :
    scalarLoop tiff a sample w h s = .ok
      { buf := scanBuf tiff s.buf h
        dest :=
          { image := fun x1 y1 =>
              if x1 < w ∧ y1 < h then a.set (v x1 y1) (s.dest.image x1 y1)
              else s.dest.image x1 y1
            trace := s.dest.trace ++ scalarTrace v w h } } := by
  induction h with
  | zero => simp [scalarLoop, forLoop, scalarTrace, scanBuf]
  | succ h ih =>
    have ih1 := ih (fun y hy => hv y (Nat.lt_succ_of_lt hy))
    unfold scalarLoop at ih1 ⊢
    rw [forLoop, ih1]
    simp only [Result.bind]
    rw [scalarRow_ok a sample w h _ (fun x => v x h) (fun x hx => hv h (Nat.lt_succ_self h) x hx)]
    simp only [scanBuf, Dest.log, scalarTrace]
    congr 2
    simp only [Dest.mk.injEq, List.append_assoc, List.singleton_append, and_true]
    funext x1 y1
    by_cases h1 : y1 = h
    · subst h1; by_cases h2 : x1 < w <;> simp [h2]
    · have : (y1 < h + 1) = (y1 < h) := by
        apply propext; constructor <;> intro h <;> omega
      simp [h1, this]

/-- Closed form of a successful run of `tiffToScalarImage`. -/
theorem tiffToScalarImage_run {α : Type} (u : Indeterminate) (tiff : TiffImage)
    (a : Accessor α) (d : Dest α) (sample : List Nat → Nat → Option Value)
    (v : Nat → Nat → Value)
    (hphot : TIFFGetField tiff .PHOTOMETRIC u.photometric = PHOTOMETRIC_MINISWHITE ∨
      TIFFGetField tiff .PHOTOMETRIC u.photometric = PHOTOMETRIC_MINISBLACK)
    (hspp : TIFFGetField tiff .SAMPLESPERPIXEL u.samplesPerPixel = 1)
    (hfmt : TIFFGetField tiff .SAMPLEFORMAT 1 ≠ SAMPLEFORMAT_VOID)
    (hsw : scalarSwitch (TIFFGetField tiff .SAMPLEFORMAT 1)
      (TIFFGetField tiff .BITSPERSAMPLE u.bitsPerSample)
      (TIFFGetField tiff .FILLORDER u.fillorder)
      (if TIFFGetField tiff .PHOTOMETRIC u.photometric = PHOTOMETRIC_MINISWHITE then 255 else 0)
      (if TIFFGetField tiff .PHOTOMETRIC u.photometric = PHOTOMETRIC_MINISWHITE then -1 else 1)
      (if TIFFGetField tiff .PHOTOMETRIC u.photometric = PHOTOMETRIC_MINISWHITE then 0 else 255)
      (if TIFFGetField tiff .PHOTOMETRIC u.photometric = PHOTOMETRIC_MINISWHITE then 255 else 0)
      = .ok sample)
    (hv : ∀ y, y < TIFFGetField tiff .IMAGELENGTH u.h →
      ∀ x, x < TIFFGetField tiff .IMAGEWIDTH u.w →
        sample (scanBuf tiff (newBuffer u .buf (TIFFScanlineSize tiff)) (y + 1)) x
          = some (v x y)) :
    tiffToScalarImage u (some tiff) a d = .ok
      { image := fun x y =>
          if x < TIFFGetField tiff .IMAGEWIDTH u.w ∧ y < TIFFGetField tiff .IMAGELENGTH u.h
          then a.set (v x y) (d.image x y) else d.image x y
        trace := d.trace ++ scalarPrelude (TIFFScanlineSize tiff) ++
          scalarTrace v (TIFFGetField tiff .IMAGEWIDTH u.w)
            (TIFFGetField tiff .IMAGELENGTH u.h) ++ [.release .buf] } := by
  unfold tiffToScalarImage
  simp only [hspp, hsw, not_true_eq_false, if_false]
  rw [if_neg (fun hn => hn hphot), if_neg (fun hn => hn hfmt)]
  rw [scalarLoop_ok tiff a sample _ _ _ v hv]
  simp [Result.map, Dest.log, scalarPrelude, scalarTagReads]

/-- Closed form of a successful run of `tiffToScalarImage` whose sample
expression is defined on every buffer of the scanline size. -/
theorem tiffToScalarImage_total {α : Type} (u : Indeterminate) (tiff : TiffImage)
    (a : Accessor α) (d : Dest α) (sample : List Nat → Nat → Option Value)
    (hphot : TIFFGetField tiff .PHOTOMETRIC u.photometric = PHOTOMETRIC_MINISWHITE ∨
      TIFFGetField tiff .PHOTOMETRIC u.photometric = PHOTOMETRIC_MINISBLACK)
    (hspp : TIFFGetField tiff .SAMPLESPERPIXEL u.samplesPerPixel = 1)
    (hfmt : TIFFGetField tiff .SAMPLEFORMAT 1 ≠ SAMPLEFORMAT_VOID)
    (hsw : scalarSwitch (TIFFGetField tiff .SAMPLEFORMAT 1)
      (TIFFGetField tiff .BITSPERSAMPLE u.bitsPerSample)
      (TIFFGetField tiff .FILLORDER u.fillorder)
      (if TIFFGetField tiff .PHOTOMETRIC u.photometric = PHOTOMETRIC_MINISWHITE then 255 else 0)
      (if TIFFGetField tiff .PHOTOMETRIC u.photometric = PHOTOMETRIC_MINISWHITE then -1 else 1)
      (if TIFFGetField tiff .PHOTOMETRIC u.photometric = PHOTOMETRIC_MINISWHITE then 0 else 255)
      (if TIFFGetField tiff .PHOTOMETRIC u.photometric = PHOTOMETRIC_MINISWHITE then 255 else 0)
      = .ok sample)
    (hsome : ∀ buf : List Nat, buf.length = TIFFScanlineSize tiff →
      ∀ x, x < TIFFGetField tiff .IMAGEWIDTH u.w → (sample buf x).isSome) :
    tiffToScalarImage u (some tiff) a d = .ok
      { image := fun x y =>
          if x < TIFFGetField tiff .IMAGEWIDTH u.w ∧ y < TIFFGetField tiff .IMAGELENGTH u.h
          then a.set (scalarValue u tiff sample x y) (d.image x y) else d.image x y
        trace := d.trace ++ scalarPrelude (TIFFScanlineSize tiff) ++
          scalarTrace (scalarValue u tiff sample) (TIFFGetField tiff .IMAGEWIDTH u.w)
            (TIFFGetField tiff .IMAGELENGTH u.h) ++ [.release .buf] } := by
  apply tiffToScalarImage_run u tiff a d sample (scalarValue u tiff sample) hphot hspp hfmt hsw
  intro y _ x hx
  have h1 := hsome (scanBuf tiff (newBuffer u .buf (TIFFScanlineSize tiff)) (y + 1))
    (by rw [length_scanBuf, length_newBuffer]) x hx
  unfold scalarValue
  cases hs : sample (scanBuf tiff (newBuffer u .buf (TIFFScanlineSize tiff)) (y + 1)) x with
  | none => rw [hs] at h1; cases h1
  | some v => rfl

/-- The value handed to the accessor in a row that the codec could read. -/
theorem scalarValue_of_row (u : Indeterminate) (tiff : TiffImage)
    (sample : List Nat → Nat → Option Value) (x y : Nat) (row : Nat → Nat)
    (hrow : tiff.rows y 0 = some row) :
    scalarValue u tiff sample x y
      = (sample ((List.range (TIFFScanlineSize tiff)).map row) x).getD (.int 0) := by
  unfold scalarValue
  rw [scanBuf_succ_of_row tiff _ y row hrow, length_newBuffer]

theorem testBit_of_shift_and (b k : Nat) : ((b >>> k) &&& 1 ≠ 0) ↔ b.testBit k = true := by
  simp [Nat.testBit, Nat.and_comm]

theorem TIFFGetField_of_tag (tiff : TiffImage) (t : Tag) (v z : Nat)
    (h : tiff.tags t = some v) : TIFFGetField tiff t z = v := by
  simp [TIFFGetField, h]

/-- The pixel that a successful run of `tiffToScalarImage` leaves at `(x, y)`
when scanline `y` was read as `row`. -/
theorem scalar_pixel {α : Type} (u : Indeterminate) (tiff : TiffImage)
    (a : Accessor α) (d : Dest α) (sample : List Nat → Nat → Option Value)
    (w h : Nat)
    (hphot : TIFFGetField tiff .PHOTOMETRIC u.photometric = PHOTOMETRIC_MINISWHITE ∨
      TIFFGetField tiff .PHOTOMETRIC u.photometric = PHOTOMETRIC_MINISBLACK)
    (hspp : TIFFGetField tiff .SAMPLESPERPIXEL u.samplesPerPixel = 1)
    (hfmt : TIFFGetField tiff .SAMPLEFORMAT 1 ≠ SAMPLEFORMAT_VOID)
    (hsw : scalarSwitch (TIFFGetField tiff .SAMPLEFORMAT 1)
      (TIFFGetField tiff .BITSPERSAMPLE u.bitsPerSample)
      (TIFFGetField tiff .FILLORDER u.fillorder)
      (if TIFFGetField tiff .PHOTOMETRIC u.photometric = PHOTOMETRIC_MINISWHITE then 255 else 0)
      (if TIFFGetField tiff .PHOTOMETRIC u.photometric = PHOTOMETRIC_MINISWHITE then -1 else 1)
      (if TIFFGetField tiff .PHOTOMETRIC u.photometric = PHOTOMETRIC_MINISWHITE then 0 else 255)
      (if TIFFGetField tiff .PHOTOMETRIC u.photometric = PHOTOMETRIC_MINISWHITE then 255 else 0)
      = .ok sample)
    (hw : TIFFGetField tiff .IMAGEWIDTH u.w = w)
    (hh : TIFFGetField tiff .IMAGELENGTH u.h = h)
    (hsome : ∀ buf : List Nat, buf.length = TIFFScanlineSize tiff →
      ∀ x, x < w → (sample buf x).isSome) :
    ∃ d1, tiffToScalarImage u (some tiff) a d = .ok d1 ∧
      (∀ x y row, x < w → y < h → tiff.rows y 0 = some row →
        d1.image x y =
          a.set ((sample ((List.range (TIFFScanlineSize tiff)).map row) x).getD (.int 0))
            (d.image x y)) ∧
      ∀ x y, ¬ (x < w ∧ y < h) → d1.image x y = d.image x y := by
  subst hw hh
  refine ⟨_, tiffToScalarImage_total u tiff a d sample hphot hspp hfmt hsw hsome, ?_, ?_⟩
  · intro x y row hx hy hrow
    simp only [hx, hy, and_self, if_true]
    rw [scalarValue_of_row u tiff _ x y row hrow]
  · intro x y hxy
    simp only [hxy, if_false]

/-- C3: 1-bit scalar decode, most significant bit first. On a one-band file
with SampleFormat=UnsignedInt (present or defaulted), BitsPerSample=1 and
FillOrder=MSB2LSB whose scanline `y` was read as `row`, `tiffToScalarImage`
returns normally and has handed to the accessor at `(x, y)`: when bit
`7 - x mod 8` of byte `x div 8` is set, 255 under MinIsBlack and 0 under
MinIsWhite; when it is clear, 0 under MinIsBlack and 255 under MinIsWhite. -/
theorem scalar_bit_msb_first {α : Type} (u : Indeterminate) (tiff : TiffImage)
    (a : Accessor α) (d : Dest α) (w h p x y : Nat) (row : Nat → Nat)
    (hfmt : TIFFGetField tiff .SAMPLEFORMAT 1 = SAMPLEFORMAT_UINT)
    (hbits : tiff.tags .BITSPERSAMPLE = some 1)
    (hfill : tiff.tags .FILLORDER = some FILLORDER_MSB2LSB)
    (hspp : tiff.tags .SAMPLESPERPIXEL = some 1)
    (hphot : tiff.tags .PHOTOMETRIC = some p)
    (hp : p = PHOTOMETRIC_MINISWHITE ∨ p = PHOTOMETRIC_MINISBLACK)
    (hw : tiff.tags .IMAGEWIDTH = some w)
    (hh : tiff.tags .IMAGELENGTH = some h)
    (hsize : w ≤ 8 * TIFFScanlineSize tiff)
    (hrow : tiff.rows y 0 = some row)
    (hx : x < w) (hy : y < h) :
    ∃ d1, tiffToScalarImage u (some tiff) a d = .ok d1 ∧
      d1.image x y =
        a.set (.int (if (row (x / 8)).testBit (7 - x % 8) = true
                     then (if p = PHOTOMETRIC_MINISWHITE then 0 else 255)
                     else (if p = PHOTOMETRIC_MINISWHITE then 255 else 0)))
          (d.image x y) := by
  have e1 := TIFFGetField_of_tag tiff _ _ u.bitsPerSample hbits
  have e2 := TIFFGetField_of_tag tiff _ _ u.samplesPerPixel hspp
  have e3 := TIFFGetField_of_tag tiff _ _ u.photometric hphot
  have e6 := TIFFGetField_of_tag tiff _ _ u.fillorder hfill
  obtain ⟨d1, hrun, hpix, _⟩ := scalar_pixel u tiff a d
    (sampleUInt1 FILLORDER_MSB2LSB (if p = PHOTOMETRIC_MINISWHITE then 0 else 255)
      (if p = PHOTOMETRIC_MINISWHITE then 255 else 0)) w h
    (by rw [e3]; exact hp) e2 (by rw [hfmt]; decide)
    (by rw [hfmt, e1, e3, e6]; rfl)
    (TIFFGetField_of_tag tiff _ _ u.w hw) (TIFFGetField_of_tag tiff _ _ u.h hh)
    (by
      intro buf hlen x1 hx1
      simp only [sampleUInt1, Option.isSome_map']
      exact readLE_isSome 1 buf (x1 / 8) (by omega))
  refine ⟨d1, hrun, ?_⟩
  rw [hpix x y row hx hy hrow]
  simp only [sampleUInt1, readLE_map_range 1 (TIFFScanlineSize tiff) (x / 8) row (by omega),
    elemOf_one, Option.map_some', Option.getD_some, if_true, testBit_of_shift_and]

/-- C4: 8-bit unsigned scalar decode. On a one-band file with
SampleFormat=UnsignedInt (present or defaulted) and BitsPerSample=8 whose
scanline `y` was read as `row`, `tiffToScalarImage` returns normally and has
handed to the accessor at `(x, y)` the value `255 - v` under MinIsWhite and
`v` under MinIsBlack, where `v = row x` is the sample byte. -/
theorem scalar_uint8_polarity {α : Type} (u : Indeterminate) (tiff : TiffImage)
    (a : Accessor α) (d : Dest α) (w h p x y : Nat) (row : Nat → Nat)
    (hfmt : TIFFGetField tiff .SAMPLEFORMAT 1 = SAMPLEFORMAT_UINT)
    (hbits : tiff.tags .BITSPERSAMPLE = some 8)
    (hspp : tiff.tags .SAMPLESPERPIXEL = some 1)
    (hphot : tiff.tags .PHOTOMETRIC = some p)
    (hp : p = PHOTOMETRIC_MINISWHITE ∨ p = PHOTOMETRIC_MINISBLACK)
    (hw : tiff.tags .IMAGEWIDTH = some w)
    (hh : tiff.tags .IMAGELENGTH = some h)
    (hsize : w ≤ TIFFScanlineSize tiff)
    (hrow : tiff.rows y 0 = some row)
    (hx : x < w) (hy : y < h) :
    ∃ d1, tiffToScalarImage u (some tiff) a d = .ok d1 ∧
      d1.image x y =
        a.set (.int (if p = PHOTOMETRIC_MINISWHITE then 255 - (row x : Int) else (row x : Int)))
          (d.image x y) := by
  have e1 := TIFFGetField_of_tag tiff _ _ u.bitsPerSample hbits
  have e2 := TIFFGetField_of_tag tiff _ _ u.samplesPerPixel hspp
  have e3 := TIFFGetField_of_tag tiff _ _ u.photometric hphot
  obtain ⟨d1, hrun, hpix, _⟩ := scalar_pixel u tiff a d
    (sampleByte (if p = PHOTOMETRIC_MINISWHITE then 255 else 0)
      (if p = PHOTOMETRIC_MINISWHITE then -1 else 1)) w h
    (by rw [e3]; exact hp) e2 (by rw [hfmt]; decide)
    (by rw [hfmt, e1, e3]; rfl)
    (TIFFGetField_of_tag tiff _ _ u.w hw) (TIFFGetField_of_tag tiff _ _ u.h hh)
    (by
      intro buf hlen x1 hx1
      simp only [sampleByte, Option.isSome_map']
      exact readLE_isSome 1 buf x1 (by omega))
  refine ⟨d1, hrun, ?_⟩
  rw [hpix x y row hx hy hrow]
  simp only [sampleByte, readLE_map_range 1 (TIFFScanlineSize tiff) x row (by omega), elemOf_one,
    Option.map_some', Option.getD_some]
  rcases hp with hp | hp
  · subst hp; simp; ring_nf
  · subst hp; simp

theorem scanBuf_congr (t1 t2 : TiffImage) (hrows : t1.rows = t2.rows) (buf : List Nat)
    (n : Nat) : scanBuf t1 buf n = scanBuf t2 buf n := by
  induction n with
  | zero => rfl
  | succ n ih => simp [scanBuf, TIFFReadScanline, ih, hrows]

theorem scalarValue_congr (u : Indeterminate) (t1 t2 : TiffImage) (hrows : t1.rows = t2.rows)
    (hsize : TIFFScanlineSize t1 = TIFFScanlineSize t2)
    (sample : List Nat → Nat → Option Value) :
    scalarValue u t1 sample = scalarValue u t2 sample := by
  funext x y
  simp [scalarValue, hsize, scanBuf_congr t1 t2 hrows]

/-- For 16- and 32-bit integers and for float and double the `switch`
selects a sample expression that mentions none of `fillorder`, `offset`,
`scale`, `max`, `min`, and that returns the raw sample. -/
theorem scalarSwitch_wide (format bits : Nat)
    (hsup : (format = SAMPLEFORMAT_UINT ∨ format = SAMPLEFORMAT_INT) ∧ (bits = 16 ∨ bits = 32) ∨
      format = SAMPLEFORMAT_IEEEFP ∧ (bits = 32 ∨ bits = 64)) :
    ∃ sample : List Nat → Nat → Option Value,
      (∀ fill offset scale max min,
        scalarSwitch format bits fill offset scale max min = .ok sample) ∧
      (∀ (buf : List Nat) x, bits / 8 * x + bits / 8 ≤ buf.length → (sample buf x).isSome) ∧
      (∀ n (row : Nat → Nat) x, bits / 8 * x + bits / 8 ≤ n →
        sample ((List.range n).map row) x = some (rawSample format bits row x)) := by
  rcases hsup with ⟨hf | hf, hb | hb⟩ | ⟨hf, hb | hb⟩ <;> subst hf <;> subst hb
  · refine ⟨sampleUInt 2, fun _ _ _ _ _ => rfl, fun buf x hx => ?_, fun n row x hx => ?_⟩
    · simp only [sampleUInt, Option.isSome_map']; exact readLE_isSome 2 buf x hx
    · simp [sampleUInt, readLE_map_range 2 n x row hx, rawSample, sampleValue]
  · refine ⟨sampleUInt 4, fun _ _ _ _ _ => rfl, fun buf x hx => ?_, fun n row x hx => ?_⟩
    · simp only [sampleUInt, Option.isSome_map']; exact readLE_isSome 4 buf x hx
    · simp [sampleUInt, readLE_map_range 4 n x row hx, rawSample, sampleValue]
  · refine ⟨sampleInt 2, fun _ _ _ _ _ => rfl, fun buf x hx => ?_, fun n row x hx => ?_⟩
    · simp only [sampleInt, Option.isSome_map']; exact readLE_isSome 2 buf x hx
    · simp [sampleInt, readLE_map_range 2 n x row hx, rawSample, sampleValue]
  · refine ⟨sampleInt 4, fun _ _ _ _ _ => rfl, fun buf x hx => ?_, fun n row x hx => ?_⟩
    · simp only [sampleInt, Option.isSome_map']; exact readLE_isSome 4 buf x hx
    · simp [sampleInt, readLE_map_range 4 n x row hx, rawSample, sampleValue]
  · refine ⟨sampleFloat, fun _ _ _ _ _ => rfl, fun buf x hx => ?_, fun n row x hx => ?_⟩
    · simp only [sampleFloat, Option.isSome_map']; exact readLE_isSome 4 buf x hx
    · simp [sampleFloat, readLE_map_range 4 n x row hx, rawSample, sampleValue]
  · refine ⟨sampleDouble, fun _ _ _ _ _ => rfl, fun buf x hx => ?_, fun n row x hx => ?_⟩
    · simp only [sampleDouble, Option.isSome_map']; exact readLE_isSome 8 buf x hx
    · simp [sampleDouble, readLE_map_range 8 n x row hx, rawSample, sampleValue]

/-- C5: 16- and 32-bit integer samples and float and double samples are
passed through unchanged, whatever the polarity. For two one-band files that
differ only in the Photometric tag (MinIsWhite in one, MinIsBlack in the
other), `tiffToScalarImage` returns normally on both with the same
destination state, in which the accessor was handed at `(x, y)` the raw
sample at element `x` of scanline `y`. -/
theorem scalar_wide_no_polarity {α : Type} (u : Indeterminate) (tiffW tiffB : TiffImage)
    (a : Accessor α) (d : Dest α) (format bits w h : Nat)
    (hW : tiffW.tags .PHOTOMETRIC = some PHOTOMETRIC_MINISWHITE)
    (hB : tiffB.tags .PHOTOMETRIC = some PHOTOMETRIC_MINISBLACK)
    (htags : ∀ t, t ≠ Tag.PHOTOMETRIC → tiffW.tags t = tiffB.tags t)
    (hrows : tiffW.rows = tiffB.rows)
    (hsz : TIFFScanlineSize tiffW = TIFFScanlineSize tiffB)
    (hfmt : TIFFGetField tiffB .SAMPLEFORMAT 1 = format)
    (hbits : tiffB.tags .BITSPERSAMPLE = some bits)
    (hsup : (format = SAMPLEFORMAT_UINT ∨ format = SAMPLEFORMAT_INT) ∧ (bits = 16 ∨ bits = 32) ∨
      format = SAMPLEFORMAT_IEEEFP ∧ (bits = 32 ∨ bits = 64))
    (hspp : tiffB.tags .SAMPLESPERPIXEL = some 1)
    (hw : tiffB.tags .IMAGEWIDTH = some w)
    (hh : tiffB.tags .IMAGELENGTH = some h)
    (hsize : w * (bits / 8) ≤ TIFFScanlineSize tiffB) :
    ∃ d1, tiffToScalarImage u (some tiffW) a d = .ok d1 ∧
      tiffToScalarImage u (some tiffB) a d = .ok d1 ∧
      ∀ x y row, x < w → y < h → tiffB.rows y 0 = some row →
        d1.image x y = a.set (rawSample format bits row x) (d.image x y) := by
  obtain ⟨sample, hsw, hsome, hraw⟩ := scalarSwitch_wide format bits hsup
  have hg : ∀ t z, t ≠ Tag.PHOTOMETRIC → TIFFGetField tiffW t z = TIFFGetField tiffB t z := by
    intro t z ht; simp [TIFFGetField, htags t ht]
  have e1 := TIFFGetField_of_tag tiffB _ _ u.bitsPerSample hbits
  have e2 := TIFFGetField_of_tag tiffB _ _ u.samplesPerPixel hspp
  have e3 := TIFFGetField_of_tag tiffB _ _ u.photometric hB
  have e3w := TIFFGetField_of_tag tiffW _ _ u.photometric hW
  have e4 := TIFFGetField_of_tag tiffB _ _ u.w hw
  have e5 := TIFFGetField_of_tag tiffB _ _ u.h hh
  have hvoid : format ≠ SAMPLEFORMAT_VOID := by
    rcases hsup with ⟨hf | hf, _⟩ | ⟨hf, _⟩ <;> subst hf <;> decide
  have hin : ∀ x, x < w → bits / 8 * x + bits / 8 ≤ TIFFScanlineSize tiffB := by
    intro x hx
    have : bits / 8 * (x + 1) ≤ bits / 8 * w := Nat.mul_le_mul_left _ hx
    rw [Nat.mul_comm w] at hsize
    rw [Nat.mul_add, Nat.mul_one] at this
    omega
  have hB1 := tiffToScalarImage_total u tiffB a d sample (Or.inr e3) e2
    (by rw [hfmt]; exact hvoid) (by rw [hfmt, e1]; exact hsw _ _ _ _ _)
    (by
      intro buf hlen x hx
      rw [e4] at hx
      exact hsome buf x (by rw [hlen]; exact hin x hx))
  have hW1 := tiffToScalarImage_total u tiffW a d sample (Or.inl e3w)
    (by rw [hg _ _ (by decide)]; exact e2)
    (by rw [hg _ _ (by decide), hfmt]; exact hvoid)
    (by rw [hg _ _ (by decide), hg _ _ (by decide), hfmt, e1]; exact hsw _ _ _ _ _)
    (by
      intro buf hlen x hx
      rw [hg _ _ (by decide), e4] at hx
      exact hsome buf x (by rw [hlen, hsz]; exact hin x hx))
  rw [hg _ _ (by decide), hg _ _ (by decide), hsz,
    scalarValue_congr u tiffW tiffB hrows hsz] at hW1
  refine ⟨_, hW1, hB1, ?_⟩
  intro x y row hx hy hrow
  simp only [e4, e5, hx, hy, and_self, if_true]
  rw [scalarValue_of_row u tiffB _ x y row hrow, hraw _ row x (hin x hx)]
  rfl

/-- C3 at a concrete input: the byte `0b10110000` over columns 0 to 7, under
MinIsBlack and under MinIsWhite. -/
theorem scalar_bit_msb_first_witness :
    (∃ d1, tiffToScalarImage zeroIndeterminate
        (some (exampleHandle (exampleTags 8 1 1 1 SAMPLEFORMAT_UINT PHOTOMETRIC_MINISBLACK
          PLANARCONFIG_CONTIG FILLORDER_MSB2LSB) 1 (fun _ => 0b10110000)))
        StandardValueAccessor blankImage = .ok d1 ∧
      d1.image 2 0 = Value.int 255 ∧
      (List.range 8).map (fun x => d1.image x 0) =
        [.int 255, .int 0, .int 255, .int 255, .int 0, .int 0, .int 0, .int 0]) ∧
    (∃ d1, tiffToScalarImage zeroIndeterminate
        (some (exampleHandle (exampleTags 8 1 1 1 SAMPLEFORMAT_UINT PHOTOMETRIC_MINISWHITE
          PLANARCONFIG_CONTIG FILLORDER_MSB2LSB) 1 (fun _ => 0b10110000)))
        StandardValueAccessor blankImage = .ok d1 ∧
      d1.image 2 0 = Value.int 0 ∧
      (List.range 8).map (fun x => d1.image x 0) =
        [.int 0, .int 255, .int 0, .int 0, .int 255, .int 255, .int 255, .int 255]) := by
  constructor
  · obtain ⟨d1, h1, h2⟩ := scalar_bit_msb_first zeroIndeterminate
      (exampleHandle (exampleTags 8 1 1 1 SAMPLEFORMAT_UINT PHOTOMETRIC_MINISBLACK
        PLANARCONFIG_CONTIG FILLORDER_MSB2LSB) 1 (fun _ => 0b10110000))
      StandardValueAccessor blankImage 8 1 PHOTOMETRIC_MINISBLACK 2 0 (fun _ => 0b10110000)
      rfl rfl rfl rfl rfl (Or.inr rfl) rfl rfl (by decide) rfl (by decide) (by decide)
    refine ⟨d1, h1, ?_, ?_⟩
    · rw [h2]; decide
    · have h3 : tiffToScalarImage zeroIndeterminate
        (some (exampleHandle (exampleTags 8 1 1 1 SAMPLEFORMAT_UINT PHOTOMETRIC_MINISBLACK
          PLANARCONFIG_CONTIG FILLORDER_MSB2LSB) 1 (fun _ => 0b10110000)))
        StandardValueAccessor blankImage = .ok _ := rfl
      rw [h3] at h1
      cases h1
      decide
  · obtain ⟨d1, h1, h2⟩ := scalar_bit_msb_first zeroIndeterminate
      (exampleHandle (exampleTags 8 1 1 1 SAMPLEFORMAT_UINT PHOTOMETRIC_MINISWHITE
        PLANARCONFIG_CONTIG FILLORDER_MSB2LSB) 1 (fun _ => 0b10110000))
      StandardValueAccessor blankImage 8 1 PHOTOMETRIC_MINISWHITE 2 0 (fun _ => 0b10110000)
      rfl rfl rfl rfl rfl (Or.inl rfl) rfl rfl (by decide) rfl (by decide) (by decide)
    refine ⟨d1, h1, ?_, ?_⟩
    · rw [h2]; decide
    · have h3 : tiffToScalarImage zeroIndeterminate
        (some (exampleHandle (exampleTags 8 1 1 1 SAMPLEFORMAT_UINT PHOTOMETRIC_MINISWHITE
          PLANARCONFIG_CONTIG FILLORDER_MSB2LSB) 1 (fun _ => 0b10110000)))
        StandardValueAccessor blankImage = .ok _ := rfl
      rw [h3] at h1
      cases h1
      decide

/-- C4 at a concrete input: the sample byte 60 decodes to 195 under
MinIsWhite and to 60 under MinIsBlack. -/
theorem scalar_uint8_polarity_witness :
    (∃ d1, tiffToScalarImage zeroIndeterminate
        (some (exampleHandle (exampleTags 1 1 8 1 SAMPLEFORMAT_UINT PHOTOMETRIC_MINISWHITE
          PLANARCONFIG_CONTIG FILLORDER_MSB2LSB) 1 (fun _ => 60)))
        StandardValueAccessor blankImage = .ok d1 ∧ d1.image 0 0 = Value.int 195) ∧
    (∃ d1, tiffToScalarImage zeroIndeterminate
        (some (exampleHandle (exampleTags 1 1 8 1 SAMPLEFORMAT_UINT PHOTOMETRIC_MINISBLACK
          PLANARCONFIG_CONTIG FILLORDER_MSB2LSB) 1 (fun _ => 60)))
        StandardValueAccessor blankImage = .ok d1 ∧ d1.image 0 0 = Value.int 60) :=
  ⟨scalar_uint8_polarity zeroIndeterminate
      (exampleHandle (exampleTags 1 1 8 1 SAMPLEFORMAT_UINT PHOTOMETRIC_MINISWHITE
        PLANARCONFIG_CONTIG FILLORDER_MSB2LSB) 1 (fun _ => 60))
      StandardValueAccessor blankImage 1 1 PHOTOMETRIC_MINISWHITE 0 0 (fun _ => 60)
      rfl rfl rfl rfl (Or.inl rfl) rfl rfl (by decide) rfl (by decide) (by decide),
   scalar_uint8_polarity zeroIndeterminate
      (exampleHandle (exampleTags 1 1 8 1 SAMPLEFORMAT_UINT PHOTOMETRIC_MINISBLACK
        PLANARCONFIG_CONTIG FILLORDER_MSB2LSB) 1 (fun _ => 60))
      StandardValueAccessor blankImage 1 1 PHOTOMETRIC_MINISBLACK 0 0 (fun _ => 60)
      rfl rfl rfl rfl (Or.inr rfl) rfl rfl (by decide) rfl (by decide) (by decide)⟩

/-- C5 at a concrete input: the signed 16-bit sample with bytes `0xFF 0xFF`
decodes to -1 under both polarities. -/
theorem scalar_wide_no_polarity_witness :
    ∃ d1, tiffToScalarImage zeroIndeterminate
        (some (exampleHandle (exampleTags 1 1 16 1 SAMPLEFORMAT_INT PHOTOMETRIC_MINISWHITE
          PLANARCONFIG_CONTIG FILLORDER_MSB2LSB) 2 (fun _ => 0xFF)))
        StandardValueAccessor blankImage = .ok d1 ∧
      tiffToScalarImage zeroIndeterminate
        (some (exampleHandle (exampleTags 1 1 16 1 SAMPLEFORMAT_INT PHOTOMETRIC_MINISBLACK
          PLANARCONFIG_CONTIG FILLORDER_MSB2LSB) 2 (fun _ => 0xFF)))
        StandardValueAccessor blankImage = .ok d1 ∧
      d1.image 0 0 = Value.int (-1) := by
  obtain ⟨d1, h1, h2, h3⟩ := scalar_wide_no_polarity zeroIndeterminate
    (exampleHandle (exampleTags 1 1 16 1 SAMPLEFORMAT_INT PHOTOMETRIC_MINISWHITE
      PLANARCONFIG_CONTIG FILLORDER_MSB2LSB) 2 (fun _ => 0xFF))
    (exampleHandle (exampleTags 1 1 16 1 SAMPLEFORMAT_INT PHOTOMETRIC_MINISBLACK
      PLANARCONFIG_CONTIG FILLORDER_MSB2LSB) 2 (fun _ => 0xFF))
    StandardValueAccessor blankImage SAMPLEFORMAT_INT 16 1 1 rfl rfl
    (by intro t ht; cases t <;> first | rfl | exact absurd rfl ht)
    rfl rfl rfl rfl (Or.inl ⟨Or.inr rfl, Or.inl rfl⟩) rfl rfl rfl (by decide)
  refine ⟨d1, h1, h2, ?_⟩
  rw [h3 0 0 (fun _ => 0xFF) (by decide) (by decide) rfl]
  decide

/-- C6 (what the code does): on a 1 by 1 file tagged SampleFormat=SignedInt,
BitsPerSample=8, Photometric=MinIsBlack whose sample byte is `0xFF`,
`tiffToScalarImage` hands 255 to the accessor, not -1: the signed 8-bit case
reads the sample through `(uint8 *)buf`. -/
theorem scalar_int8_read_unsigned :
    ∃ d1, tiffToScalarImage zeroIndeterminate
        (some (exampleHandle (exampleTags 1 1 8 1 SAMPLEFORMAT_INT PHOTOMETRIC_MINISBLACK
          PLANARCONFIG_CONTIG FILLORDER_MSB2LSB) 1 (fun _ => 0xFF)))
        StandardValueAccessor blankImage = .ok d1 ∧
      d1.image 0 0 = Value.int 255 ∧ d1.image 0 0 ≠ Value.int (toSigned 8 0xFF) ∧
      toSigned 8 0xFF = -1 :=
  ⟨_, rfl, by decide, by decide, by decide⟩

/-- C10: decode-scalar rejects non-grayscale input. For a non-null handle
whose Photometric tag is neither MinIsWhite nor MinIsBlack,
`tiffToScalarImage` throws "Image isn't grayscale."; the destination image is
unchanged and the only calls made are the seven tag reads, so no scanline
was read and no accessor was called. -/
theorem scalar_rejects_non_grayscale {α : Type} (u : Indeterminate) (tiff : TiffImage)
    (a : Accessor α) (d : Dest α) (p : Nat)
    (hphot : tiff.tags .PHOTOMETRIC = some p)
    (hw : p ≠ PHOTOMETRIC_MINISWHITE) (hb : p ≠ PHOTOMETRIC_MINISBLACK) :
    ∃ d1, tiffToScalarImage u (some tiff) a d = .thrown .notGrayscale d1 ∧
      d1.image = d.image ∧ d1.trace = d.trace ++ scalarTagReads ∧
      ∀ e, e ∈ scalarTagReads → ∃ t, e = Event.getField t := by
  have e3 := TIFFGetField_of_tag tiff _ _ u.photometric hphot
  refine ⟨d.log scalarTagReads, ?_, rfl, rfl, ?_⟩
  · unfold tiffToScalarImage
    simp only [e3]
    rw [if_pos (by rintro (h | h) <;> contradiction)]
    rfl
  · intro e he
    simp only [scalarTagReads, List.mem_cons, List.mem_singleton, List.not_mem_nil,
      or_false] at he
    rcases he with h | h | h | h | h | h | h <;> exact ⟨_, h⟩

/-- C10 at a concrete input: a file with Photometric=RGB. -/
theorem scalar_rejects_non_grayscale_witness :
    ∃ d1, tiffToScalarImage zeroIndeterminate
        (some (exampleHandle (exampleTags 1 1 8 3 SAMPLEFORMAT_UINT PHOTOMETRIC_RGB
          PLANARCONFIG_CONTIG FILLORDER_MSB2LSB) 3 (fun _ => 60)))
        StandardValueAccessor blankImage = .thrown .notGrayscale d1 ∧
      d1.image = blankImage.image ∧ d1.trace = blankImage.trace ++ scalarTagReads ∧
      ∀ e, e ∈ scalarTagReads → ∃ t, e = Event.getField t :=
  scalar_rejects_non_grayscale zeroIndeterminate
    (exampleHandle (exampleTags 1 1 8 3 SAMPLEFORMAT_UINT PHOTOMETRIC_RGB
      PLANARCONFIG_CONTIG FILLORDER_MSB2LSB) 3 (fun _ => 60))
    StandardValueAccessor blankImage PHOTOMETRIC_RGB rfl (by decide) (by decide)

/-! ## The RGB decoding loops -/

theorem putRGB_eq {α : Type} (d : Dest α) (a : RGBAccessor α) (x y : Nat) (p : RGBPixel) :
    d.putRGB a x y p =
      { image := fun x1 y1 =>
          if x1 = x ∧ y1 = y then a.store p (d.image x1 y1) else d.image x1 y1
        trace := d.trace ++
          [.setRed x y p.red, .setGreen x y p.green, .setBlue x y p.blue] } := by
  simp only [Dest.putRGB, Dest.put, RGBAccessor.store, Dest.mk.injEq]
  refine ⟨?_, by simp⟩
  funext x1 y1
  by_cases h : x1 = x ∧ y1 = y <;> simp [h]

/-- Closed form of an inner RGB loop over any local state. -/
theorem pixelRow_ok {α σ : Type} (a : RGBAccessor α) (get : σ → Nat → Option RGBPixel)
    (dest : σ → Dest α) (upd : σ → Dest α → σ)
    (hget : ∀ s d, get (upd s d) = get s) (hdest : ∀ s d, dest (upd s d) = d)
    (hupd : ∀ s d1 d2, upd (upd s d1) d2 = upd s d2) (hid : ∀ s, upd s (dest s) = s)
    (w y : Nat) (s : σ) (v : Nat → RGBPixel)
    (hv : ∀ x, x < w → get s x = some (v x)) :
    forLoop w (fun x s =>
      match get s x with
      | some p => .ok (upd s ((dest s).putRGB a x y p))
      | none => .undefined) s
    = .ok (upd s
        { image := fun x1 y1 =>
            if x1 < w ∧ y1 = y then a.store (v x1) ((dest s).image x1 y1)
            else (dest s).image x1 y1
          trace := (dest s).trace ++ rgbRowTrace v y w }) := by
  induction w with
  | zero => simp [forLoop, rgbRowTrace, hid]
  | succ w ih =>
    rw [forLoop, ih (fun x hx => hv x (Nat.lt_succ_of_lt hx))]
    simp only [Result.bind, hget, hv w (Nat.lt_succ_self w), hdest, hupd, putRGB_eq, rgbRowTrace]
    congr 2
    simp only [Dest.mk.injEq, List.append_assoc, and_true]
    funext x1 y1
    by_cases h1 : x1 = w
    · subst h1; by_cases h2 : y1 = y <;> simp [h2]
    · have : (x1 < w + 1) = (x1 < w) := by
        apply propext; constructor <;> intro h <;> omega
      simp [h1, this]

theorem rgbRow_ok {α : Type} (a : RGBAccessor α) (deref : List Nat → Nat → Option Value)
    (planarConfig offset w y : Nat) (s : RGBState α) (v : Nat → RGBPixel)
    (hv : ∀ x, x < w → rgbDeref deref planarConfig offset s.bufs x = some (v x)) :
    rgbRow a deref planarConfig offset w y s = .ok
      { bufs := s.bufs
        dest :=
          { image := fun x1 y1 =>
              if x1 < w ∧ y1 = y then a.store (v x1) (s.dest.image x1 y1)
              else s.dest.image x1 y1
            trace := s.dest.trace ++ rgbRowTrace v y w } } :=
  pixelRow_ok a (fun (s : RGBState α) x => rgbDeref deref planarConfig offset s.bufs x)
    (fun s => s.dest) (fun s d => { s with dest := d }) (fun _ _ => rfl) (fun _ _ => rfl)
    (fun _ _ _ => rfl) (fun _ => rfl) w y s v hv

theorem rgbLoop_ok {α : Type} (tiff : TiffImage) (a : RGBAccessor α)
    (deref : List Nat → Nat → Option Value) (planarConfig offset w h : Nat)
    (s : RGBState α) (v : Nat → Nat → RGBPixel)
    (hv : ∀ y, y < h → ∀ x, x < w →
      rgbDeref deref planarConfig offset (rgbBufs tiff planarConfig s.bufs (y + 1)) x
        = some (v x y)) :
    rgbLoop tiff a deref planarConfig offset w h s = .ok
      { bufs := rgbBufs tiff planarConfig s.bufs h
        dest :=
          { image := fun x1 y1 =>
              if x1 < w ∧ y1 < h then a.store (v x1 y1) (s.dest.image x1 y1)
              else s.dest.image x1 y1
            trace := s.dest.trace ++ rgbTrace planarConfig v w h } } := by
  induction h with
  | zero => simp [rgbLoop, forLoop, rgbTrace, rgbBufs]
  | succ h ih =>
    have ih1 := ih (fun y hy => hv y (Nat.lt_succ_of_lt hy))
    unfold rgbLoop at ih1 ⊢
    rw [forLoop, ih1]
    simp only [Result.bind]
    rw [rgbRow_ok a deref planarConfig offset w h _ (fun x => v x h)
      (fun x hx => hv h (Nat.lt_succ_self h) x hx)]
    simp only [rgbBufs, Dest.log, rgbTrace]
    congr 2
    simp only [Dest.mk.injEq, List.append_assoc, and_true]
    funext x1 y1
    by_cases h1 : y1 = h
    · subst h1; by_cases h2 : x1 < w <;> simp [h2]
    · have : (y1 < h + 1) = (y1 < h) := by
        apply propext; constructor <;> intro h <;> omega
      simp [h1, this]

theorem TIFFGetField_set_same (tiff : TiffImage) (t : Tag) (v z : Nat) :
    TIFFGetField (TIFFSetField tiff t v) t z = v := by
  simp [TIFFGetField, TIFFSetField]

theorem TIFFGetField_set_other (tiff : TiffImage) (t t1 : Tag) (v z : Nat) (h : t1 ≠ t) :
    TIFFGetField (TIFFSetField tiff t v) t1 z = TIFFGetField tiff t1 z := by
  simp [TIFFGetField, TIFFSetField, h]

/-- C9 (counterexample): the palette path does look at SampleFormat. The same
1 by 1 palette file is rejected with "undefined pixeltype
(SAMPLEFORMAT_VOID)." when its SampleFormat tag is Undefined and decoded
normally when the tag is UnsignedInt. -/
theorem palette_depends_on_sampleFormat :
    (∃ d1, tiffToRGBImage zeroIndeterminate
        (some (exampleIndexed (exampleTags 1 1 8 1 SAMPLEFORMAT_VOID PHOTOMETRIC_PALETTE
          PLANARCONFIG_CONTIG FILLORDER_MSB2LSB) (fun _ => 0)))
        StandardRGBAccessor blankRGBImage = .thrown .undefinedPixeltype d1) ∧
    (∃ d2, tiffToRGBImage zeroIndeterminate
        (some (exampleIndexed (exampleTags 1 1 8 1 SAMPLEFORMAT_UINT PHOTOMETRIC_PALETTE
          PLANARCONFIG_CONTIG FILLORDER_MSB2LSB) (fun _ => 0)))
        StandardRGBAccessor blankRGBImage = .ok d2) ∧
    tiffToRGBImage zeroIndeterminate
        (some (exampleIndexed (exampleTags 1 1 8 1 SAMPLEFORMAT_VOID PHOTOMETRIC_PALETTE
          PLANARCONFIG_CONTIG FILLORDER_MSB2LSB) (fun _ => 0)))
        StandardRGBAccessor blankRGBImage ≠
      tiffToRGBImage zeroIndeterminate
        (some (exampleIndexed (exampleTags 1 1 8 1 SAMPLEFORMAT_UINT PHOTOMETRIC_PALETTE
          PLANARCONFIG_CONTIG FILLORDER_MSB2LSB) (fun _ => 0)))
        StandardRGBAccessor blankRGBImage := by
  have h1 : tiffToRGBImage zeroIndeterminate
      (some (exampleIndexed (exampleTags 1 1 8 1 SAMPLEFORMAT_VOID PHOTOMETRIC_PALETTE
        PLANARCONFIG_CONTIG FILLORDER_MSB2LSB) (fun _ => 0)))
      StandardRGBAccessor blankRGBImage = .thrown .undefinedPixeltype _ := rfl
  have h2 : tiffToRGBImage zeroIndeterminate
      (some (exampleIndexed (exampleTags 1 1 8 1 SAMPLEFORMAT_UINT PHOTOMETRIC_PALETTE
        PLANARCONFIG_CONTIG FILLORDER_MSB2LSB) (fun _ => 0)))
      StandardRGBAccessor blankRGBImage = .ok _ := rfl
  refine ⟨⟨_, h1⟩, ⟨_, h2⟩, ?_⟩
  rw [h1, h2]
  intro h
  cases h

/-- C9 (amended): the palette path ignores every SampleFormat value other
than the Undefined sentinel. For a handle with Photometric=Palette and any
two values of the SampleFormat tag other than `SAMPLEFORMAT_VOID`, the
outcome of `tiffToRGBImage` (normal return or failure, destination image and
trace) is the same. -/
theorem palette_ignores_defined_sampleFormat {α : Type} (u : Indeterminate) (tiff : TiffImage)
    (a : RGBAccessor α) (d : Dest α) (f1 f2 : Nat)
    (hphot : tiff.tags .PHOTOMETRIC = some PHOTOMETRIC_PALETTE)
    (h1 : f1 ≠ SAMPLEFORMAT_VOID) (h2 : f2 ≠ SAMPLEFORMAT_VOID) :
    tiffToRGBImage u (some (TIFFSetField tiff .SAMPLEFORMAT f1)) a d =
      tiffToRGBImage u (some (TIFFSetField tiff .SAMPLEFORMAT f2)) a d := by
  have e3 := TIFFGetField_of_tag tiff _ _ u.photometric hphot
  unfold tiffToRGBImage
  simp only [TIFFGetField_set_same, TIFFGetField_set_other _ _ _ _ _ (show Tag.PHOTOMETRIC ≠
    Tag.SAMPLEFORMAT by decide), TIFFGetField_set_other _ _ _ _ _ (show Tag.IMAGEWIDTH ≠
    Tag.SAMPLEFORMAT by decide), TIFFGetField_set_other _ _ _ _ _ (show Tag.IMAGELENGTH ≠
    Tag.SAMPLEFORMAT by decide), e3]
  rw [if_neg (by decide), if_neg (fun hn => hn h1), if_pos trivial,
    if_neg (by decide), if_neg (fun hn => hn h2), if_pos trivial]
  rfl

/-- C9 (amended) at a concrete input: SampleFormat=SignedInt against
SampleFormat=ComplexInt on the same palette file. -/
theorem palette_ignores_defined_sampleFormat_witness :
    tiffToRGBImage zeroIndeterminate
        (some (TIFFSetField (exampleIndexed (exampleTags 1 1 8 1 SAMPLEFORMAT_UINT
          PHOTOMETRIC_PALETTE PLANARCONFIG_CONTIG FILLORDER_MSB2LSB) (fun _ => 0))
          .SAMPLEFORMAT SAMPLEFORMAT_INT))
        StandardRGBAccessor blankRGBImage =
      tiffToRGBImage zeroIndeterminate
        (some (TIFFSetField (exampleIndexed (exampleTags 1 1 8 1 SAMPLEFORMAT_UINT
          PHOTOMETRIC_PALETTE PLANARCONFIG_CONTIG FILLORDER_MSB2LSB) (fun _ => 0))
          .SAMPLEFORMAT SAMPLEFORMAT_COMPLEXINT))
        StandardRGBAccessor blankRGBImage :=
  palette_ignores_defined_sampleFormat zeroIndeterminate
    (exampleIndexed (exampleTags 1 1 8 1 SAMPLEFORMAT_UINT PHOTOMETRIC_PALETTE
      PLANARCONFIG_CONTIG FILLORDER_MSB2LSB) (fun _ => 0))
    StandardRGBAccessor blankRGBImage SAMPLEFORMAT_INT SAMPLEFORMAT_COMPLEXINT rfl
    (by decide) (by decide)

/-! ## The direct RGB path -/

/-- Closed form of a successful run of the `PHOTOMETRIC_RGB` branch of
`tiffToRGBImage`. -/
theorem tiffToRGBImage_rgb {α : Type} (u : Indeterminate) (tiff : TiffImage)
    (a : RGBAccessor α) (d : Dest α) (deref : List Nat → Nat → Option Value)
    (hphot : TIFFGetField tiff .PHOTOMETRIC u.photometric = PHOTOMETRIC_RGB)
    (hfmt : TIFFGetField tiff .SAMPLEFORMAT 1 ≠ SAMPLEFORMAT_VOID)
    (hspp : TIFFGetField tiff .SAMPLESPERPIXEL u.samplesPerPixel = 3)
    (hsw : rgbSwitch (TIFFGetField tiff .SAMPLEFORMAT 1)
      (TIFFGetField tiff .BITSPERSAMPLE u.bitsPerSample) = .ok deref)
    (hsome : ∀ b : RGBBuffers, b.bufr.length = TIFFScanlineSize tiff →
      b.bufg.length = TIFFScanlineSize tiff → b.bufb.length = TIFFScanlineSize tiff →
      ∀ x, x < TIFFGetField tiff .IMAGEWIDTH u.w →
        (rgbDeref deref (TIFFGetField tiff .PLANARCONFIG u.planarConfig)
          (if TIFFGetField tiff .PLANARCONFIG u.planarConfig = PLANARCONFIG_CONTIG then 3 else 1)
          b x).isSome) :
    tiffToRGBImage u (some tiff) a d = .ok
      { image := fun x y =>
          if x < TIFFGetField tiff .IMAGEWIDTH u.w ∧ y < TIFFGetField tiff .IMAGELENGTH u.h
          then a.store
            (rgbValue u tiff deref (TIFFGetField tiff .PLANARCONFIG u.planarConfig) x y)
            (d.image x y)
          else d.image x y
        trace := d.trace ++ rgbPrelude (TIFFScanlineSize tiff) ++
          rgbTrace (TIFFGetField tiff .PLANARCONFIG u.planarConfig)
            (rgbValue u tiff deref (TIFFGetField tiff .PLANARCONFIG u.planarConfig))
            (TIFFGetField tiff .IMAGEWIDTH u.w) (TIFFGetField tiff .IMAGELENGTH u.h) ++
          [.release .bufr, .release .bufg, .release .bufb] } := by
  unfold tiffToRGBImage
  simp only [hphot, hspp, hsw, not_true_eq_false, if_false]
  rw [if_neg (by decide), if_neg (fun hn => hn hfmt), if_neg (by decide), if_pos trivial]
  rw [rgbLoop_ok tiff a deref _ _ _ _ _
    (rgbValue u tiff deref (TIFFGetField tiff .PLANARCONFIG u.planarConfig))]
  · simp [Result.map, Dest.log, rgbPrelude, rgbTagReads]
  · intro y _ x hx
    have hlen : ∀ n, (rgbBufs tiff (TIFFGetField tiff .PLANARCONFIG u.planarConfig)
          (newRGBBuffers u (TIFFScanlineSize tiff)) n).bufr.length = TIFFScanlineSize tiff ∧
        (rgbBufs tiff (TIFFGetField tiff .PLANARCONFIG u.planarConfig)
          (newRGBBuffers u (TIFFScanlineSize tiff)) n).bufg.length = TIFFScanlineSize tiff ∧
        (rgbBufs tiff (TIFFGetField tiff .PLANARCONFIG u.planarConfig)
          (newRGBBuffers u (TIFFScanlineSize tiff)) n).bufb.length = TIFFScanlineSize tiff := by
      intro n
      induction n with
      | zero => simp [rgbBufs, newRGBBuffers, length_newBuffer]
      | succ n ih =>
        simp only [rgbBufs, rgbRead]
        split <;> simp [length_TIFFReadScanline, ih]
    have h1 := hsome _ (hlen (y + 1)).1 (hlen (y + 1)).2.1 (hlen (y + 1)).2.2 x hx
    simp only [rgbValue]
    show rgbDeref deref _ _ (rgbBufs tiff _ (newRGBBuffers u (TIFFScanlineSize tiff)) (y + 1)) x
      = _
    cases hs : rgbDeref deref (TIFFGetField tiff .PLANARCONFIG u.planarConfig)
        (if TIFFGetField tiff .PLANARCONFIG u.planarConfig = PLANARCONFIG_CONTIG then 3 else 1)
        (rgbBufs tiff (TIFFGetField tiff .PLANARCONFIG u.planarConfig)
          (newRGBBuffers u (TIFFScanlineSize tiff)) (y + 1)) x with
    | none => rw [hs] at h1; cases h1
    | some v => rfl

theorem rgbBufs_length (u : Indeterminate) (tiff : TiffImage) (planarConfig n : Nat) :
    (rgbBufs tiff planarConfig (newRGBBuffers u (TIFFScanlineSize tiff)) n).bufr.length
        = TIFFScanlineSize tiff ∧
      (rgbBufs tiff planarConfig (newRGBBuffers u (TIFFScanlineSize tiff)) n).bufg.length
        = TIFFScanlineSize tiff ∧
      (rgbBufs tiff planarConfig (newRGBBuffers u (TIFFScanlineSize tiff)) n).bufb.length
        = TIFFScanlineSize tiff := by
  induction n with
  | zero => simp [rgbBufs, newRGBBuffers, length_newBuffer]
  | succ n ih =>
    simp only [rgbBufs, rgbRead]
    split <;> simp [length_TIFFReadScanline, ih]

/-- The buffer `bufr` during a row of a contiguous file that the codec could
read. -/
theorem rgbBufs_contig_of_row (u : Indeterminate) (tiff : TiffImage) (y : Nat)
    (row : Nat → Nat) (hrow : tiff.rows y 0 = some row) :
    (rgbBufs tiff PLANARCONFIG_CONTIG (newRGBBuffers u (TIFFScanlineSize tiff)) (y + 1)).bufr
      = (List.range (TIFFScanlineSize tiff)).map row := by
  simp [rgbBufs, rgbRead, TIFFReadScanline, hrow, (rgbBufs_length u tiff _ y).1]

/-- The three buffers during a row of a planar file that the codec could
read. -/
theorem rgbBufs_planar_of_rows (u : Indeterminate) (tiff : TiffImage) (planarConfig y : Nat)
    (hp : planarConfig ≠ PLANARCONFIG_CONTIG) (rr rg rb : Nat → Nat)
    (hr : tiff.rows y 0 = some rr) (hg : tiff.rows y 1 = some rg)
    (hb : tiff.rows y 2 = some rb) :
    rgbBufs tiff planarConfig (newRGBBuffers u (TIFFScanlineSize tiff)) (y + 1)
      = { bufr := (List.range (TIFFScanlineSize tiff)).map rr
          bufg := (List.range (TIFFScanlineSize tiff)).map rg
          bufb := (List.range (TIFFScanlineSize tiff)).map rb } := by
  simp [rgbBufs, rgbRead, hp, TIFFReadScanline, hr, hg, hb, (rgbBufs_length u tiff _ y).1,
    (rgbBufs_length u tiff _ y).2.1, (rgbBufs_length u tiff _ y).2.2]

theorem mul_index_le (k w x c n : Nat) (hx : x < w) (hc : c < 3) (hn : 3 * w * k ≤ n) :
    k * (c + x * 3) + k ≤ n := by
  have h1 : k * (c + x * 3 + 1) ≤ k * (3 * w) := Nat.mul_le_mul_left _ (by omega)
  have h2 : k * (3 * w) = 3 * w * k := Nat.mul_comm _ _
  rw [Nat.mul_add, Nat.mul_one] at h1
  omega

theorem mul_index_le_one (k w x n : Nat) (hx : x < w) (hn : w * k ≤ n) :
    k * (0 + x * 1) + k ≤ n := by
  have h1 : k * (x + 1) ≤ k * w := Nat.mul_le_mul_left _ (by omega)
  have h2 : k * w = w * k := Nat.mul_comm _ _
  rw [Nat.mul_add, Nat.mul_one] at h1
  simp only [Nat.zero_add, Nat.mul_one]
  omega

/-- Pixels of a successfully decoded contiguous RGB file. -/
theorem rgb_contig_pixels {α : Type} (u : Indeterminate) (tiff : TiffImage)
    (a : RGBAccessor α) (d : Dest α) (deref : List Nat → Nat → Option Value)
    (k : Nat) (f : Nat → Value) (w h : Nat)
    (hphot : TIFFGetField tiff .PHOTOMETRIC u.photometric = PHOTOMETRIC_RGB)
    (hfmt : TIFFGetField tiff .SAMPLEFORMAT 1 ≠ SAMPLEFORMAT_VOID)
    (hspp : TIFFGetField tiff .SAMPLESPERPIXEL u.samplesPerPixel = 3)
    (hsw : rgbSwitch (TIFFGetField tiff .SAMPLEFORMAT 1)
      (TIFFGetField tiff .BITSPERSAMPLE u.bitsPerSample) = .ok deref)
    (hspec : DerefSpec deref k f)
    (hplanar : TIFFGetField tiff .PLANARCONFIG u.planarConfig = PLANARCONFIG_CONTIG)
    (hw : TIFFGetField tiff .IMAGEWIDTH u.w = w)
    (hh : TIFFGetField tiff .IMAGELENGTH u.h = h)
    (hsize : 3 * w * k ≤ TIFFScanlineSize tiff) :
    ∃ d1, tiffToRGBImage u (some tiff) a d = .ok d1 ∧
      (∀ x y row, x < w → y < h → tiff.rows y 0 = some row →
        d1.image x y =
          a.store { red := f (elemOf k row (0 + x * 3)), green := f (elemOf k row (1 + x * 3)),
                    blue := f (elemOf k row (2 + x * 3)) } (d.image x y)) ∧
      ∀ x y, ¬ (x < w ∧ y < h) → d1.image x y = d.image x y := by
  subst hw hh
  refine ⟨_, tiffToRGBImage_rgb u tiff a d deref hphot hfmt hspp hsw ?_, ?_, ?_⟩
  · intro b h1 _ _ x hx
    simp only [hplanar, rgbDeref, if_true]
    have i0 := hspec.1 b.bufr (0 + x * 3) (by rw [h1]; exact mul_index_le k _ x 0 _ hx (by decide) hsize)
    have i1 := hspec.1 b.bufr (1 + x * 3) (by rw [h1]; exact mul_index_le k _ x 1 _ hx (by decide) hsize)
    have i2 := hspec.1 b.bufr (2 + x * 3) (by rw [h1]; exact mul_index_le k _ x 2 _ hx (by decide) hsize)
    revert i0 i1 i2
    cases deref b.bufr (0 + x * 3) <;> cases deref b.bufr (1 + x * 3) <;>
      cases deref b.bufr (2 + x * 3) <;> simp
  · intro x y row hx hy hrow
    simp only [hx, hy, and_self, if_true, rgbValue, hplanar, rgbDeref,
      rgbBufs_contig_of_row u tiff y row hrow,
      hspec.2 _ row (0 + x * 3) (mul_index_le k _ x 0 _ hx (by decide) hsize),
      hspec.2 _ row (1 + x * 3) (mul_index_le k _ x 1 _ hx (by decide) hsize),
      hspec.2 _ row (2 + x * 3) (mul_index_le k _ x 2 _ hx (by decide) hsize),
      Option.getD_some]
  · intro x y hxy
    simp only [hxy, if_false]

/-- Pixels of a successfully decoded planar RGB file. -/
theorem rgb_planar_pixels {α : Type} (u : Indeterminate) (tiff : TiffImage)
    (a : RGBAccessor α) (d : Dest α) (deref : List Nat → Nat → Option Value)
    (k : Nat) (f : Nat → Value) (w h : Nat)
    (hphot : TIFFGetField tiff .PHOTOMETRIC u.photometric = PHOTOMETRIC_RGB)
    (hfmt : TIFFGetField tiff .SAMPLEFORMAT 1 ≠ SAMPLEFORMAT_VOID)
    (hspp : TIFFGetField tiff .SAMPLESPERPIXEL u.samplesPerPixel = 3)
    (hsw : rgbSwitch (TIFFGetField tiff .SAMPLEFORMAT 1)
      (TIFFGetField tiff .BITSPERSAMPLE u.bitsPerSample) = .ok deref)
    (hspec : DerefSpec deref k f)
    (hplanar : TIFFGetField tiff .PLANARCONFIG u.planarConfig ≠ PLANARCONFIG_CONTIG)
    (hw : TIFFGetField tiff .IMAGEWIDTH u.w = w)
    (hh : TIFFGetField tiff .IMAGELENGTH u.h = h)
    (hsize : w * k ≤ TIFFScanlineSize tiff) :
    ∃ d1, tiffToRGBImage u (some tiff) a d = .ok d1 ∧
      (∀ x y rr rg rb, x < w → y < h → tiff.rows y 0 = some rr → tiff.rows y 1 = some rg →
        tiff.rows y 2 = some rb →
        d1.image x y =
          a.store { red := f (elemOf k rr (0 + x * 1)), green := f (elemOf k rg (0 + x * 1)),
                    blue := f (elemOf k rb (0 + x * 1)) } (d.image x y)) ∧
      ∀ x y, ¬ (x < w ∧ y < h) → d1.image x y = d.image x y := by
  subst hw hh
  refine ⟨_, tiffToRGBImage_rgb u tiff a d deref hphot hfmt hspp hsw ?_, ?_, ?_⟩
  · intro b h1 h2 h3 x hx
    simp only [hplanar, rgbDeref, if_false]
    have i0 := hspec.1 b.bufr (0 + x * 1) (by rw [h1]; exact mul_index_le_one k _ x _ hx hsize)
    have i1 := hspec.1 b.bufg (0 + x * 1) (by rw [h2]; exact mul_index_le_one k _ x _ hx hsize)
    have i2 := hspec.1 b.bufb (0 + x * 1) (by rw [h3]; exact mul_index_le_one k _ x _ hx hsize)
    revert i0 i1 i2
    cases deref b.bufr (0 + x * 1) <;> cases deref b.bufg (0 + x * 1) <;>
      cases deref b.bufb (0 + x * 1) <;> simp
  · intro x y rr rg rb hx hy hr hg hb
    simp only [hx, hy, and_self, if_true, rgbValue, hplanar, rgbDeref, if_false,
      rgbBufs_planar_of_rows u tiff _ y hplanar rr rg rb hr hg hb,
      hspec.2 _ rr (0 + x * 1) (mul_index_le_one k _ x _ hx hsize),
      hspec.2 _ rg (0 + x * 1) (mul_index_le_one k _ x _ hx hsize),
      hspec.2 _ rb (0 + x * 1) (mul_index_le_one k _ x _ hx hsize),
      Option.getD_some]
  · intro x y hxy
    simp only [hxy, if_false]

theorem derefSpec_uint (k : Nat) : DerefSpec (sampleUInt k) k (fun raw => Value.int (raw : Int)) := by
  constructor
  · intro buf i hi
    simp only [sampleUInt, Option.isSome_map']
    exact readLE_isSome k buf i hi
  · intro n row i hi
    simp [sampleUInt, readLE_map_range k n i row hi]

theorem derefSpec_int (k : Nat) :
    DerefSpec (sampleInt k) k (fun raw => Value.int (toSigned (8 * k) raw)) := by
  constructor
  · intro buf i hi
    simp only [sampleInt, Option.isSome_map']
    exact readLE_isSome k buf i hi
  · intro n row i hi
    simp [sampleInt, readLE_map_range k n i row hi]

theorem derefSpec_float : DerefSpec sampleFloat 4 Value.float := by
  constructor
  · intro buf i hi
    simp only [sampleFloat, Option.isSome_map']
    exact readLE_isSome 4 buf i hi
  · intro n row i hi
    simp [sampleFloat, readLE_map_range 4 n i row hi]

theorem derefSpec_double : DerefSpec sampleDouble 8 Value.double := by
  constructor
  · intro buf i hi
    simp only [sampleDouble, Option.isSome_map']
    exact readLE_isSome 8 buf i hi
  · intro n row i hi
    simp [sampleDouble, readLE_map_range 8 n i row hi]

/-- For each supported encoding the `switch` of the `PHOTOMETRIC_RGB` branch
selects the pointer type of `bits / 8` bytes whose dereference is the raw
element in the matching fixed-width type. -/
theorem rgbSwitch_supported (format bits : Nat)
    (hsup : (format = SAMPLEFORMAT_UINT ∨ format = SAMPLEFORMAT_INT) ∧
        (bits = 8 ∨ bits = 16 ∨ bits = 32) ∨
      format = SAMPLEFORMAT_IEEEFP ∧ (bits = 32 ∨ bits = 64)) :
    format ≠ SAMPLEFORMAT_VOID ∧
    ∃ deref, rgbSwitch format bits = .ok deref ∧
      DerefSpec deref (bits / 8) (sampleValue format bits) := by
  rcases hsup with ⟨hf | hf, hb | hb | hb⟩ | ⟨hf, hb | hb⟩ <;> subst hf <;> subst hb <;>
    refine ⟨by decide, ?_⟩
  · exact ⟨_, rfl, derefSpec_uint 1⟩
  · exact ⟨_, rfl, derefSpec_uint 2⟩
  · exact ⟨_, rfl, derefSpec_uint 4⟩
  · exact ⟨_, rfl, derefSpec_int 1⟩
  · exact ⟨_, rfl, derefSpec_int 2⟩
  · exact ⟨_, rfl, derefSpec_int 4⟩
  · exact ⟨_, rfl, derefSpec_float⟩
  · exact ⟨_, rfl, derefSpec_double⟩

/-- C7: interleaved and planar decode agree. Take a supported encoding and a
`w` by `h` grid of raw samples `r`, `g`, `b`. On a file with
PlanarConfig=Contiguous whose scanline `y` holds them at elements `3x`,
`3x+1`, `3x+2`, and on a file with PlanarConfig=Separate whose scanlines `y`
of planes 0, 1, 2 hold them at element `x`, `tiffToRGBImage` returns normally
and leaves the same destination image: at every `(x, y)` of the grid the
three setters were called with the samples in the matching fixed-width type. -/
theorem rgb_contig_planar_agree {α : Type} (uC uS : Indeterminate) (tC tS : TiffImage)
    (a : RGBAccessor α) (d : Dest α) (format bits w h : Nat) (r g b : Nat → Nat → Nat)
    (hsup : (format = SAMPLEFORMAT_UINT ∨ format = SAMPLEFORMAT_INT) ∧
        (bits = 8 ∨ bits = 16 ∨ bits = 32) ∨
      format = SAMPLEFORMAT_IEEEFP ∧ (bits = 32 ∨ bits = 64))
    (hC1 : tC.tags .PHOTOMETRIC = some PHOTOMETRIC_RGB)
    (hC2 : tC.tags .SAMPLESPERPIXEL = some 3)
    (hC3 : TIFFGetField tC .SAMPLEFORMAT 1 = format)
    (hC4 : tC.tags .BITSPERSAMPLE = some bits)
    (hC5 : tC.tags .IMAGEWIDTH = some w)
    (hC6 : tC.tags .IMAGELENGTH = some h)
    (hC7 : tC.tags .PLANARCONFIG = some PLANARCONFIG_CONTIG)
    (hC8 : 3 * w * (bits / 8) ≤ TIFFScanlineSize tC)
    (hC9 : ∀ y, y < h → ∃ row, tC.rows y 0 = some row ∧ ∀ x, x < w →
      elemOf (bits / 8) row (3 * x) = r x y ∧ elemOf (bits / 8) row (3 * x + 1) = g x y ∧
        elemOf (bits / 8) row (3 * x + 2) = b x y)
    (hS1 : tS.tags .PHOTOMETRIC = some PHOTOMETRIC_RGB)
    (hS2 : tS.tags .SAMPLESPERPIXEL = some 3)
    (hS3 : TIFFGetField tS .SAMPLEFORMAT 1 = format)
    (hS4 : tS.tags .BITSPERSAMPLE = some bits)
    (hS5 : tS.tags .IMAGEWIDTH = some w)
    (hS6 : tS.tags .IMAGELENGTH = some h)
    (hS7 : tS.tags .PLANARCONFIG = some PLANARCONFIG_SEPARATE)
    (hS8 : w * (bits / 8) ≤ TIFFScanlineSize tS)
    (hS9 : ∀ y, y < h → ∃ rr rg rb, tS.rows y 0 = some rr ∧ tS.rows y 1 = some rg ∧
      tS.rows y 2 = some rb ∧ ∀ x, x < w →
        elemOf (bits / 8) rr x = r x y ∧ elemOf (bits / 8) rg x = g x y ∧
          elemOf (bits / 8) rb x = b x y) :
    ∃ dC dS, tiffToRGBImage uC (some tC) a d = .ok dC ∧
      tiffToRGBImage uS (some tS) a d = .ok dS ∧ dC.image = dS.image ∧
      ∀ x y, x < w → y < h →
        dC.image x y =
          a.setBlue (sampleValue format bits (b x y))
            (a.setGreen (sampleValue format bits (g x y))
              (a.setRed (sampleValue format bits (r x y)) (d.image x y))) := by
  obtain ⟨hvoid, deref, hsw, hspec⟩ := rgbSwitch_supported format bits hsup
  obtain ⟨dC, hrunC, hpixC, houtC⟩ := rgb_contig_pixels uC tC a d deref (bits / 8)
    (sampleValue format bits) w h (TIFFGetField_of_tag tC _ _ _ hC1) (by rw [hC3]; exact hvoid)
    (TIFFGetField_of_tag tC _ _ _ hC2)
    (by rw [hC3, TIFFGetField_of_tag tC _ _ _ hC4]; exact hsw) hspec
    (TIFFGetField_of_tag tC _ _ _ hC7) (TIFFGetField_of_tag tC _ _ _ hC5)
    (TIFFGetField_of_tag tC _ _ _ hC6) hC8
  obtain ⟨dS, hrunS, hpixS, houtS⟩ := rgb_planar_pixels uS tS a d deref (bits / 8)
    (sampleValue format bits) w h (TIFFGetField_of_tag tS _ _ _ hS1) (by rw [hS3]; exact hvoid)
    (TIFFGetField_of_tag tS _ _ _ hS2)
    (by rw [hS3, TIFFGetField_of_tag tS _ _ _ hS4]; exact hsw) hspec
    (by rw [TIFFGetField_of_tag tS _ _ _ hS7]; decide) (TIFFGetField_of_tag tS _ _ _ hS5)
    (TIFFGetField_of_tag tS _ _ _ hS6) hS8
  have hC : ∀ x y, x < w → y < h →
      dC.image x y =
        a.setBlue (sampleValue format bits (b x y))
          (a.setGreen (sampleValue format bits (g x y))
            (a.setRed (sampleValue format bits (r x y)) (d.image x y))) := by
    intro x y hx hy
    obtain ⟨row, hrow, hel⟩ := hC9 y hy
    obtain ⟨h1, h2, h3⟩ := hel x hx
    rw [hpixC x y row hx hy hrow]
    have i0 : 0 + x * 3 = 3 * x := by omega
    have i1 : 1 + x * 3 = 3 * x + 1 := by omega
    have i2 : 2 + x * 3 = 3 * x + 2 := by omega
    rw [i0, i1, i2, h1, h2, h3]
    rfl
  refine ⟨dC, dS, hrunC, hrunS, ?_, hC⟩
  funext x y
  by_cases hxy : x < w ∧ y < h
  · obtain ⟨rr, rg, rb, hr, hg, hb, hel⟩ := hS9 y hxy.2
    obtain ⟨h1, h2, h3⟩ := hel x hxy.1
    rw [hC x y hxy.1 hxy.2, hpixS x y rr rg rb hxy.1 hxy.2 hr hg hb]
    have i0 : 0 + x * 1 = x := by omega
    rw [i0, h1, h2, h3]
    rfl
  · rw [houtC x y hxy, houtS x y hxy]

/-- C7 at a concrete input: the 1 by 1 pixel (1, 2, 3) with 8-bit unsigned
samples, stored interleaved and stored in three planes. -/
theorem rgb_contig_planar_agree_witness :
    ∃ dC dS, tiffToRGBImage zeroIndeterminate
        (some (exampleHandle (exampleTags 1 1 8 3 SAMPLEFORMAT_UINT PHOTOMETRIC_RGB
          PLANARCONFIG_CONTIG FILLORDER_MSB2LSB) 3 (fun i => i + 1)))
        StandardRGBAccessor blankRGBImage = .ok dC ∧
      tiffToRGBImage zeroIndeterminate
        (some (examplePlanar (exampleTags 1 1 8 3 SAMPLEFORMAT_UINT PHOTOMETRIC_RGB
          PLANARCONFIG_SEPARATE FILLORDER_MSB2LSB) 1 (fun _ => 1) (fun _ => 2) (fun _ => 3)))
        StandardRGBAccessor blankRGBImage = .ok dS ∧
      dC.image = dS.image ∧
      dC.image 0 0 = { red := .int 1, green := .int 2, blue := .int 3 } := by
  obtain ⟨dC, dS, h1, h2, h3, h4⟩ := rgb_contig_planar_agree zeroIndeterminate zeroIndeterminate
    (exampleHandle (exampleTags 1 1 8 3 SAMPLEFORMAT_UINT PHOTOMETRIC_RGB
      PLANARCONFIG_CONTIG FILLORDER_MSB2LSB) 3 (fun i => i + 1))
    (examplePlanar (exampleTags 1 1 8 3 SAMPLEFORMAT_UINT PHOTOMETRIC_RGB
      PLANARCONFIG_SEPARATE FILLORDER_MSB2LSB) 1 (fun _ => 1) (fun _ => 2) (fun _ => 3))
    StandardRGBAccessor blankRGBImage SAMPLEFORMAT_UINT 8 1 1
    (fun _ _ => 1) (fun _ _ => 2) (fun _ _ => 3)
    (Or.inl ⟨Or.inl rfl, Or.inl rfl⟩)
    rfl rfl rfl rfl rfl rfl rfl (by decide)
    (by
      intro y _
      refine ⟨fun i => i + 1, rfl, ?_⟩
      intro x hx
      have hx0 : x = 0 := by omega
      subst hx0
      exact ⟨rfl, rfl, rfl⟩)
    rfl rfl rfl rfl rfl rfl rfl (by decide)
    (by
      intro y _
      refine ⟨fun _ => 1, fun _ => 2, fun _ => 3, rfl, rfl, rfl, ?_⟩
      intro x _
      simp [elemOf, leValue])
  refine ⟨dC, dS, h1, h2, h3, ?_⟩
  rw [h4 0 0 (by decide) (by decide)]
  decide

/-! ## Encoding -/

theorem length_leBytes (k v : Nat) : (leBytes k v).length = k := by
  induction k generalizing v with
  | zero => rfl
  | succ k ih => simp [leBytes, ih]

theorem leValue_leBytes (k v : Nat) : leValue (leBytes k v) = v % 256 ^ k := by
  induction k generalizing v with
  | zero => simp [leBytes, leValue, Nat.mod_one]
  | succ k ih =>
    simp only [leBytes, leValue, ih]
    rw [Nat.pow_succ, Nat.mul_comm (256 ^ k) 256, Nat.mod_mul]

theorem length_encodeRow (k : Nat) (c : Nat → Nat) (n : Nat) :
    (encodeRow k c n).length = k * n := by
  induction n with
  | zero => rfl
  | succ n ih => simp [encodeRow, ih, length_leBytes, Nat.mul_succ]

theorem writeLE_encodeRow (k : Nat) (c : Nat → Nat) (n v : Nat) (buf : List Nat)
    (h : k * (n + 1) ≤ buf.length) :
    writeLE k (encodeRow k c n ++ buf.drop (k * n)) n v
      = some (encodeRow k c n ++ leBytes k v ++ buf.drop (k * (n + 1))) := by
  have hlen := length_encodeRow k c n
  rw [Nat.mul_succ] at h
  have h1 : k * n + k ≤ (encodeRow k c n ++ buf.drop (k * n)).length := by
    simp only [List.length_append, hlen, List.length_drop]
    omega
  have h2 : List.take (k * n) (encodeRow k c n ++ buf.drop (k * n)) = encodeRow k c n :=
    List.take_left' hlen
  have h3 : List.drop (k * n + k) (encodeRow k c n ++ buf.drop (k * n))
      = buf.drop (k * (n + 1)) := by
    rw [show k * n + k = (encodeRow k c n).length + k by omega, List.drop_append,
      List.drop_drop, Nat.mul_succ]
  simp only [writeLE, h1, if_true, h2, h3]

theorem readLE_encodeRow (k : Nat) (c : Nat → Nat) (w x : Nat) (tail : List Nat)
    (hx : x < w) : readLE k (encodeRow k c w ++ tail) x = some (c x % 256 ^ k) := by
  induction w generalizing tail with
  | zero => omega
  | succ w ih =>
    by_cases hxw : x < w
    · rw [encodeRow, List.append_assoc]
      exact ih _ hxw
    · have hxe : x = w := by omega
      subst hxe
      have hlen := length_encodeRow k c x
      have h1 : k * x + k ≤ (encodeRow k c x ++ (leBytes k (c x) ++ tail)).length := by
        simp only [List.length_append, hlen, length_leBytes]
        omega
      simp only [readLE, encodeRow, List.append_assoc, h1, if_true]
      rw [List.drop_left' hlen, List.take_left' (length_leBytes k (c x)), leValue_leBytes]

theorem map_range_getD (l : List Nat) : (List.range l.length).map (fun i => l.getD i 0) = l := by
  apply List.ext_getElem
  · simp
  · intro i h1 h2
    simp [List.getD_eq_getElem?_getD, List.getElem?_eq_getElem h2]

theorem writtenHandle_fields (tiff : TiffImage) (rowData : Nat → List Nat) (n : Nat) :
    (writtenHandle tiff rowData n).tags = tiff.tags ∧
    (writtenHandle tiff rowData n).scanlineSize = tiff.scanlineSize ∧
    (writtenHandle tiff rowData n).writeFails = tiff.writeFails ∧
    (writtenHandle tiff rowData n).rgba = tiff.rgba := by
  induction n with
  | zero => exact ⟨rfl, rfl, rfl, rfl⟩
  | succ n ih =>
    simp only [writtenHandle, TIFFWriteScanline]
    split <;> exact ih

theorem writtenHandle_rows (tiff : TiffImage) (rowData : Nat → List Nat) (n y : Nat)
    (hy : y < n) (hw : ∀ y, y < n → tiff.writeFails y = false) :
    (writtenHandle tiff rowData n).rows y 0 = some (fun i => (rowData y).getD i 0) := by
  induction n with
  | zero => omega
  | succ n ih =>
    have hf : (writtenHandle tiff rowData n).writeFails n = false := by
      rw [(writtenHandle_fields tiff rowData n).2.2.1]; exact hw n (Nat.lt_succ_self n)
    simp only [writtenHandle, TIFFWriteScanline, hf, Bool.false_eq_true, if_false]
    by_cases hyn : y = n
    · subst hyn; simp
    · simp only [hyn, false_and, if_false]
      exact ih (by omega) (fun y hy => hw y (Nat.lt_succ_of_lt hy))

/-- Closed form of an encoder's row loop, for any inner loop that fills the
buffer with `rowData y` from every buffer satisfying the invariant `P`. -/
theorem encodeLoop_ok (fill : Nat → EncodeState → Result EncodeState)
    (rowData : Nat → List Nat) (P : List Nat → Prop)
    (hfill : ∀ y s, P s.buf → fill y s = .ok { s with buf := rowData y })
    (hP : ∀ y, P (rowData y)) (h : Nat) (s : EncodeState) (hs : P s.buf) :
    ∃ buf, P buf ∧
      forLoop h (fun y s => (fill y s).bind fun s => .ok (s.writeScanline y)) s = .ok
        { buf := buf
          sink := { tiff := writtenHandle s.sink.tiff rowData h
                    trace := s.sink.trace ++ writtenTrace rowData h } } := by
  induction h with
  | zero => exact ⟨s.buf, hs, by simp [forLoop, writtenHandle, writtenTrace]⟩
  | succ h ih =>
    obtain ⟨buf, hbuf, hrun⟩ := ih
    refine ⟨rowData h, hP h, ?_⟩
    rw [forLoop, hrun]
    simp only [Result.bind]
    rw [hfill h _ hbuf]
    simp [Result.bind, EncodeState.writeScanline, writtenHandle, writtenTrace]

/-- The inner loop of `createScalarTiffImage` fills the buffer with the
encoded row. -/
theorem scalarFill_ok (k : Nat) (c : Nat → Nat) (n : Nat) (s : EncodeState)
    (hn : k * n ≤ s.buf.length) :
    forLoop n (fun x s =>
      match writeLE k s.buf x (c x) with
      | some buf => .ok { s with buf := buf }
      | none => .undefined) s
    = .ok { s with buf := encodeRow k c n ++ s.buf.drop (k * n) } := by
  induction n with
  | zero => simp [forLoop, encodeRow]
  | succ n ih =>
    rw [forLoop, ih (by rw [Nat.mul_succ] at hn; omega)]
    simp only [Result.bind, writeLE_encodeRow k c n (c n) s.buf hn, encodeRow]

/-- The inner loop of `createRGBTiffImage` fills the buffer with the
interleaved encoded row. -/
theorem rgbFill_ok (k : Nat) (red green blue : Nat → Nat) (n : Nat) (s : EncodeState)
    (hn : k * (3 * n) ≤ s.buf.length) :
    forLoop n (fun x s =>
      match writeLE k s.buf (0 + x * 3) (red x) with
      | none => .undefined
      | some buf1 =>
        match writeLE k buf1 (1 + x * 3) (green x) with
        | none => .undefined
        | some buf2 =>
          match writeLE k buf2 (2 + x * 3) (blue x) with
          | none => .undefined
          | some buf3 => .ok { s with buf := buf3 }) s
    = .ok { s with buf := encodeRow k (interleave red green blue) (3 * n)
                           ++ s.buf.drop (k * (3 * n)) } := by
  induction n with
  | zero => simp [forLoop, encodeRow]
  | succ n ih =>
    have hn0 : k * (3 * n) ≤ s.buf.length :=
      Nat.le_trans (Nat.mul_le_mul_left k (by omega)) hn
    rw [forLoop, ih hn0]
    have e0 : 0 + n * 3 = 3 * n := by omega
    have e1 : 1 + n * 3 = 3 * n + 1 := by omega
    have e2 : 2 + n * 3 = 3 * n + 1 + 1 := by omega
    have e3 : 3 * (n + 1) = 3 * n + 1 + 1 + 1 := by omega
    have c0 : interleave red green blue (3 * n) = red n := by
      simp [interleave, Nat.mul_mod_right]
    have c1 : interleave red green blue (3 * n + 1) = green n := by
      have : (3 * n + 1) % 3 = 1 := by omega
      have : (3 * n + 1) / 3 = n := by omega
      simp [interleave, *]
    have c2 : interleave red green blue (3 * n + 1 + 1) = blue n := by
      have : (3 * n + 1 + 1) % 3 = 2 := by omega
      have : (3 * n + 1 + 1) / 3 = n := by omega
      simp [interleave, *]
    rw [e3] at hn ⊢
    have h0 := writeLE_encodeRow k (interleave red green blue) (3 * n) (red n) s.buf
      (Nat.le_trans (Nat.mul_le_mul_left k (by omega)) hn)
    have h1 := writeLE_encodeRow k (interleave red green blue) (3 * n + 1) (green n) s.buf
      (Nat.le_trans (Nat.mul_le_mul_left k (by omega)) hn)
    have h2 := writeLE_encodeRow k (interleave red green blue) (3 * n + 1 + 1) (blue n) s.buf hn
    simp only [encodeRow, c0, c1] at h1 h2
    simp only [Result.bind, e0, e1, e2, h0, h1, h2, e3, encodeRow, c0, c1, c2]

theorem writtenTags_get (tiff : TiffImage) (w h bits spp format photometric : Nat) :
    (writtenTags tiff w h bits spp format photometric).tags .IMAGEWIDTH = some w ∧
    (writtenTags tiff w h bits spp format photometric).tags .IMAGELENGTH = some h ∧
    (writtenTags tiff w h bits spp format photometric).tags .BITSPERSAMPLE = some bits ∧
    (writtenTags tiff w h bits spp format photometric).tags .SAMPLESPERPIXEL = some spp ∧
    (writtenTags tiff w h bits spp format photometric).tags .PLANARCONFIG
      = some PLANARCONFIG_CONTIG ∧
    (writtenTags tiff w h bits spp format photometric).tags .SAMPLEFORMAT = some format ∧
    (writtenTags tiff w h bits spp format photometric).tags .PHOTOMETRIC = some photometric := by
  simp [writtenTags, TIFFSetField]

theorem writtenTags_fields (tiff : TiffImage) (w h bits spp format photometric : Nat) :
    (writtenTags tiff w h bits spp format photometric).scanlineSize = tiff.scanlineSize ∧
    (writtenTags tiff w h bits spp format photometric).writeFails = tiff.writeFails :=
  ⟨rfl, rfl⟩

theorem encodedRow_inv (u : Indeterminate) (bufsize k n : Nat) (c : Nat → Nat)
    (h : k * n ≤ bufsize) :
    (encodedRow u bufsize k n c).length = bufsize ∧
    (encodedRow u bufsize k n c).drop (k * n) = (newBuffer u .buf bufsize).drop (k * n) := by
  constructor
  · simp only [encodedRow, List.length_append, length_encodeRow, List.length_drop,
      length_newBuffer]
    omega
  · exact List.drop_left' (length_encodeRow k c n)

/-- Closed form of a run of the common body of `createScalarTiffImage`. -/
theorem createScalarTiffImageOf_ok (bits format k : Nat) (cell : Nat → Nat → Nat)
    (u : Indeterminate) (w h : Nat) (tiff : TiffImage) (trace : List Event)
    (hsize : k * w ≤
      TIFFScanlineSize (writtenTags tiff w h bits 1 format PHOTOMETRIC_MINISBLACK)) :
    createScalarTiffImageOf bits format k cell u w h (some tiff) trace = .ok
      { tiff := writtenHandle (writtenTags tiff w h bits 1 format PHOTOMETRIC_MINISBLACK)
          (fun y => encodedRow u
            (TIFFScanlineSize (writtenTags tiff w h bits 1 format PHOTOMETRIC_MINISBLACK))
            k w (fun x => cell x y)) h
        trace := trace ++ encodePrelude w h bits 1 format PHOTOMETRIC_MINISBLACK
            (TIFFScanlineSize (writtenTags tiff w h bits 1 format PHOTOMETRIC_MINISBLACK)) ++
          writtenTrace (fun y => encodedRow u
            (TIFFScanlineSize (writtenTags tiff w h bits 1 format PHOTOMETRIC_MINISBLACK))
            k w (fun x => cell x y)) h ++ [.release .buf] } := by
  obtain ⟨buf, _, hrun⟩ := encodeLoop_ok
    (fun y s => forLoop w (fun x s =>
      match writeLE k s.buf x (cell x y) with
      | some buf => .ok { s with buf := buf }
      | none => .undefined) s)
    (fun y => encodedRow u
      (TIFFScanlineSize (writtenTags tiff w h bits 1 format PHOTOMETRIC_MINISBLACK))
      k w (fun x => cell x y))
    (fun buf => buf.length =
        TIFFScanlineSize (writtenTags tiff w h bits 1 format PHOTOMETRIC_MINISBLACK) ∧
      buf.drop (k * w) = (newBuffer u .buf
        (TIFFScanlineSize (writtenTags tiff w h bits 1 format PHOTOMETRIC_MINISBLACK))).drop
          (k * w))
    (by
      intro y s hs
      show forLoop w _ s = _
      rw [scalarFill_ok k (fun x => cell x y) w s (by rw [hs.1]; exact hsize), hs.2]
      rfl)
    (fun y => encodedRow_inv u _ k w _ hsize) h
    { buf := newBuffer u .buf
        (TIFFScanlineSize (writtenTags tiff w h bits 1 format PHOTOMETRIC_MINISBLACK))
      sink :=
        { tiff := writtenTags tiff w h bits 1 format PHOTOMETRIC_MINISBLACK
          trace := trace ++ encodePrelude w h bits 1 format PHOTOMETRIC_MINISBLACK
            (TIFFScanlineSize (writtenTags tiff w h bits 1 format PHOTOMETRIC_MINISBLACK)) } }
    ⟨length_newBuffer _ _ _, rfl⟩
  unfold createScalarTiffImageOf
  simp only [Sink.setField, List.append_assoc, List.singleton_append] at hrun ⊢
  simp only [encodePrelude, writtenTags, List.cons_append, List.nil_append] at hrun ⊢
  rw [hrun]
  simp [Result.map]

theorem mul_succ_le_of_lt (k w x n : Nat) (hx : x < w) (hn : k * w ≤ n) : k * x + k ≤ n := by
  have h1 : k * (x + 1) ≤ k * w := Nat.mul_le_mul_left _ hx
  rw [Nat.mul_add, Nat.mul_one] at h1
  omega

/-- Decoding what the common body of `createScalarTiffImage` wrote, for a
sample expression that reads the `k`-byte element and applies `f`. -/
theorem decode_encoded_scalar {α : Type} (bits format k : Nat) (cell : Nat → Nat → Nat)
    (sample : List Nat → Nat → Option Value) (f : Nat → Value)
    (u u1 : Indeterminate) (w h : Nat) (tiff : TiffImage) (trace : List Event)
    (a : Accessor α) (d : Dest α)
    (hvoid : format ≠ SAMPLEFORMAT_VOID)
    (hsw : ∀ fill, scalarSwitch format bits fill 0 1 255 0 = .ok sample)
    (hsample : ∀ buf x, sample buf x = (readLE k buf x).map f)
    (hwrite : ∀ y, y < h → tiff.writeFails y = false)
    (hsize : k * w ≤
      TIFFScanlineSize (writtenTags tiff w h bits 1 format PHOTOMETRIC_MINISBLACK)) :
    ∃ s, createScalarTiffImageOf bits format k cell u w h (some tiff) trace = .ok s ∧
      s.tiff.tags .IMAGEWIDTH = some w ∧ s.tiff.tags .IMAGELENGTH = some h ∧
      ∃ d1, tiffToScalarImage u1 (some s.tiff) a d = .ok d1 ∧
        ∀ x y, d1.image x y =
          if x < w ∧ y < h then a.set (f (cell x y % 256 ^ k)) (d.image x y)
          else d.image x y := by
  refine ⟨_, createScalarTiffImageOf_ok bits format k cell u w h tiff trace hsize, ?_⟩
  generalize hrd : (fun y => encodedRow u
    (TIFFScanlineSize (writtenTags tiff w h bits 1 format PHOTOMETRIC_MINISBLACK))
    k w (fun x => cell x y)) = rowData
  generalize hT : writtenHandle (writtenTags tiff w h bits 1 format PHOTOMETRIC_MINISBLACK)
    rowData h = T
  have hf := writtenHandle_fields (writtenTags tiff w h bits 1 format PHOTOMETRIC_MINISBLACK)
    rowData h
  rw [hT] at hf
  obtain ⟨g1, g2, g3, g4, -, g6, g7⟩ :=
    writtenTags_get tiff w h bits 1 format PHOTOMETRIC_MINISBLACK
  rw [← hf.1] at g1 g2 g3 g4 g6 g7
  have hsz : TIFFScanlineSize T
      = TIFFScanlineSize (writtenTags tiff w h bits 1 format PHOTOMETRIC_MINISBLACK) := by
    simp only [TIFFScanlineSize, hf.1, hf.2.1]
  have hrows : ∀ y, y < h → T.rows y 0 = some (fun i => (rowData y).getD i 0) := by
    intro y hy
    rw [← hT]
    exact writtenHandle_rows _ rowData h y hy hwrite
  refine ⟨g1, g2, ?_⟩
  obtain ⟨d1, hrun, hpix, hout⟩ := scalar_pixel u1 T a d sample w h
    (Or.inr (TIFFGetField_of_tag T _ _ _ g7)) (TIFFGetField_of_tag T _ _ _ g4)
    (by rw [TIFFGetField_of_tag T _ _ _ g6]; exact hvoid)
    (by
      rw [TIFFGetField_of_tag T _ _ _ g6, TIFFGetField_of_tag T _ _ _ g3,
        TIFFGetField_of_tag T _ _ _ g7]
      exact hsw _)
    (TIFFGetField_of_tag T _ _ _ g1) (TIFFGetField_of_tag T _ _ _ g2)
    (by
      intro buf hlen x hx
      rw [hsample, Option.isSome_map']
      exact readLE_isSome k buf x (by rw [hlen, hsz]; exact mul_succ_le_of_lt k w x _ hx hsize))
  refine ⟨d1, hrun, ?_⟩
  intro x y
  by_cases hxy : x < w ∧ y < h
  · rw [hpix x y _ hxy.1 hxy.2 (hrows y hxy.2), if_pos hxy, hsz]
    have hlen : (rowData y).length
        = TIFFScanlineSize (writtenTags tiff w h bits 1 format PHOTOMETRIC_MINISBLACK) := by
      rw [← hrd]; exact (encodedRow_inv u _ k w _ hsize).1
    rw [← hlen, map_range_getD, hsample]
    have hread : readLE k (rowData y) x = some (cell x y % 256 ^ k) := by
      rw [← hrd]; exact readLE_encodeRow k (fun x => cell x y) w x _ hxy.1
    rw [hread]
    rfl
  · rw [hout x y hxy, if_neg hxy]

theorem toUnsigned_uchar (v : Int) (h : 0 ≤ v ∧ v < 2 ^ 8) :
    ((toUnsigned 8 v % 256 ^ 1 : Nat) : Int) = v := by
  simp only [toUnsigned]
  norm_num at h ⊢
  omega

theorem toSigned_toUnsigned_short (v : Int) (h : -(2 ^ 15) ≤ v ∧ v < 2 ^ 15) :
    toSigned (8 * 2) (toUnsigned 16 v % 256 ^ 2) = v := by
  simp only [toSigned, toUnsigned]
  norm_num at h ⊢
  split <;> omega

theorem toSigned_toUnsigned_int (v : Int) (h : -(2 ^ 31) ≤ v ∧ v < 2 ^ 31) :
    toSigned (8 * 4) (toUnsigned 32 v % 256 ^ 4) = v := by
  simp only [toSigned, toUnsigned]
  norm_num at h ⊢
  split <;> omega

theorem bits_float (v : Nat) (h : v < 2 ^ 32) : v % 2 ^ 32 % 256 ^ 4 = v := by
  norm_num at h ⊢
  omega

theorem bits_double (v : Nat) (h : v < 2 ^ 64) : v % 2 ^ 64 % 256 ^ 8 = v := by
  norm_num at h ⊢
  omega

/-- C1: scalar round trip. For a `w` by `h` source image of pixel type
unsigned char, short, int, float or double, a handle whose scanline writes
succeed and whose reported scanline size holds `w` samples of that type,
`createScalarTiffImage` returns normally, the handle carries ImageWidth `w`
and ImageLength `h`, and `tiffToScalarImage` on that handle into an image
that stores sample values exactly returns normally with every pixel of the
`w` by `h` range equal to the source pixel (negative values included) and
every other destination pixel untouched. -/
theorem scalar_round_trip (u u1 : Indeterminate) (w h : Nat) (src : ScalarSource)
    (tiff : TiffImage) (trace : List Event) (d : Dest Value)
    (htyped : src.WellTyped w h)
    (hwrite : ∀ y, y < h → tiff.writeFails y = false)
    (hsize : ∀ tags : Tags, tags .IMAGEWIDTH = some w →
      tags .BITSPERSAMPLE = some (8 * src.bytes) → tags .SAMPLESPERPIXEL = some 1 →
      w * src.bytes ≤ tiff.scanlineSize tags) :
    ∃ s, createScalarTiffImage u w h src (some tiff) trace = .ok s ∧
      s.tiff.tags .IMAGEWIDTH = some w ∧ s.tiff.tags .IMAGELENGTH = some h ∧
      ∃ d1, tiffToScalarImage u1 (some s.tiff) StandardValueAccessor d = .ok d1 ∧
        ∀ x y, d1.image x y = if x < w ∧ y < h then src.value x y else d.image x y := by
  have hsz : ∀ bits format, bits = 8 * src.bytes → src.bytes * w ≤
      TIFFScanlineSize (writtenTags tiff w h bits 1 format PHOTOMETRIC_MINISBLACK) := by
    intro bits format hb
    obtain ⟨g1, -, g3, g4, -⟩ := writtenTags_get tiff w h bits 1 format PHOTOMETRIC_MINISBLACK
    rw [Nat.mul_comm]
    exact hsize _ g1 (by rw [g3, hb]) g4
  cases src with
  | uchar f =>
    obtain ⟨s, h1, h2, h3, d1, h4, h5⟩ := decode_encoded_scalar 8 SAMPLEFORMAT_UINT 1
      (fun x y => toUnsigned 8 (f x y)) (sampleByte 0 1) (fun b => Value.int (0 + 1 * (b : Int)))
      u u1 w h tiff trace StandardValueAccessor d (by decide) (fun _ => rfl) (fun _ _ => rfl)
      hwrite (hsz 8 _ rfl)
    refine ⟨s, h1, h2, h3, d1, h4, ?_⟩
    intro x y
    rw [h5 x y]
    by_cases hxy : x < w ∧ y < h
    · simp only [hxy, and_self, if_true, StandardValueAccessor, ScalarSource.value]
      rw [toUnsigned_uchar _ (htyped x y hxy.1 hxy.2)]
      simp
    · simp only [hxy, if_false]
  | short f =>
    obtain ⟨s, h1, h2, h3, d1, h4, h5⟩ := decode_encoded_scalar 16 SAMPLEFORMAT_INT 2
      (fun x y => toUnsigned 16 (f x y)) (sampleInt 2) (fun b => Value.int (toSigned (8 * 2) b))
      u u1 w h tiff trace StandardValueAccessor d (by decide) (fun _ => rfl) (fun _ _ => rfl)
      hwrite (hsz 16 _ rfl)
    refine ⟨s, h1, h2, h3, d1, h4, ?_⟩
    intro x y
    rw [h5 x y]
    by_cases hxy : x < w ∧ y < h
    · simp only [hxy, and_self, if_true, StandardValueAccessor, ScalarSource.value]
      rw [toSigned_toUnsigned_short _ (htyped x y hxy.1 hxy.2)]
    · simp only [hxy, if_false]
  | int f =>
    obtain ⟨s, h1, h2, h3, d1, h4, h5⟩ := decode_encoded_scalar 32 SAMPLEFORMAT_INT 4
      (fun x y => toUnsigned 32 (f x y)) (sampleInt 4) (fun b => Value.int (toSigned (8 * 4) b))
      u u1 w h tiff trace StandardValueAccessor d (by decide) (fun _ => rfl) (fun _ _ => rfl)
      hwrite (hsz 32 _ rfl)
    refine ⟨s, h1, h2, h3, d1, h4, ?_⟩
    intro x y
    rw [h5 x y]
    by_cases hxy : x < w ∧ y < h
    · simp only [hxy, and_self, if_true, StandardValueAccessor, ScalarSource.value]
      rw [toSigned_toUnsigned_int _ (htyped x y hxy.1 hxy.2)]
    · simp only [hxy, if_false]
  | float f =>
    obtain ⟨s, h1, h2, h3, d1, h4, h5⟩ := decode_encoded_scalar 32 SAMPLEFORMAT_IEEEFP 4
      (fun x y => f x y % 2 ^ 32) sampleFloat Value.float
      u u1 w h tiff trace StandardValueAccessor d (by decide) (fun _ => rfl) (fun _ _ => rfl)
      hwrite (hsz 32 _ rfl)
    refine ⟨s, h1, h2, h3, d1, h4, ?_⟩
    intro x y
    rw [h5 x y]
    by_cases hxy : x < w ∧ y < h
    · simp only [hxy, and_self, if_true, StandardValueAccessor, ScalarSource.value]
      rw [bits_float _ (htyped x y hxy.1 hxy.2)]
    · simp only [hxy, if_false]
  | double f =>
    obtain ⟨s, h1, h2, h3, d1, h4, h5⟩ := decode_encoded_scalar 64 SAMPLEFORMAT_IEEEFP 8
      (fun x y => f x y % 2 ^ 64) sampleDouble Value.double
      u u1 w h tiff trace StandardValueAccessor d (by decide) (fun _ => rfl) (fun _ _ => rfl)
      hwrite (hsz 64 _ rfl)
    refine ⟨s, h1, h2, h3, d1, h4, ?_⟩
    intro x y
    rw [h5 x y]
    by_cases hxy : x < w ∧ y < h
    · simp only [hxy, and_self, if_true, StandardValueAccessor, ScalarSource.value]
      rw [bits_double _ (htyped x y hxy.1 hxy.2)]
    · simp only [hxy, if_false]

/-- C1 at a concrete input: a 2 by 1 `short` image with pixels -5 and 7,
encoded on a fresh handle and decoded again. -/
theorem scalar_round_trip_witness :
    ∃ s, createScalarTiffImage zeroIndeterminate 2 1
        (.short (fun x _ => if x = 0 then -5 else 7)) (some freshHandle) [] = .ok s ∧
      s.tiff.tags .IMAGEWIDTH = some 2 ∧ s.tiff.tags .IMAGELENGTH = some 1 ∧
      ∃ d1, tiffToScalarImage zeroIndeterminate (some s.tiff) StandardValueAccessor blankImage
          = .ok d1 ∧
        d1.image 0 0 = Value.int (-5) ∧ d1.image 1 0 = Value.int 7 ∧
        d1.image 2 0 = Value.int (-7) := by
  obtain ⟨s, h1, h2, h3, d1, h4, h5⟩ := scalar_round_trip zeroIndeterminate zeroIndeterminate 2 1
    (.short (fun x _ => if x = 0 then -5 else 7)) freshHandle [] blankImage
    (by
      intro x y _ _
      show -(2 ^ 15) ≤ (if x = 0 then (-5 : Int) else 7) ∧ (if x = 0 then (-5 : Int) else 7) < 2 ^ 15
      split <;> norm_num)
    (fun _ _ => rfl)
    (by
      intro tags g1 g2 g3
      simp only [freshHandle, g1, g2, g3, ScalarSource.bytes]
      decide)
  refine ⟨s, h1, h2, h3, d1, h4, ?_, ?_, ?_⟩
  · rw [h5 0 0]; rfl
  · rw [h5 1 0]; rfl
  · rw [h5 2 0]; rfl

/-- Closed form of a run of the common body of `createRGBTiffImage`. -/
theorem createRGBTiffImageOf_ok (bits format k : Nat) (red green blue : Nat → Nat → Nat)
    (u : Indeterminate) (w h : Nat) (tiff : TiffImage) (trace : List Event)
    (hsize : k * (3 * w) ≤
      TIFFScanlineSize (writtenTags tiff w h bits 3 format PHOTOMETRIC_RGB)) :
    createRGBTiffImageOf bits format k red green blue u w h (some tiff) trace = .ok
      { tiff := writtenHandle (writtenTags tiff w h bits 3 format PHOTOMETRIC_RGB)
          (fun y => encodedRow u
            (TIFFScanlineSize (writtenTags tiff w h bits 3 format PHOTOMETRIC_RGB))
            k (3 * w) (interleave (fun x => red x y) (fun x => green x y) (fun x => blue x y))) h
        trace := trace ++ encodePrelude w h bits 3 format PHOTOMETRIC_RGB
            (TIFFScanlineSize (writtenTags tiff w h bits 3 format PHOTOMETRIC_RGB)) ++
          writtenTrace (fun y => encodedRow u
            (TIFFScanlineSize (writtenTags tiff w h bits 3 format PHOTOMETRIC_RGB))
            k (3 * w) (interleave (fun x => red x y) (fun x => green x y) (fun x => blue x y)))
            h ++ [.release .buf] } := by
  obtain ⟨buf, _, hrun⟩ := encodeLoop_ok
    (fun y s => forLoop w (fun x s =>
      match writeLE k s.buf (0 + x * 3) (red x y) with
      | none => .undefined
      | some buf1 =>
        match writeLE k buf1 (1 + x * 3) (green x y) with
        | none => .undefined
        | some buf2 =>
          match writeLE k buf2 (2 + x * 3) (blue x y) with
          | none => .undefined
          | some buf3 => .ok { s with buf := buf3 }) s)
    (fun y => encodedRow u
      (TIFFScanlineSize (writtenTags tiff w h bits 3 format PHOTOMETRIC_RGB))
      k (3 * w) (interleave (fun x => red x y) (fun x => green x y) (fun x => blue x y)))
    (fun buf => buf.length =
        TIFFScanlineSize (writtenTags tiff w h bits 3 format PHOTOMETRIC_RGB) ∧
      buf.drop (k * (3 * w)) = (newBuffer u .buf
        (TIFFScanlineSize (writtenTags tiff w h bits 3 format PHOTOMETRIC_RGB))).drop
          (k * (3 * w)))
    (by
      intro y s hs
      show forLoop w _ s = _
      rw [rgbFill_ok k (fun x => red x y) (fun x => green x y) (fun x => blue x y) w s
        (by rw [hs.1]; exact hsize), hs.2]
      rfl)
    (fun y => encodedRow_inv u _ k (3 * w) _ hsize) h
    { buf := newBuffer u .buf
        (TIFFScanlineSize (writtenTags tiff w h bits 3 format PHOTOMETRIC_RGB))
      sink :=
        { tiff := writtenTags tiff w h bits 3 format PHOTOMETRIC_RGB
          trace := trace ++ encodePrelude w h bits 3 format PHOTOMETRIC_RGB
            (TIFFScanlineSize (writtenTags tiff w h bits 3 format PHOTOMETRIC_RGB)) } }
    ⟨length_newBuffer _ _ _, rfl⟩
  unfold createRGBTiffImageOf
  simp only [Sink.setField, List.append_assoc, List.singleton_append] at hrun ⊢
  simp only [encodePrelude, writtenTags, List.cons_append, List.nil_append] at hrun ⊢
  rw [hrun]
  simp [Result.map]

/-- Decoding what the common body of `createRGBTiffImage` wrote, for a pointer
type of `k` bytes whose dereference applies `f` to the raw element. -/
theorem decode_encoded_rgb {α : Type} (bits format k : Nat) (red green blue : Nat → Nat → Nat)
    (deref : List Nat → Nat → Option Value) (f : Nat → Value)
    (u u1 : Indeterminate) (w h : Nat) (tiff : TiffImage) (trace : List Event)
    (a : RGBAccessor α) (d : Dest α)
    (hvoid : format ≠ SAMPLEFORMAT_VOID)
    (hsw : rgbSwitch format bits = .ok deref)
    (hspec : DerefSpec deref k f)
    (hwrite : ∀ y, y < h → tiff.writeFails y = false)
    (hsize : k * (3 * w) ≤
      TIFFScanlineSize (writtenTags tiff w h bits 3 format PHOTOMETRIC_RGB)) :
    ∃ s, createRGBTiffImageOf bits format k red green blue u w h (some tiff) trace = .ok s ∧
      s.tiff.tags .IMAGEWIDTH = some w ∧ s.tiff.tags .IMAGELENGTH = some h ∧
      ∃ d1, tiffToRGBImage u1 (some s.tiff) a d = .ok d1 ∧
        ∀ x y, d1.image x y =
          if x < w ∧ y < h then
            a.store { red := f (red x y % 256 ^ k), green := f (green x y % 256 ^ k),
                      blue := f (blue x y % 256 ^ k) } (d.image x y)
          else d.image x y := by
  refine ⟨_, createRGBTiffImageOf_ok bits format k red green blue u w h tiff trace hsize, ?_⟩
  generalize hrd : (fun y => encodedRow u
    (TIFFScanlineSize (writtenTags tiff w h bits 3 format PHOTOMETRIC_RGB))
    k (3 * w) (interleave (fun x => red x y) (fun x => green x y) (fun x => blue x y)))
    = rowData
  generalize hT : writtenHandle (writtenTags tiff w h bits 3 format PHOTOMETRIC_RGB)
    rowData h = T
  have hf := writtenHandle_fields (writtenTags tiff w h bits 3 format PHOTOMETRIC_RGB)
    rowData h
  rw [hT] at hf
  obtain ⟨g1, g2, g3, g4, g5, g6, g7⟩ := writtenTags_get tiff w h bits 3 format PHOTOMETRIC_RGB
  rw [← hf.1] at g1 g2 g3 g4 g5 g6 g7
  have hsz : TIFFScanlineSize T
      = TIFFScanlineSize (writtenTags tiff w h bits 3 format PHOTOMETRIC_RGB) := by
    simp only [TIFFScanlineSize, hf.1, hf.2.1]
  have hrows : ∀ y, y < h → T.rows y 0 = some (fun i => (rowData y).getD i 0) := by
    intro y hy
    rw [← hT]
    exact writtenHandle_rows _ rowData h y hy hwrite
  have hsize3 : 3 * w * k ≤ TIFFScanlineSize T := by
    rw [hsz, Nat.mul_comm]; exact hsize
  refine ⟨g1, g2, ?_⟩
  obtain ⟨d1, hrun, hpix, hout⟩ := rgb_contig_pixels u1 T a d deref k f w h
    (TIFFGetField_of_tag T _ _ _ g7)
    (by rw [TIFFGetField_of_tag T _ _ _ g6]; exact hvoid)
    (TIFFGetField_of_tag T _ _ _ g4)
    (by rw [TIFFGetField_of_tag T _ _ _ g6, TIFFGetField_of_tag T _ _ _ g3]; exact hsw)
    hspec (TIFFGetField_of_tag T _ _ _ g5) (TIFFGetField_of_tag T _ _ _ g1)
    (TIFFGetField_of_tag T _ _ _ g2) hsize3
  refine ⟨d1, hrun, ?_⟩
  intro x y
  by_cases hxy : x < w ∧ y < h
  · rw [hpix x y _ hxy.1 hxy.2 (hrows y hxy.2), if_pos hxy]
    have hlen : (rowData y).length = TIFFScanlineSize T := by
      rw [hsz, ← hrd]; exact (encodedRow_inv u _ k (3 * w) _ hsize).1
    have hel : ∀ i, i < 3 * w →
        elemOf k (fun i => (rowData y).getD i 0) i
          = interleave (fun x => red x y) (fun x => green x y) (fun x => blue x y) i
              % 256 ^ k := by
      intro i hi
      have hin : k * i + k ≤ (rowData y).length := by
        rw [hlen]
        have h1 : k * (i + 1) ≤ k * (3 * w) := Nat.mul_le_mul_left _ hi
        rw [Nat.mul_add, Nat.mul_one] at h1
        rw [hsz]
        omega
      have h1 := readLE_map_range k (rowData y).length i (fun i => (rowData y).getD i 0) hin
      rw [map_range_getD] at h1
      have h2 : readLE k (rowData y) i = some (interleave (fun x => red x y)
          (fun x => green x y) (fun x => blue x y) i % 256 ^ k) := by
        rw [← hrd]; exact readLE_encodeRow k _ (3 * w) i _ hi
      rw [h2] at h1
      exact (Option.some.inj h1).symm
    have e0 : (0 + x * 3) % 3 = 0 := by omega
    have e1 : (1 + x * 3) % 3 = 1 := by omega
    have e2 : (2 + x * 3) % 3 = 2 := by omega
    have q0 : (0 + x * 3) / 3 = x := by omega
    have q1 : (1 + x * 3) / 3 = x := by omega
    have q2 : (2 + x * 3) / 3 = x := by omega
    rw [hel _ (by omega), hel _ (by omega), hel _ (by omega)]
    simp only [interleave, e0, e1, e2, q0, q1, q2, if_true, one_ne_zero, if_false,
      OfNat.ofNat_ne_zero, OfNat.ofNat_ne_one]
  · rw [hout x y hxy, if_neg hxy]

/-- C2: RGB round trip. For a `w` by `h` RGB source image with component type
unsigned char, short or int (and likewise float or double), a handle whose
scanline writes succeed and whose reported scanline size holds `3 * w`
samples of that type, `createRGBTiffImage` returns normally and
`tiffToRGBImage` on the written handle returns normally with the red, green
and blue component of every pixel of the range equal to the source's;
negative short and int components, stored through unsigned pointers in a
file tagged SignedInt, come back with their sign and value. -/
theorem rgb_round_trip (u u1 : Indeterminate) (w h : Nat) (src : RGBSource)
    (tiff : TiffImage) (trace : List Event) (d : Dest RGBPixel)
    (htyped : src.WellTyped w h)
    (hwrite : ∀ y, y < h → tiff.writeFails y = false)
    (hsize : ∀ tags : Tags, tags .IMAGEWIDTH = some w →
      tags .BITSPERSAMPLE = some (8 * src.bytes) → tags .SAMPLESPERPIXEL = some 3 →
      3 * w * src.bytes ≤ tiff.scanlineSize tags) :
    ∃ s, createRGBTiffImage u w h src (some tiff) trace = .ok s ∧
      s.tiff.tags .IMAGEWIDTH = some w ∧ s.tiff.tags .IMAGELENGTH = some h ∧
      ∃ d1, tiffToRGBImage u1 (some s.tiff) StandardRGBAccessor d = .ok d1 ∧
        ∀ x y, d1.image x y = if x < w ∧ y < h then src.value x y else d.image x y := by
  have hsz : ∀ bits format, bits = 8 * src.bytes → src.bytes * (3 * w) ≤
      TIFFScanlineSize (writtenTags tiff w h bits 3 format PHOTOMETRIC_RGB) := by
    intro bits format hb
    obtain ⟨g1, -, g3, g4, -⟩ := writtenTags_get tiff w h bits 3 format PHOTOMETRIC_RGB
    rw [Nat.mul_comm]
    exact hsize _ g1 (by rw [g3, hb]) g4
  cases src with
  | uchar f =>
    obtain ⟨s, h1, h2, h3, d1, h4, h5⟩ := decode_encoded_rgb 8 SAMPLEFORMAT_UINT 1
      (fun x y => toUnsigned 8 (f x y).red) (fun x y => toUnsigned 8 (f x y).green)
      (fun x y => toUnsigned 8 (f x y).blue) (sampleUInt 1) (fun raw => Value.int (raw : Int))
      u u1 w h tiff trace StandardRGBAccessor d (by decide) rfl (derefSpec_uint 1)
      hwrite (hsz 8 _ rfl)
    refine ⟨s, h1, h2, h3, d1, h4, ?_⟩
    intro x y
    rw [h5 x y]
    by_cases hxy : x < w ∧ y < h
    · obtain ⟨t1, t2, t3⟩ := htyped x y hxy.1 hxy.2
      simp only [hxy, and_self, if_true, StandardRGBAccessor, RGBAccessor.store,
        RGBSource.value, toUnsigned_uchar _ t1, toUnsigned_uchar _ t2, toUnsigned_uchar _ t3]
    · simp only [hxy, if_false]
  | short f =>
    obtain ⟨s, h1, h2, h3, d1, h4, h5⟩ := decode_encoded_rgb 16 SAMPLEFORMAT_INT 2
      (fun x y => toUnsigned 16 (f x y).red) (fun x y => toUnsigned 16 (f x y).green)
      (fun x y => toUnsigned 16 (f x y).blue) (sampleInt 2)
      (fun raw => Value.int (toSigned (8 * 2) raw))
      u u1 w h tiff trace StandardRGBAccessor d (by decide) rfl (derefSpec_int 2)
      hwrite (hsz 16 _ rfl)
    refine ⟨s, h1, h2, h3, d1, h4, ?_⟩
    intro x y
    rw [h5 x y]
    by_cases hxy : x < w ∧ y < h
    · obtain ⟨t1, t2, t3⟩ := htyped x y hxy.1 hxy.2
      simp only [hxy, and_self, if_true, StandardRGBAccessor, RGBAccessor.store,
        RGBSource.value, toSigned_toUnsigned_short _ t1, toSigned_toUnsigned_short _ t2,
        toSigned_toUnsigned_short _ t3]
    · simp only [hxy, if_false]
  | int f =>
    obtain ⟨s, h1, h2, h3, d1, h4, h5⟩ := decode_encoded_rgb 32 SAMPLEFORMAT_INT 4
      (fun x y => toUnsigned 32 (f x y).red) (fun x y => toUnsigned 32 (f x y).green)
      (fun x y => toUnsigned 32 (f x y).blue) (sampleInt 4)
      (fun raw => Value.int (toSigned (8 * 4) raw))
      u u1 w h tiff trace StandardRGBAccessor d (by decide) rfl (derefSpec_int 4)
      hwrite (hsz 32 _ rfl)
    refine ⟨s, h1, h2, h3, d1, h4, ?_⟩
    intro x y
    rw [h5 x y]
    by_cases hxy : x < w ∧ y < h
    · obtain ⟨t1, t2, t3⟩ := htyped x y hxy.1 hxy.2
      simp only [hxy, and_self, if_true, StandardRGBAccessor, RGBAccessor.store,
        RGBSource.value, toSigned_toUnsigned_int _ t1, toSigned_toUnsigned_int _ t2,
        toSigned_toUnsigned_int _ t3]
    · simp only [hxy, if_false]
  | float f =>
    obtain ⟨s, h1, h2, h3, d1, h4, h5⟩ := decode_encoded_rgb 32 SAMPLEFORMAT_IEEEFP 4
      (fun x y => (f x y).red % 2 ^ 32) (fun x y => (f x y).green % 2 ^ 32)
      (fun x y => (f x y).blue % 2 ^ 32) sampleFloat Value.float
      u u1 w h tiff trace StandardRGBAccessor d (by decide) rfl derefSpec_float
      hwrite (hsz 32 _ rfl)
    refine ⟨s, h1, h2, h3, d1, h4, ?_⟩
    intro x y
    rw [h5 x y]
    by_cases hxy : x < w ∧ y < h
    · obtain ⟨t1, t2, t3⟩ := htyped x y hxy.1 hxy.2
      simp only [hxy, and_self, if_true, StandardRGBAccessor, RGBAccessor.store,
        RGBSource.value, bits_float _ t1, bits_float _ t2, bits_float _ t3]
    · simp only [hxy, if_false]
  | double f =>
    obtain ⟨s, h1, h2, h3, d1, h4, h5⟩ := decode_encoded_rgb 64 SAMPLEFORMAT_IEEEFP 8
      (fun x y => (f x y).red % 2 ^ 64) (fun x y => (f x y).green % 2 ^ 64)
      (fun x y => (f x y).blue % 2 ^ 64) sampleDouble Value.double
      u u1 w h tiff trace StandardRGBAccessor d (by decide) rfl derefSpec_double
      hwrite (hsz 64 _ rfl)
    refine ⟨s, h1, h2, h3, d1, h4, ?_⟩
    intro x y
    rw [h5 x y]
    by_cases hxy : x < w ∧ y < h
    · obtain ⟨t1, t2, t3⟩ := htyped x y hxy.1 hxy.2
      simp only [hxy, and_self, if_true, StandardRGBAccessor, RGBAccessor.store,
        RGBSource.value, bits_double _ t1, bits_double _ t2, bits_double _ t3]
    · simp only [hxy, if_false]

/-- C2 at a concrete input: a 1 by 1 `RGBValue<short>` image with pixel
(-1, 2, -32768), encoded on a fresh handle and decoded again. -/
theorem rgb_round_trip_witness :
    ∃ s, createRGBTiffImage zeroIndeterminate 1 1
        (.short (fun _ _ => { red := -1, green := 2, blue := -32768 })) (some freshHandle) []
        = .ok s ∧
      s.tiff.tags .IMAGEWIDTH = some 1 ∧ s.tiff.tags .IMAGELENGTH = some 1 ∧
      ∃ d1, tiffToRGBImage zeroIndeterminate (some s.tiff) StandardRGBAccessor blankRGBImage
          = .ok d1 ∧
        d1.image 0 0 = { red := .int (-1), green := .int 2, blue := .int (-32768) } := by
  obtain ⟨s, h1, h2, h3, d1, h4, h5⟩ := rgb_round_trip zeroIndeterminate zeroIndeterminate 1 1
    (.short (fun _ _ => { red := -1, green := 2, blue := -32768 })) freshHandle []
    blankRGBImage
    (by
      intro x y _ _
      show RGBValue.Within _ _ _
      simp only [RGBValue.Within]
      norm_num)
    (fun _ _ => rfl)
    (by
      intro tags g1 g2 g3
      simp only [freshHandle, g1, g2, g3, RGBSource.bytes]
      decide)
  refine ⟨s, h1, h2, h3, d1, h4, ?_⟩
  rw [h5 0 0]
  rfl

/-! ## Validation failures -/

theorem tagReads_are_getField :
    (∀ e, e ∈ scalarTagReads → ∃ t, e = Event.getField t) ∧
    (∀ e, e ∈ rgbTagReads → ∃ t, e = Event.getField t) := by
  constructor <;> intro e he
  · simp only [scalarTagReads, List.mem_cons, List.mem_singleton, List.not_mem_nil,
      or_false] at he
    rcases he with h | h | h | h | h | h | h <;> exact ⟨_, h⟩
  · simp only [rgbTagReads, List.mem_cons, List.mem_singleton, List.not_mem_nil,
      or_false] at he
    rcases he with h | h | h | h | h | h | h <;> exact ⟨_, h⟩

/-- A Photometric value other than RGB and Palette fails the first tag
precondition of `tiffToRGBImage`: the call throws "Image isn't RGB." in the
state reached after the seven tag reads. -/
theorem tiffToRGBImage_not_rgb {α : Type} (u : Indeterminate) (tiff : TiffImage)
    (a : RGBAccessor α) (d : Dest α)
    (hr : TIFFGetField tiff .PHOTOMETRIC u.photometric ≠ PHOTOMETRIC_RGB)
    (hp : TIFFGetField tiff .PHOTOMETRIC u.photometric ≠ PHOTOMETRIC_PALETTE) :
    tiffToRGBImage u (some tiff) a d = .thrown .notRGB (d.log rgbTagReads) := by
  unfold tiffToRGBImage
  simp only []
  rw [if_pos (fun hn => hn.elim hr hp)]
  rfl

/-- C11: decode-vector rejects a wrong photometric. For a non-null handle
whose Photometric tag is neither RGB nor Palette, `tiffToRGBImage` throws
"Image isn't RGB."; the destination image is unchanged and the only calls
made are the seven tag reads, so no scanline was read, the expansion
primitive was not called and no accessor was called. -/
theorem rgb_rejects_wrong_photometric {α : Type} (u : Indeterminate) (tiff : TiffImage)
    (a : RGBAccessor α) (d : Dest α) (p : Nat)
    (hphot : tiff.tags .PHOTOMETRIC = some p)
    (hr : p ≠ PHOTOMETRIC_RGB) (hp : p ≠ PHOTOMETRIC_PALETTE) :
    ∃ d1, tiffToRGBImage u (some tiff) a d = .thrown .notRGB d1 ∧
      d1.image = d.image ∧ d1.trace = d.trace ++ rgbTagReads ∧
      ∀ e, e ∈ rgbTagReads → ∃ t, e = Event.getField t := by
  have e3 := TIFFGetField_of_tag tiff _ _ u.photometric hphot
  refine ⟨d.log rgbTagReads, ?_, rfl, rfl, tagReads_are_getField.2⟩
  unfold tiffToRGBImage
  simp only [e3]
  rw [if_pos (by rintro (h | h) <;> contradiction)]
  rfl

/-- C11 at a concrete input: a file with Photometric=MinIsBlack. -/
theorem rgb_rejects_wrong_photometric_witness :
    ∃ d1, tiffToRGBImage zeroIndeterminate
        (some (exampleHandle (exampleTags 1 1 8 1 SAMPLEFORMAT_UINT PHOTOMETRIC_MINISBLACK
          PLANARCONFIG_CONTIG FILLORDER_MSB2LSB) 1 (fun _ => 60)))
        StandardRGBAccessor blankRGBImage = .thrown .notRGB d1 ∧
      d1.image = blankRGBImage.image ∧ d1.trace = blankRGBImage.trace ++ rgbTagReads ∧
      ∀ e, e ∈ rgbTagReads → ∃ t, e = Event.getField t :=
  rgb_rejects_wrong_photometric zeroIndeterminate
    (exampleHandle (exampleTags 1 1 8 1 SAMPLEFORMAT_UINT PHOTOMETRIC_MINISBLACK
      PLANARCONFIG_CONTIG FILLORDER_MSB2LSB) 1 (fun _ => 60))
    StandardRGBAccessor blankRGBImage PHOTOMETRIC_MINISBLACK rfl (by decide) (by decide)

/-- C14: null handle on decode. Called with a null handle, `tiffToScalarImage`
and `tiffToRGBImage` throw "NULL pointer to input data." in the state they
were called in: the destination image and the trace are unchanged, so no
tag was read, no scanline was read and no accessor was called. -/
theorem decode_null_handle {α β : Type} (u : Indeterminate) (a : Accessor α) (d : Dest α)
    (b : RGBAccessor β) (e : Dest β) :
    tiffToScalarImage u none a d = .thrown .nullPointer d ∧
      tiffToRGBImage u none b e = .thrown .nullPointer e :=
  ⟨rfl, rfl⟩

/-- C15 (what the code does): called with a null handle, neither
`createScalarTiffImage` nor `createRGBTiffImage` throws "NULL pointer ...":
they have no `precondition(tiff, ...)` and pass the null handle straight to
`TIFFSetField`, which is undefined behaviour. -/
theorem encode_null_handle (u : Indeterminate) (w h : Nat) (src : ScalarSource)
    (rgb : RGBSource) (trace : List Event) :
    createScalarTiffImage u w h src none trace = .undefined ∧
      createRGBTiffImage u w h rgb none trace = .undefined := by
  constructor
  · cases src <;> rfl
  · cases rgb <;> rfl

/-- C12 (counterexample): a 1 by 1 file with Photometric=RGB and
SamplesPerPixel=2 is not rejected with the failure of a wrong Photometric
tag ("Image isn't RGB.") but with "number of samples per pixel must be 3.",
while the same file with Photometric=MinIsBlack is rejected with "Image
isn't RGB.". -/
theorem rgb_two_samples_not_photometric_failure :
    (¬ ∃ d1, tiffToRGBImage zeroIndeterminate
        (some (exampleHandle (exampleTags 1 1 8 2 SAMPLEFORMAT_UINT PHOTOMETRIC_RGB
          PLANARCONFIG_CONTIG FILLORDER_MSB2LSB) 2 (fun _ => 0)))
        StandardRGBAccessor blankRGBImage = .thrown .notRGB d1) ∧
    (∃ d1, tiffToRGBImage zeroIndeterminate
        (some (exampleHandle (exampleTags 1 1 8 2 SAMPLEFORMAT_UINT PHOTOMETRIC_RGB
          PLANARCONFIG_CONTIG FILLORDER_MSB2LSB) 2 (fun _ => 0)))
        StandardRGBAccessor blankRGBImage = .thrown .samplesNot3 d1) ∧
    (∃ d1, tiffToRGBImage zeroIndeterminate
        (some (exampleHandle (exampleTags 1 1 8 2 SAMPLEFORMAT_UINT PHOTOMETRIC_MINISBLACK
          PLANARCONFIG_CONTIG FILLORDER_MSB2LSB) 2 (fun _ => 0)))
        StandardRGBAccessor blankRGBImage = .thrown .notRGB d1) := by
  have h1 : tiffToRGBImage zeroIndeterminate
      (some (exampleHandle (exampleTags 1 1 8 2 SAMPLEFORMAT_UINT PHOTOMETRIC_RGB
        PLANARCONFIG_CONTIG FILLORDER_MSB2LSB) 2 (fun _ => 0)))
      StandardRGBAccessor blankRGBImage = .thrown .samplesNot3 _ := rfl
  refine ⟨?_, ⟨_, h1⟩, ⟨_, rfl⟩⟩
  rintro ⟨d1, h2⟩
  rw [h1] at h2
  cases h2

/-- C12 (amended): decode-vector on a handle with Photometric=RGB, a
SampleFormat other than Undefined and SamplesPerPixel different from 3
throws the failure of its own precondition, "number of samples per pixel
must be 3.": a precondition failure like that of a wrong Photometric tag,
but not the same failure. The destination image is unchanged and the only
calls made are the seven tag reads, so no scanline was read. -/
theorem rgb_rejects_wrong_sample_count {α : Type} (u : Indeterminate) (tiff : TiffImage)
    (a : RGBAccessor α) (d : Dest α) (spp : Nat)
    (hphot : tiff.tags .PHOTOMETRIC = some PHOTOMETRIC_RGB)
    (hfmt : TIFFGetField tiff .SAMPLEFORMAT 1 ≠ SAMPLEFORMAT_VOID)
    (hspp : tiff.tags .SAMPLESPERPIXEL = some spp)
    (hne : spp ≠ 3) :
    ∃ d1, tiffToRGBImage u (some tiff) a d = .thrown .samplesNot3 d1 ∧
      Failure.samplesNot3 ≠ Failure.notRGB ∧
      Failure.isPrecondition .samplesNot3 = Failure.isPrecondition .notRGB ∧
      d1.image = d.image ∧ d1.trace = d.trace ++ rgbTagReads ∧
      ∀ e, e ∈ rgbTagReads → ∃ t, e = Event.getField t := by
  have e3 := TIFFGetField_of_tag tiff _ _ u.photometric hphot
  have e2 := TIFFGetField_of_tag tiff _ _ u.samplesPerPixel hspp
  refine ⟨d.log rgbTagReads, ?_, by decide, rfl, rfl, rfl, tagReads_are_getField.2⟩
  unfold tiffToRGBImage
  simp only [e3, e2]
  rw [if_neg (by decide), if_neg (fun hn => hn hfmt), if_neg (by decide), if_pos trivial,
    if_pos hne]
  rfl

/-- C12 (amended) at a concrete input: Photometric=RGB with SamplesPerPixel=2. -/
theorem rgb_rejects_wrong_sample_count_witness :
    ∃ d1, tiffToRGBImage zeroIndeterminate
        (some (exampleHandle (exampleTags 1 1 8 2 SAMPLEFORMAT_UINT PHOTOMETRIC_RGB
          PLANARCONFIG_CONTIG FILLORDER_MSB2LSB) 2 (fun _ => 0)))
        StandardRGBAccessor blankRGBImage = .thrown .samplesNot3 d1 ∧
      Failure.samplesNot3 ≠ Failure.notRGB ∧
      Failure.isPrecondition .samplesNot3 = Failure.isPrecondition .notRGB ∧
      d1.image = blankRGBImage.image ∧ d1.trace = blankRGBImage.trace ++ rgbTagReads ∧
      ∀ e, e ∈ rgbTagReads → ∃ t, e = Event.getField t :=
  rgb_rejects_wrong_sample_count zeroIndeterminate
    (exampleHandle (exampleTags 1 1 8 2 SAMPLEFORMAT_UINT PHOTOMETRIC_RGB
      PLANARCONFIG_CONTIG FILLORDER_MSB2LSB) 2 (fun _ => 0))
    StandardRGBAccessor blankRGBImage 2 rfl (by decide) rfl (by decide)

/-- C13 (counterexample): with SampleFormat=Undefined the failure is not
always "undefined pixeltype (SAMPLEFORMAT_VOID).". On a file tagged
Photometric=RGB `tiffToScalarImage` throws "Image isn't grayscale.", and on a
file tagged Photometric=MinIsBlack `tiffToRGBImage` throws "Image isn't
RGB.": the photometric precondition is checked first. -/
theorem void_not_always_undefined_failure :
    (∃ d1, tiffToScalarImage zeroIndeterminate
        (some (exampleHandle (exampleTags 1 1 8 1 SAMPLEFORMAT_VOID PHOTOMETRIC_RGB
          PLANARCONFIG_CONTIG FILLORDER_MSB2LSB) 1 (fun _ => 0)))
        StandardValueAccessor blankImage = .thrown .notGrayscale d1) ∧
    (¬ ∃ d1, tiffToScalarImage zeroIndeterminate
        (some (exampleHandle (exampleTags 1 1 8 1 SAMPLEFORMAT_VOID PHOTOMETRIC_RGB
          PLANARCONFIG_CONTIG FILLORDER_MSB2LSB) 1 (fun _ => 0)))
        StandardValueAccessor blankImage = .thrown .undefinedPixeltype d1) ∧
    (∃ d1, tiffToRGBImage zeroIndeterminate
        (some (exampleHandle (exampleTags 1 1 8 1 SAMPLEFORMAT_VOID PHOTOMETRIC_MINISBLACK
          PLANARCONFIG_CONTIG FILLORDER_MSB2LSB) 1 (fun _ => 0)))
        StandardRGBAccessor blankRGBImage = .thrown .notRGB d1) := by
  have h1 : tiffToScalarImage zeroIndeterminate
      (some (exampleHandle (exampleTags 1 1 8 1 SAMPLEFORMAT_VOID PHOTOMETRIC_RGB
        PLANARCONFIG_CONTIG FILLORDER_MSB2LSB) 1 (fun _ => 0)))
      StandardValueAccessor blankImage = .thrown .notGrayscale _ := rfl
  refine ⟨⟨_, h1⟩, ?_, ⟨_, rfl⟩⟩
  rintro ⟨d1, h2⟩
  rw [h1] at h2
  cases h2

/-- C13 (amended): for a non-null handle whose SampleFormat tag is Undefined
and for every value of the other tags, `tiffToScalarImage` and
`tiffToRGBImage` throw in the state reached after the seven tag reads, so
before any buffer is allocated and before any scanline is read. The failure
is a precondition failure, and it is "undefined pixeltype (SAMPLEFORMAT_VOID)." when the preconditions checked
earlier hold: Photometric MinIsWhite or MinIsBlack and SamplesPerPixel=1 for
the scalar call, Photometric RGB or Palette for the vector call. Otherwise it
is the failure of the first precondition violated: "Image isn't grayscale."
and then "Image is multiband, not scalar." for the scalar call, "Image isn't
RGB." for the vector call. -/
theorem void_rejected_before_allocation {α β : Type} (u : Indeterminate) (tiff : TiffImage)
    (a : Accessor α) (d : Dest α) (b : RGBAccessor β) (e : Dest β)
    (hfmt : tiff.tags .SAMPLEFORMAT = some SAMPLEFORMAT_VOID) :
    (∃ f, tiffToScalarImage u (some tiff) a d = .thrown f (d.log scalarTagReads) ∧
      f.isPrecondition = true ∧
      ((TIFFGetField tiff .PHOTOMETRIC u.photometric = PHOTOMETRIC_MINISWHITE ∨
          TIFFGetField tiff .PHOTOMETRIC u.photometric = PHOTOMETRIC_MINISBLACK) →
        TIFFGetField tiff .SAMPLESPERPIXEL u.samplesPerPixel = 1 →
        f = .undefinedPixeltype)) ∧
    (∃ f, tiffToRGBImage u (some tiff) b e = .thrown f (e.log rgbTagReads) ∧
      f.isPrecondition = true ∧
      ((TIFFGetField tiff .PHOTOMETRIC u.photometric = PHOTOMETRIC_RGB ∨
          TIFFGetField tiff .PHOTOMETRIC u.photometric = PHOTOMETRIC_PALETTE) →
        f = .undefinedPixeltype)) ∧
    (∀ ev, ev ∈ scalarTagReads ++ rgbTagReads → ∃ t, ev = Event.getField t) ∧
    (¬ (TIFFGetField tiff .PHOTOMETRIC u.photometric = PHOTOMETRIC_MINISWHITE ∨
          TIFFGetField tiff .PHOTOMETRIC u.photometric = PHOTOMETRIC_MINISBLACK) →
      tiffToScalarImage u (some tiff) a d = .thrown .notGrayscale (d.log scalarTagReads)) ∧
    ((TIFFGetField tiff .PHOTOMETRIC u.photometric = PHOTOMETRIC_MINISWHITE ∨
          TIFFGetField tiff .PHOTOMETRIC u.photometric = PHOTOMETRIC_MINISBLACK) →
      TIFFGetField tiff .SAMPLESPERPIXEL u.samplesPerPixel ≠ 1 →
      tiffToScalarImage u (some tiff) a d = .thrown .multiband (d.log scalarTagReads)) ∧
    (¬ (TIFFGetField tiff .PHOTOMETRIC u.photometric = PHOTOMETRIC_RGB ∨
          TIFFGetField tiff .PHOTOMETRIC u.photometric = PHOTOMETRIC_PALETTE) →
      tiffToRGBImage u (some tiff) b e = .thrown .notRGB (e.log rgbTagReads)) := by
  have e6 := TIFFGetField_of_tag tiff _ _ 1 hfmt
  refine ⟨?_, ?_, ?_, ?_, ?_, ?_⟩
  · unfold tiffToScalarImage
    simp only [e6]
    by_cases h1 : TIFFGetField tiff .PHOTOMETRIC u.photometric = PHOTOMETRIC_MINISWHITE ∨
        TIFFGetField tiff .PHOTOMETRIC u.photometric = PHOTOMETRIC_MINISBLACK
    · by_cases h2 : TIFFGetField tiff .SAMPLESPERPIXEL u.samplesPerPixel = 1
      · refine ⟨.undefinedPixeltype, ?_, rfl, fun _ _ => rfl⟩
        rw [if_neg (fun hn => hn h1), if_neg (fun hn => hn h2), if_pos (by decide)]
        rfl
      · refine ⟨.multiband, ?_, rfl, fun _ h => absurd h h2⟩
        rw [if_neg (fun hn => hn h1), if_pos h2]
        rfl
    · refine ⟨.notGrayscale, ?_, rfl, fun h => absurd h h1⟩
      rw [if_pos h1]
      rfl
  · unfold tiffToRGBImage
    simp only [e6]
    by_cases h1 : TIFFGetField tiff .PHOTOMETRIC u.photometric = PHOTOMETRIC_RGB ∨
        TIFFGetField tiff .PHOTOMETRIC u.photometric = PHOTOMETRIC_PALETTE
    · refine ⟨.undefinedPixeltype, ?_, rfl, fun _ => rfl⟩
      rw [if_neg (fun hn => hn h1), if_pos (by decide)]
      rfl
    · refine ⟨.notRGB, ?_, rfl, fun h => absurd h h1⟩
      rw [if_pos h1]
      rfl
  · intro ev hev
    rcases List.mem_append.1 hev with h | h
    · exact tagReads_are_getField.1 ev h
    · exact tagReads_are_getField.2 ev h
  · intro h1
    unfold tiffToScalarImage
    simp only []
    rw [if_pos h1]
    rfl
  · intro h1 h2
    unfold tiffToScalarImage
    simp only []
    rw [if_neg (fun hn => hn h1), if_pos h2]
    rfl
  · intro h1
    exact tiffToRGBImage_not_rgb u tiff b e (fun h => h1 (Or.inl h)) (fun h => h1 (Or.inr h))

/-- C13 (amended) at a concrete input: a 1 by 1 file tagged
SampleFormat=Undefined, Photometric=MinIsBlack, SamplesPerPixel=1, on which
the scalar call throws "undefined pixeltype (SAMPLEFORMAT_VOID)." and the
vector call "Image isn't RGB.". -/
theorem void_rejected_before_allocation_witness :
    (∃ f, tiffToScalarImage zeroIndeterminate
        (some (exampleHandle (exampleTags 1 1 8 1 SAMPLEFORMAT_VOID PHOTOMETRIC_MINISBLACK
          PLANARCONFIG_CONTIG FILLORDER_MSB2LSB) 1 (fun _ => 0)))
        StandardValueAccessor blankImage = .thrown f (blankImage.log scalarTagReads) ∧
      f.isPrecondition = true ∧
      ((TIFFGetField (exampleHandle (exampleTags 1 1 8 1 SAMPLEFORMAT_VOID
            PHOTOMETRIC_MINISBLACK PLANARCONFIG_CONTIG FILLORDER_MSB2LSB) 1 (fun _ => 0))
            .PHOTOMETRIC zeroIndeterminate.photometric = PHOTOMETRIC_MINISWHITE ∨
          TIFFGetField (exampleHandle (exampleTags 1 1 8 1 SAMPLEFORMAT_VOID
            PHOTOMETRIC_MINISBLACK PLANARCONFIG_CONTIG FILLORDER_MSB2LSB) 1 (fun _ => 0))
            .PHOTOMETRIC zeroIndeterminate.photometric = PHOTOMETRIC_MINISBLACK) →
        TIFFGetField (exampleHandle (exampleTags 1 1 8 1 SAMPLEFORMAT_VOID
            PHOTOMETRIC_MINISBLACK PLANARCONFIG_CONTIG FILLORDER_MSB2LSB) 1 (fun _ => 0))
            .SAMPLESPERPIXEL zeroIndeterminate.samplesPerPixel = 1 →
        f = .undefinedPixeltype)) ∧
    (∃ f, tiffToRGBImage zeroIndeterminate
        (some (exampleHandle (exampleTags 1 1 8 1 SAMPLEFORMAT_VOID PHOTOMETRIC_MINISBLACK
          PLANARCONFIG_CONTIG FILLORDER_MSB2LSB) 1 (fun _ => 0)))
        StandardRGBAccessor blankRGBImage = .thrown f (blankRGBImage.log rgbTagReads) ∧
      f.isPrecondition = true ∧
      ((TIFFGetField (exampleHandle (exampleTags 1 1 8 1 SAMPLEFORMAT_VOID
            PHOTOMETRIC_MINISBLACK PLANARCONFIG_CONTIG FILLORDER_MSB2LSB) 1 (fun _ => 0))
            .PHOTOMETRIC zeroIndeterminate.photometric = PHOTOMETRIC_RGB ∨
          TIFFGetField (exampleHandle (exampleTags 1 1 8 1 SAMPLEFORMAT_VOID
            PHOTOMETRIC_MINISBLACK PLANARCONFIG_CONTIG FILLORDER_MSB2LSB) 1 (fun _ => 0))
            .PHOTOMETRIC zeroIndeterminate.photometric = PHOTOMETRIC_PALETTE) →
        f = .undefinedPixeltype)) ∧
    (∀ ev, ev ∈ scalarTagReads ++ rgbTagReads → ∃ t, ev = Event.getField t) ∧
    tiffToRGBImage zeroIndeterminate
        (some (exampleHandle (exampleTags 1 1 8 1 SAMPLEFORMAT_VOID PHOTOMETRIC_MINISBLACK
          PLANARCONFIG_CONTIG FILLORDER_MSB2LSB) 1 (fun _ => 0)))
        StandardRGBAccessor blankRGBImage
      = .thrown .notRGB (blankRGBImage.log rgbTagReads) :=
  have t := void_rejected_before_allocation zeroIndeterminate
    (exampleHandle (exampleTags 1 1 8 1 SAMPLEFORMAT_VOID PHOTOMETRIC_MINISBLACK
      PLANARCONFIG_CONTIG FILLORDER_MSB2LSB) 1 (fun _ => 0))
    StandardValueAccessor blankImage StandardRGBAccessor blankRGBImage rfl
  ⟨t.1, t.2.1, t.2.2.1, t.2.2.2.2.2 (by decide)⟩

/-- C16: the three preconditions of `tiffToScalarImage` on the tags fail with
three pairwise different failures. A handle with a grayscale Photometric and
SamplesPerPixel other than 1 fails with "Image is multiband, not scalar.", a
handle with another Photometric with "Image isn't grayscale.", and a
grayscale single-band handle with SampleFormat=Undefined with "undefined
pixeltype (SAMPLEFORMAT_VOID).". In all three cases the destination image
is unchanged and the only calls made are the seven tag reads, so no scanline
is read. -/
theorem scalar_preconditions_distinct {α : Type} (u : Indeterminate) (tiff : TiffImage)
    (a : Accessor α) (d : Dest α) :
    (¬ (TIFFGetField tiff .PHOTOMETRIC u.photometric = PHOTOMETRIC_MINISWHITE ∨
          TIFFGetField tiff .PHOTOMETRIC u.photometric = PHOTOMETRIC_MINISBLACK) →
      tiffToScalarImage u (some tiff) a d = .thrown .notGrayscale (d.log scalarTagReads)) ∧
    ((TIFFGetField tiff .PHOTOMETRIC u.photometric = PHOTOMETRIC_MINISWHITE ∨
          TIFFGetField tiff .PHOTOMETRIC u.photometric = PHOTOMETRIC_MINISBLACK) →
      TIFFGetField tiff .SAMPLESPERPIXEL u.samplesPerPixel ≠ 1 →
      tiffToScalarImage u (some tiff) a d = .thrown .multiband (d.log scalarTagReads)) ∧
    ((TIFFGetField tiff .PHOTOMETRIC u.photometric = PHOTOMETRIC_MINISWHITE ∨
          TIFFGetField tiff .PHOTOMETRIC u.photometric = PHOTOMETRIC_MINISBLACK) →
      TIFFGetField tiff .SAMPLESPERPIXEL u.samplesPerPixel = 1 →
      TIFFGetField tiff .SAMPLEFORMAT 1 = SAMPLEFORMAT_VOID →
      tiffToScalarImage u (some tiff) a d =
        .thrown .undefinedPixeltype (d.log scalarTagReads)) ∧
    (Failure.multiband ≠ Failure.notGrayscale ∧
      Failure.multiband ≠ Failure.undefinedPixeltype ∧
      Failure.notGrayscale ≠ Failure.undefinedPixeltype) ∧
    ((d.log scalarTagReads).image = d.image ∧
      ∀ e, e ∈ scalarTagReads → ∃ t, e = Event.getField t) := by
  refine ⟨?_, ?_, ?_, by decide, rfl, tagReads_are_getField.1⟩
  · intro h1
    unfold tiffToScalarImage
    simp only []
    rw [if_pos h1]
    rfl
  · intro h1 h2
    unfold tiffToScalarImage
    simp only []
    rw [if_neg (fun hn => hn h1), if_pos h2]
    rfl
  · intro h1 h2 h3
    unfold tiffToScalarImage
    simp only []
    rw [if_neg (fun hn => hn h1), if_neg (fun hn => hn h2), if_pos (fun hn => hn h3)]
    rfl

/-- C16 at concrete inputs: three 1 by 1 files, tagged (RGB, 1 sample,
unsigned), (MinIsBlack, 3 samples, unsigned) and (MinIsBlack, 1 sample,
Undefined). -/
theorem scalar_preconditions_distinct_witness :
    tiffToScalarImage zeroIndeterminate
        (some (exampleHandle (exampleTags 1 1 8 1 SAMPLEFORMAT_UINT PHOTOMETRIC_RGB
          PLANARCONFIG_CONTIG FILLORDER_MSB2LSB) 1 (fun _ => 0)))
        StandardValueAccessor blankImage =
      .thrown .notGrayscale (blankImage.log scalarTagReads) ∧
    tiffToScalarImage zeroIndeterminate
        (some (exampleHandle (exampleTags 1 1 8 3 SAMPLEFORMAT_UINT PHOTOMETRIC_MINISBLACK
          PLANARCONFIG_CONTIG FILLORDER_MSB2LSB) 3 (fun _ => 0)))
        StandardValueAccessor blankImage =
      .thrown .multiband (blankImage.log scalarTagReads) ∧
    tiffToScalarImage zeroIndeterminate
        (some (exampleHandle (exampleTags 1 1 8 1 SAMPLEFORMAT_VOID PHOTOMETRIC_MINISBLACK
          PLANARCONFIG_CONTIG FILLORDER_MSB2LSB) 1 (fun _ => 0)))
        StandardValueAccessor blankImage =
      .thrown .undefinedPixeltype (blankImage.log scalarTagReads) :=
  ⟨(scalar_preconditions_distinct zeroIndeterminate
      (exampleHandle (exampleTags 1 1 8 1 SAMPLEFORMAT_UINT PHOTOMETRIC_RGB
        PLANARCONFIG_CONTIG FILLORDER_MSB2LSB) 1 (fun _ => 0))
      StandardValueAccessor blankImage).1 (by decide),
   (scalar_preconditions_distinct zeroIndeterminate
      (exampleHandle (exampleTags 1 1 8 3 SAMPLEFORMAT_UINT PHOTOMETRIC_MINISBLACK
        PLANARCONFIG_CONTIG FILLORDER_MSB2LSB) 3 (fun _ => 0))
      StandardValueAccessor blankImage).2.1 (by decide) (by decide),
   (scalar_preconditions_distinct zeroIndeterminate
      (exampleHandle (exampleTags 1 1 8 1 SAMPLEFORMAT_VOID PHOTOMETRIC_MINISBLACK
        PLANARCONFIG_CONTIG FILLORDER_MSB2LSB) 1 (fun _ => 0))
      StandardValueAccessor blankImage).2.2.1 (by decide) (by decide) (by decide)⟩

/-- C20: when the expansion primitive `TIFFReadRGBAImage` reports failure on
a handle with Photometric=Palette and a SampleFormat other than Undefined,
`tiffToRGBImage` throws "unable to read image data."; no accessor call has
been made, so the destination image is unchanged, and the raster has been
released: the calls made are the tag reads, the allocation of the raster,
the expansion call and the release. -/
theorem palette_expansion_failure {α : Type} (u : Indeterminate) (tiff : TiffImage)
    (a : RGBAccessor α) (d : Dest α)
    (hphot : tiff.tags .PHOTOMETRIC = some PHOTOMETRIC_PALETTE)
    (hfmt : TIFFGetField tiff .SAMPLEFORMAT 1 ≠ SAMPLEFORMAT_VOID)
    (hfail : tiff.rgba = none) :
    tiffToRGBImage u (some tiff) a d = .thrown .unableToRead
      { image := d.image
        trace := d.trace ++ palettePrelude (TIFFGetField tiff .IMAGEWIDTH u.w)
          (TIFFGetField tiff .IMAGELENGTH u.h) ++ [.release .raster] } := by
  have e3 := TIFFGetField_of_tag tiff _ _ u.photometric hphot
  have e4 : ∀ r, TIFFReadRGBAImage tiff r = none := by
    intro r
    simp [TIFFReadRGBAImage, hfail]
  unfold tiffToRGBImage
  simp only [e3, e4]
  rw [if_neg (by decide), if_neg (fun hn => hn hfmt), if_pos trivial]
  simp [Result.map, Dest.log, palettePrelude, rgbTagReads]

/-- C20 at a concrete input: a 1 by 1 palette file whose expansion fails,
decoded into an image whose pixel is `(-7, -7, -7)`. -/
theorem palette_expansion_failure_witness :
    tiffToRGBImage zeroIndeterminate
        (some (exampleHandle (exampleTags 1 1 8 1 SAMPLEFORMAT_UINT PHOTOMETRIC_PALETTE
          PLANARCONFIG_CONTIG FILLORDER_MSB2LSB) 1 (fun _ => 0)))
        StandardRGBAccessor blankRGBImage = .thrown .unableToRead
      { image := blankRGBImage.image
        trace := blankRGBImage.trace ++ palettePrelude
          (TIFFGetField (exampleHandle (exampleTags 1 1 8 1 SAMPLEFORMAT_UINT
            PHOTOMETRIC_PALETTE PLANARCONFIG_CONTIG FILLORDER_MSB2LSB) 1 (fun _ => 0))
            .IMAGEWIDTH zeroIndeterminate.w)
          (TIFFGetField (exampleHandle (exampleTags 1 1 8 1 SAMPLEFORMAT_UINT
            PHOTOMETRIC_PALETTE PLANARCONFIG_CONTIG FILLORDER_MSB2LSB) 1 (fun _ => 0))
            .IMAGELENGTH zeroIndeterminate.h) ++ [.release .raster] } :=
  palette_expansion_failure zeroIndeterminate
    (exampleHandle (exampleTags 1 1 8 1 SAMPLEFORMAT_UINT PHOTOMETRIC_PALETTE
      PLANARCONFIG_CONTIG FILLORDER_MSB2LSB) 1 (fun _ => 0))
    StandardRGBAccessor blankRGBImage rfl (by decide) rfl

/-- A loop whose body never throws never throws. -/
theorem forLoop_not_thrown {σ : Type} (n : Nat) (body : Nat → σ → Result σ)
    (hb : ∀ i s e s1, body i s ≠ .thrown e s1) (s : σ) (e : Failure) (s1 : σ) :
    forLoop n body s ≠ .thrown e s1 := by
  induction n with
  | zero => simp [forLoop]
  | succ n ih =>
    rw [forLoop]
    cases hc : forLoop n body s with
    | ok s2 => simpa [Result.bind] using hb n s2 e s1
    | thrown e2 s2 => simp [Result.bind]; intro h1 h2; exact ih (by rw [hc, h1, h2])
    | undefined => simp [Result.bind]

/-- The row loop of `tiffToScalarImage` never throws: its only calls are
the scanline read, whose status is ignored, and the accessor. -/
theorem scalarLoop_not_thrown {α : Type} (tiff : TiffImage) (a : Accessor α)
    (sample : List Nat → Nat → Option Value) (w h : Nat) (s : ScalarState α)
    (e : Failure) (s1 : ScalarState α) :
    scalarLoop tiff a sample w h s ≠ .thrown e s1 := by
  unfold scalarLoop
  refine forLoop_not_thrown h _ (fun y s2 e2 s3 => ?_) s e s1
  unfold scalarRow
  refine forLoop_not_thrown w _ (fun x s4 e4 s5 => ?_) _ e2 s3
  cases hc : sample s4.buf x <;> simp

/-- On the sample formats UnsignedInt, SignedInt and IEEEFloat the selection
of `tiffToScalarImage` reaches the `default:` label of the inner switch
exactly for the pairs outside `ScalarSupported`. -/
theorem scalarSwitch_unsupported (format bits fill : Nat) (offset scale max min : Int)
    (hf : format = SAMPLEFORMAT_UINT ∨ format = SAMPLEFORMAT_INT ∨
      format = SAMPLEFORMAT_IEEEFP)
    (hns : ¬ ScalarSupported format bits) :
    scalarSwitch format bits fill offset scale max min = .error .unsupportedBits := by
  unfold ScalarSupported at hns
  rcases hf with hf | hf | hf <;> subst hf
  · have h1 : bits ≠ 1 := fun h => hns (Or.inl ⟨Or.inl rfl, Or.inl h⟩)
    have h8 : bits ≠ 8 := fun h => hns (Or.inl ⟨Or.inl rfl, Or.inr (Or.inl h)⟩)
    have h16 : bits ≠ 16 := fun h => hns (Or.inl ⟨Or.inl rfl, Or.inr (Or.inr (Or.inl h))⟩)
    have h32 : bits ≠ 32 := fun h => hns (Or.inl ⟨Or.inl rfl, Or.inr (Or.inr (Or.inr h))⟩)
    simp [scalarSwitch, h1, h8, h16, h32]
  · have h1 : bits ≠ 1 := fun h => hns (Or.inl ⟨Or.inr rfl, Or.inl h⟩)
    have h8 : bits ≠ 8 := fun h => hns (Or.inl ⟨Or.inr rfl, Or.inr (Or.inl h)⟩)
    have h16 : bits ≠ 16 := fun h => hns (Or.inl ⟨Or.inr rfl, Or.inr (Or.inr (Or.inl h))⟩)
    have h32 : bits ≠ 32 := fun h => hns (Or.inl ⟨Or.inr rfl, Or.inr (Or.inr (Or.inr h))⟩)
    simp [scalarSwitch, h1, h8, h16, h32]
  · have h32 : bits ≠ 32 := fun h => hns (Or.inr ⟨rfl, Or.inl h⟩)
    have h64 : bits ≠ 64 := fun h => hns (Or.inr ⟨rfl, Or.inr h⟩)
    simp [scalarSwitch, h32, h64]

/-- On a pair in `ScalarSupported` the selection of `tiffToScalarImage`
reaches one of the ten `case` bodies. -/
theorem scalarSwitch_supported (format bits fill : Nat) (offset scale max min : Int)
    (hs : ScalarSupported format bits) :
    ∃ sample, scalarSwitch format bits fill offset scale max min = .ok sample := by
  rcases hs with ⟨hf | hf, hb | hb | hb | hb⟩ | ⟨hf, hb | hb⟩ <;> subst hf <;> subst hb <;>
    exact ⟨_, rfl⟩

/-- The run of `tiffToScalarImage` on a handle that passes the three
preconditions and whose selection reaches a `default:` label: the buffer is
allocated and released, and nothing else happens. -/
theorem tiffToScalarImage_default {α : Type} (u : Indeterminate) (tiff : TiffImage)
    (a : Accessor α) (d : Dest α) (f : Failure)
    (hphot : TIFFGetField tiff .PHOTOMETRIC u.photometric = PHOTOMETRIC_MINISWHITE ∨
      TIFFGetField tiff .PHOTOMETRIC u.photometric = PHOTOMETRIC_MINISBLACK)
    (hspp : TIFFGetField tiff .SAMPLESPERPIXEL u.samplesPerPixel = 1)
    (hfmt : TIFFGetField tiff .SAMPLEFORMAT 1 ≠ SAMPLEFORMAT_VOID)
    (hsw : ∀ fill offset scale max min, scalarSwitch (TIFFGetField tiff .SAMPLEFORMAT 1)
      (TIFFGetField tiff .BITSPERSAMPLE u.bitsPerSample) fill offset scale max min
      = .error f) :
    tiffToScalarImage u (some tiff) a d = .thrown f
      { image := d.image
        trace := d.trace ++ scalarPrelude (TIFFScanlineSize tiff) ++ [.release .buf] } := by
  unfold tiffToScalarImage
  simp only []
  rw [if_neg (fun hn => hn hphot), if_neg (fun hn => hn hspp), if_neg (fun hn => hn hfmt)]
  simp only [hsw]
  simp [Result.map, Dest.log, scalarPrelude, scalarTagReads]

/-- The run of the `PHOTOMETRIC_RGB` branch of `tiffToRGBImage` when the
selection reaches a `default:` label: the three buffers are allocated and
released, and nothing else happens. -/
theorem tiffToRGBImage_default {α : Type} (u : Indeterminate) (tiff : TiffImage)
    (a : RGBAccessor α) (d : Dest α) (f : Failure)
    (hphot : TIFFGetField tiff .PHOTOMETRIC u.photometric = PHOTOMETRIC_RGB)
    (hfmt : TIFFGetField tiff .SAMPLEFORMAT 1 ≠ SAMPLEFORMAT_VOID)
    (hspp : TIFFGetField tiff .SAMPLESPERPIXEL u.samplesPerPixel = 3)
    (hsw : rgbSwitch (TIFFGetField tiff .SAMPLEFORMAT 1)
      (TIFFGetField tiff .BITSPERSAMPLE u.bitsPerSample) = .error f) :
    tiffToRGBImage u (some tiff) a d = .thrown f
      { image := d.image
        trace := d.trace ++ rgbPrelude (TIFFScanlineSize tiff) ++
          [.release .bufr, .release .bufg, .release .bufb] } := by
  unfold tiffToRGBImage
  simp only [hphot, hsw]
  rw [if_neg (by decide), if_neg (fun hn => hn hfmt), if_neg (by decide), if_pos trivial,
    if_neg (fun hn => hn hspp)]
  simp [Result.map, Dest.log, rgbPrelude, rgbTagReads]

/-- A format other than the four that the decoders name reaches the outer
`default:` label of the `PHOTOMETRIC_RGB` branch, which throws "internal
error.". -/
theorem rgbSwitch_other_format (format bits : Nat)
    (h1 : format ≠ SAMPLEFORMAT_UINT) (h2 : format ≠ SAMPLEFORMAT_INT)
    (h3 : format ≠ SAMPLEFORMAT_IEEEFP) :
    rgbSwitch format bits = .error .internalError := by
  simp [rgbSwitch, h1, h2, h3]

/-- C17: on a handle that passes the three preconditions of
`tiffToScalarImage` (grayscale Photometric, SamplesPerPixel=1) and whose
SampleFormat is UnsignedInt, SignedInt or IEEEFloat, the call throws
"unsupported number of bits per pixel" if and only if the pair (SampleFormat,
BitsPerSample) is not one of (UnsignedInt or SignedInt, 1/8/16/32) or
(IEEEFloat, 32/64). When it throws this way the destination image is
unchanged and the calls made are the tag reads, the scanline-size query, the
allocation of the buffer and its release: no scanline read and no accessor
call. -/
theorem scalar_unsupported_iff {α : Type} (u : Indeterminate) (tiff : TiffImage)
    (a : Accessor α) (d : Dest α)
    (hphot : TIFFGetField tiff .PHOTOMETRIC u.photometric = PHOTOMETRIC_MINISWHITE ∨
      TIFFGetField tiff .PHOTOMETRIC u.photometric = PHOTOMETRIC_MINISBLACK)
    (hspp : TIFFGetField tiff .SAMPLESPERPIXEL u.samplesPerPixel = 1)
    (hf : TIFFGetField tiff .SAMPLEFORMAT 1 = SAMPLEFORMAT_UINT ∨
      TIFFGetField tiff .SAMPLEFORMAT 1 = SAMPLEFORMAT_INT ∨
      TIFFGetField tiff .SAMPLEFORMAT 1 = SAMPLEFORMAT_IEEEFP) :
    ((∃ d1, tiffToScalarImage u (some tiff) a d = .thrown .unsupportedBits d1) ↔
      ¬ ScalarSupported (TIFFGetField tiff .SAMPLEFORMAT 1)
        (TIFFGetField tiff .BITSPERSAMPLE u.bitsPerSample)) ∧
    (¬ ScalarSupported (TIFFGetField tiff .SAMPLEFORMAT 1)
        (TIFFGetField tiff .BITSPERSAMPLE u.bitsPerSample) →
      tiffToScalarImage u (some tiff) a d = .thrown .unsupportedBits
        { image := d.image
          trace := d.trace ++ scalarPrelude (TIFFScanlineSize tiff) ++ [.release .buf] }) ∧
    (∀ e, e ∈ scalarPrelude (TIFFScanlineSize tiff) ++ [.release .buf] →
      (∀ y s, e ≠ Event.readScanline y s) ∧ ∀ x y v, e ≠ Event.set x y v) := by
  have hfmt : TIFFGetField tiff .SAMPLEFORMAT 1 ≠ SAMPLEFORMAT_VOID := by
    rcases hf with h | h | h <;> rw [h] <;> decide
  have hthrow : ¬ ScalarSupported (TIFFGetField tiff .SAMPLEFORMAT 1)
        (TIFFGetField tiff .BITSPERSAMPLE u.bitsPerSample) →
      tiffToScalarImage u (some tiff) a d = .thrown .unsupportedBits
        { image := d.image
          trace := d.trace ++ scalarPrelude (TIFFScanlineSize tiff) ++ [.release .buf] } :=
    fun hns => tiffToScalarImage_default u tiff a d .unsupportedBits hphot hspp hfmt
      (fun fill offset scale max min =>
        scalarSwitch_unsupported _ _ fill offset scale max min hf hns)
  refine ⟨⟨?_, fun hns => ⟨_, hthrow hns⟩⟩, hthrow, ?_⟩
  · rintro ⟨d1, hrun⟩ hs
    obtain ⟨sample, hsw⟩ := scalarSwitch_supported _ _
      (TIFFGetField tiff .FILLORDER u.fillorder)
      (if TIFFGetField tiff .PHOTOMETRIC u.photometric = PHOTOMETRIC_MINISWHITE then 255 else 0)
      (if TIFFGetField tiff .PHOTOMETRIC u.photometric = PHOTOMETRIC_MINISWHITE then -1 else 1)
      (if TIFFGetField tiff .PHOTOMETRIC u.photometric = PHOTOMETRIC_MINISWHITE then 0 else 255)
      (if TIFFGetField tiff .PHOTOMETRIC u.photometric = PHOTOMETRIC_MINISWHITE then 255 else 0)
      hs
    unfold tiffToScalarImage at hrun
    simp only [] at hrun
    rw [if_neg (fun hn => hn hphot), if_neg (fun hn => hn hspp), if_neg (fun hn => hn hfmt)]
      at hrun
    simp only [hsw] at hrun
    cases hc : scalarLoop tiff a sample (TIFFGetField tiff .IMAGEWIDTH u.w)
        (TIFFGetField tiff .IMAGELENGTH u.h)
        { buf := newBuffer u .buf (TIFFScanlineSize tiff)
          dest := (d.log [.getField .SAMPLEFORMAT, .getField .BITSPERSAMPLE,
            .getField .SAMPLESPERPIXEL, .getField .FILLORDER, .getField .PHOTOMETRIC,
            .getField .IMAGEWIDTH, .getField .IMAGELENGTH]).log
              [.scanlineSize, .alloc .buf (TIFFScanlineSize tiff)] } with
    | ok s2 => rw [hc] at hrun; simp [Result.map] at hrun
    | thrown e2 s2 => exact scalarLoop_not_thrown _ _ _ _ _ _ _ _ hc
    | undefined => rw [hc] at hrun; simp [Result.map] at hrun
  · intro e he
    simp only [scalarPrelude, scalarTagReads, List.mem_append, List.mem_cons,
      List.mem_singleton, List.not_mem_nil, or_false] at he
    rcases he with (he | he) | he
    · rcases he with he | he | he | he | he | he | he <;> subst he <;>
        exact ⟨fun _ _ h => Event.noConfusion h, fun _ _ _ h => Event.noConfusion h⟩
    · rcases he with he | he <;> subst he <;>
        exact ⟨fun _ _ h => Event.noConfusion h, fun _ _ _ h => Event.noConfusion h⟩
    · subst he
      exact ⟨fun _ _ h => Event.noConfusion h, fun _ _ _ h => Event.noConfusion h⟩

/-- C17 at concrete inputs: a 1 by 1 grayscale file of 64-bit unsigned
integers and one of 16-bit floats are rejected. -/
theorem scalar_unsupported_iff_witness :
    tiffToScalarImage zeroIndeterminate
        (some (exampleHandle (exampleTags 1 1 64 1 SAMPLEFORMAT_UINT PHOTOMETRIC_MINISBLACK
          PLANARCONFIG_CONTIG FILLORDER_MSB2LSB) 8 (fun _ => 0)))
        StandardValueAccessor blankImage = .thrown .unsupportedBits
      { image := blankImage.image
        trace := blankImage.trace ++ scalarPrelude 8 ++ [.release .buf] } ∧
    tiffToScalarImage zeroIndeterminate
        (some (exampleHandle (exampleTags 1 1 16 1 SAMPLEFORMAT_IEEEFP PHOTOMETRIC_MINISWHITE
          PLANARCONFIG_CONTIG FILLORDER_MSB2LSB) 2 (fun _ => 0)))
        StandardValueAccessor blankImage = .thrown .unsupportedBits
      { image := blankImage.image
        trace := blankImage.trace ++ scalarPrelude 2 ++ [.release .buf] } :=
  ⟨(scalar_unsupported_iff zeroIndeterminate
      (exampleHandle (exampleTags 1 1 64 1 SAMPLEFORMAT_UINT PHOTOMETRIC_MINISBLACK
        PLANARCONFIG_CONTIG FILLORDER_MSB2LSB) 8 (fun _ => 0))
      StandardValueAccessor blankImage (Or.inr rfl) rfl (Or.inl rfl)).2.1 (by decide),
   (scalar_unsupported_iff zeroIndeterminate
      (exampleHandle (exampleTags 1 1 16 1 SAMPLEFORMAT_IEEEFP PHOTOMETRIC_MINISWHITE
        PLANARCONFIG_CONTIG FILLORDER_MSB2LSB) 2 (fun _ => 0))
      StandardValueAccessor blankImage (Or.inl rfl) rfl (Or.inr (Or.inr rfl))).2.1
      (by decide)⟩

/-- A SampleFormat outside UnsignedInt, SignedInt, IEEEFloat and Undefined,
such as `SAMPLEFORMAT_COMPLEXINT`, reaches the outer `default:` label of the
`PHOTOMETRIC_RGB` branch: the call throws "internal error.", with the
destination image unchanged. -/
theorem tiffToRGBImage_other_format {α : Type} (u : Indeterminate) (tiff : TiffImage)
    (a : RGBAccessor α) (d : Dest α)
    (hphot : TIFFGetField tiff .PHOTOMETRIC u.photometric = PHOTOMETRIC_RGB)
    (hspp : TIFFGetField tiff .SAMPLESPERPIXEL u.samplesPerPixel = 3)
    (h1 : TIFFGetField tiff .SAMPLEFORMAT 1 ≠ SAMPLEFORMAT_UINT)
    (h2 : TIFFGetField tiff .SAMPLEFORMAT 1 ≠ SAMPLEFORMAT_INT)
    (h3 : TIFFGetField tiff .SAMPLEFORMAT 1 ≠ SAMPLEFORMAT_IEEEFP)
    (h4 : TIFFGetField tiff .SAMPLEFORMAT 1 ≠ SAMPLEFORMAT_VOID) :
    tiffToRGBImage u (some tiff) a d = .thrown .internalError
      { image := d.image
        trace := d.trace ++ rgbPrelude (TIFFScanlineSize tiff) ++
          [.release .bufr, .release .bufg, .release .bufb] } :=
  tiffToRGBImage_default u tiff a d .internalError hphot h4 hspp
    (rgbSwitch_other_format _ _ h1 h2 h3)

/-- C19 (what the code does): the status that `TIFFReadScanline` and
`TIFFWriteScanline` return is ignored. Decoding a 1 by 1 file none of whose
scanlines can be read returns normally, and the pixel handed to the accessor
is the content of the freshly allocated buffer (99 here), both in
`tiffToScalarImage` and in the `PHOTOMETRIC_RGB` branch of `tiffToRGBImage`.
Encoding a 1 by 1 image to a handle whose scanline writes fail returns
normally, with no scanline in the file, both in `createScalarTiffImage` and
in `createRGBTiffImage`. -/
theorem scanline_status_ignored :
    (∃ d1, tiffToScalarImage exampleStale
        (some (exampleUnreadable (exampleTags 1 1 8 1 SAMPLEFORMAT_UINT
          PHOTOMETRIC_MINISBLACK PLANARCONFIG_CONTIG FILLORDER_MSB2LSB) 1))
        StandardValueAccessor blankImage = .ok d1 ∧
      d1.image 0 0 = .int 99 ∧
      d1.trace = scalarPrelude 1 ++
        [.readScanline 0 0, .set 0 0 (.int 99), .release .buf]) ∧
    (∃ d1, tiffToRGBImage exampleStale
        (some (exampleUnreadable (exampleTags 1 1 8 3 SAMPLEFORMAT_UINT
          PHOTOMETRIC_RGB PLANARCONFIG_CONTIG FILLORDER_MSB2LSB) 3))
        StandardRGBAccessor blankRGBImage = .ok d1 ∧
      d1.image 0 0 = { red := .int 99, green := .int 99, blue := .int 99 }) ∧
    (∃ s, createScalarTiffImage zeroIndeterminate 1 1 (.uchar fun _ _ => 5)
        (some exampleUnwritable) [] = .ok s ∧
      s.tiff.rows 0 0 = none ∧ Event.writeScanline 0 [5] ∈ s.trace) ∧
    (∃ s, createRGBTiffImage zeroIndeterminate 1 1
        (.uchar fun _ _ => { red := 5, green := 6, blue := 7 })
        (some exampleUnwritable) [] = .ok s ∧
      s.tiff.rows 0 0 = none ∧ Event.writeScanline 0 [5, 6, 7] ∈ s.trace) := by
  refine ⟨⟨_, rfl, rfl, rfl⟩, ⟨_, rfl, rfl⟩, ⟨_, rfl, rfl, by decide⟩, ⟨_, rfl, rfl, by decide⟩⟩

/-- The tags and the trace of a successful run of the common body of the
overloads of `createScalarTiffImage`. -/
theorem createScalarTiffImageOf_tags (bits format k : Nat) (cell : Nat → Nat → Nat)
    (u : Indeterminate) (w h : Nat) (tiff : TiffImage) (trace : List Event)
    (hsize : k * w ≤
      TIFFScanlineSize (writtenTags tiff w h bits 1 format PHOTOMETRIC_MINISBLACK)) :
    ∃ s rowData n, createScalarTiffImageOf bits format k cell u w h (some tiff) trace = .ok s ∧
      (s.tiff.tags .IMAGEWIDTH = some w ∧ s.tiff.tags .IMAGELENGTH = some h ∧
        s.tiff.tags .BITSPERSAMPLE = some bits ∧ s.tiff.tags .SAMPLESPERPIXEL = some 1 ∧
        s.tiff.tags .PLANARCONFIG = some PLANARCONFIG_CONTIG ∧
        s.tiff.tags .SAMPLEFORMAT = some format ∧
        s.tiff.tags .PHOTOMETRIC = some PHOTOMETRIC_MINISBLACK) ∧
      s.trace = trace ++ tagWrites w h bits 1 format PHOTOMETRIC_MINISBLACK ++
        [.scanlineSize, .alloc .buf n] ++ writtenTrace rowData h ++ [.release .buf] := by
  refine ⟨_, (fun y => encodedRow u
      (TIFFScanlineSize (writtenTags tiff w h bits 1 format PHOTOMETRIC_MINISBLACK))
      k w (fun x => cell x y)),
    TIFFScanlineSize (writtenTags tiff w h bits 1 format PHOTOMETRIC_MINISBLACK),
    createScalarTiffImageOf_ok bits format k cell u w h tiff trace hsize, ?_, ?_⟩
  · simp only [(writtenHandle_fields _ _ h).1]
    exact writtenTags_get tiff w h bits 1 format PHOTOMETRIC_MINISBLACK
  · simp [encodePrelude, tagWrites]

/-- The tags and the trace of a successful run of the common body of the
overloads of `createRGBTiffImage`. -/
theorem createRGBTiffImageOf_tags (bits format k : Nat) (red green blue : Nat → Nat → Nat)
    (u : Indeterminate) (w h : Nat) (tiff : TiffImage) (trace : List Event)
    (hsize : k * (3 * w) ≤
      TIFFScanlineSize (writtenTags tiff w h bits 3 format PHOTOMETRIC_RGB)) :
    ∃ s rowData n,
      createRGBTiffImageOf bits format k red green blue u w h (some tiff) trace = .ok s ∧
      (s.tiff.tags .IMAGEWIDTH = some w ∧ s.tiff.tags .IMAGELENGTH = some h ∧
        s.tiff.tags .BITSPERSAMPLE = some bits ∧ s.tiff.tags .SAMPLESPERPIXEL = some 3 ∧
        s.tiff.tags .PLANARCONFIG = some PLANARCONFIG_CONTIG ∧
        s.tiff.tags .SAMPLEFORMAT = some format ∧
        s.tiff.tags .PHOTOMETRIC = some PHOTOMETRIC_RGB) ∧
      s.trace = trace ++ tagWrites w h bits 3 format PHOTOMETRIC_RGB ++
        [.scanlineSize, .alloc .buf n] ++ writtenTrace rowData h ++ [.release .buf] := by
  refine ⟨_, (fun y => encodedRow u
      (TIFFScanlineSize (writtenTags tiff w h bits 3 format PHOTOMETRIC_RGB))
      k (3 * w) (interleave (fun x => red x y) (fun x => green x y) (fun x => blue x y))),
    TIFFScanlineSize (writtenTags tiff w h bits 3 format PHOTOMETRIC_RGB),
    createRGBTiffImageOf_ok bits format k red green blue u w h tiff trace hsize, ?_, ?_⟩
  · simp only [(writtenHandle_fields _ _ h).1]
    exact writtenTags_get tiff w h bits 3 format PHOTOMETRIC_RGB
  · simp [encodePrelude, tagWrites]

/-- C21: for every pixel type and every `w` by `h` range,
`createScalarTiffImage` on a handle whose scanline buffer holds the `w`
samples of a row returns normally with ImageWidth=w, ImageLength=h,
SamplesPerPixel=1, Photometric=MinIsBlack, PlanarConfig=Contiguous and
(BitsPerSample, SampleFormat) = (8, UnsignedInt), (16, SignedInt),
(32, SignedInt), (32, IEEEFloat), (64, IEEEFloat) for unsigned char, short,
int, float, double. Its calls are the seven tag writes, the scanline-size
query and the allocation, then the `h` scanline writes, then the release: all
tags are set before the first `TIFFWriteScanline`. -/
theorem scalar_encode_tags (u : Indeterminate) (w h : Nat) (src : ScalarSource)
    (tiff : TiffImage) (trace : List Event)
    (hsize : src.bytes * w ≤ TIFFScanlineSize
      (writtenTags tiff w h src.encoding.1 1 src.encoding.2 PHOTOMETRIC_MINISBLACK)) :
    ∃ s rowData n, createScalarTiffImage u w h src (some tiff) trace = .ok s ∧
      (s.tiff.tags .IMAGEWIDTH = some w ∧ s.tiff.tags .IMAGELENGTH = some h ∧
        s.tiff.tags .BITSPERSAMPLE = some src.encoding.1 ∧
        s.tiff.tags .SAMPLESPERPIXEL = some 1 ∧
        s.tiff.tags .PLANARCONFIG = some PLANARCONFIG_CONTIG ∧
        s.tiff.tags .SAMPLEFORMAT = some src.encoding.2 ∧
        s.tiff.tags .PHOTOMETRIC = some PHOTOMETRIC_MINISBLACK) ∧
      s.trace = trace ++
        tagWrites w h src.encoding.1 1 src.encoding.2 PHOTOMETRIC_MINISBLACK ++
        [.scanlineSize, .alloc .buf n] ++ writtenTrace rowData h ++ [.release .buf] := by
  cases src with
  | uchar f => exact createScalarTiffImageOf_tags 8 SAMPLEFORMAT_UINT 1 _ u w h tiff trace hsize
  | short f => exact createScalarTiffImageOf_tags 16 SAMPLEFORMAT_INT 2 _ u w h tiff trace hsize
  | int f => exact createScalarTiffImageOf_tags 32 SAMPLEFORMAT_INT 4 _ u w h tiff trace hsize
  | float f =>
    exact createScalarTiffImageOf_tags 32 SAMPLEFORMAT_IEEEFP 4 _ u w h tiff trace hsize
  | double f =>
    exact createScalarTiffImageOf_tags 64 SAMPLEFORMAT_IEEEFP 8 _ u w h tiff trace hsize

/-- C21 at a concrete input: a 2 by 1 image of `short` pixels written to a
fresh handle. -/
theorem scalar_encode_tags_witness :
    ∃ s rowData n, createScalarTiffImage zeroIndeterminate 2 1 (.short fun _ _ => -3)
        (some freshHandle) [] = .ok s ∧
      (s.tiff.tags .IMAGEWIDTH = some 2 ∧ s.tiff.tags .IMAGELENGTH = some 1 ∧
        s.tiff.tags .BITSPERSAMPLE = some 16 ∧
        s.tiff.tags .SAMPLESPERPIXEL = some 1 ∧
        s.tiff.tags .PLANARCONFIG = some PLANARCONFIG_CONTIG ∧
        s.tiff.tags .SAMPLEFORMAT = some SAMPLEFORMAT_INT ∧
        s.tiff.tags .PHOTOMETRIC = some PHOTOMETRIC_MINISBLACK) ∧
      s.trace = [] ++ tagWrites 2 1 16 1 SAMPLEFORMAT_INT PHOTOMETRIC_MINISBLACK ++
        [.scanlineSize, .alloc .buf n] ++ writtenTrace rowData 1 ++ [.release .buf] :=
  scalar_encode_tags zeroIndeterminate 2 1 (.short fun _ _ => -3) freshHandle []
    (by decide)

/-- C22: for every component type and every `w` by `h` range,
`createRGBTiffImage` on a handle whose scanline buffer holds the `3 w`
samples of a row returns normally with Photometric=RGB, SamplesPerPixel=3,
PlanarConfig=Contiguous, ImageWidth=w, ImageLength=h and (BitsPerSample,
SampleFormat) = (8, UnsignedInt), (16, SignedInt), (32, SignedInt),
(32, IEEEFloat), (64, IEEEFloat) for unsigned char, short, int, float,
double. The seven tag writes precede every `TIFFWriteScanline`. -/
theorem rgb_encode_tags (u : Indeterminate) (w h : Nat) (src : RGBSource)
    (tiff : TiffImage) (trace : List Event)
    (hsize : src.bytes * (3 * w) ≤ TIFFScanlineSize
      (writtenTags tiff w h src.encoding.1 3 src.encoding.2 PHOTOMETRIC_RGB)) :
    ∃ s rowData n, createRGBTiffImage u w h src (some tiff) trace = .ok s ∧
      (s.tiff.tags .IMAGEWIDTH = some w ∧ s.tiff.tags .IMAGELENGTH = some h ∧
        s.tiff.tags .BITSPERSAMPLE = some src.encoding.1 ∧
        s.tiff.tags .SAMPLESPERPIXEL = some 3 ∧
        s.tiff.tags .PLANARCONFIG = some PLANARCONFIG_CONTIG ∧
        s.tiff.tags .SAMPLEFORMAT = some src.encoding.2 ∧
        s.tiff.tags .PHOTOMETRIC = some PHOTOMETRIC_RGB) ∧
      s.trace = trace ++ tagWrites w h src.encoding.1 3 src.encoding.2 PHOTOMETRIC_RGB ++
        [.scanlineSize, .alloc .buf n] ++ writtenTrace rowData h ++ [.release .buf] := by
  cases src with
  | uchar f => exact createRGBTiffImageOf_tags 8 SAMPLEFORMAT_UINT 1 _ _ _ u w h tiff trace hsize
  | short f => exact createRGBTiffImageOf_tags 16 SAMPLEFORMAT_INT 2 _ _ _ u w h tiff trace hsize
  | int f => exact createRGBTiffImageOf_tags 32 SAMPLEFORMAT_INT 4 _ _ _ u w h tiff trace hsize
  | float f =>
    exact createRGBTiffImageOf_tags 32 SAMPLEFORMAT_IEEEFP 4 _ _ _ u w h tiff trace hsize
  | double f =>
    exact createRGBTiffImageOf_tags 64 SAMPLEFORMAT_IEEEFP 8 _ _ _ u w h tiff trace hsize

/-- C22 at a concrete input: a 1 by 1 image of `double` components written to
a fresh handle. -/
theorem rgb_encode_tags_witness :
    ∃ s rowData n, createRGBTiffImage zeroIndeterminate 1 1
        (.double fun _ _ => { red := 1, green := 2, blue := 3 }) (some freshHandle) []
        = .ok s ∧
      (s.tiff.tags .IMAGEWIDTH = some 1 ∧ s.tiff.tags .IMAGELENGTH = some 1 ∧
        s.tiff.tags .BITSPERSAMPLE = some 64 ∧
        s.tiff.tags .SAMPLESPERPIXEL = some 3 ∧
        s.tiff.tags .PLANARCONFIG = some PLANARCONFIG_CONTIG ∧
        s.tiff.tags .SAMPLEFORMAT = some SAMPLEFORMAT_IEEEFP ∧
        s.tiff.tags .PHOTOMETRIC = some PHOTOMETRIC_RGB) ∧
      s.trace = [] ++ tagWrites 1 1 64 3 SAMPLEFORMAT_IEEEFP PHOTOMETRIC_RGB ++
        [.scanlineSize, .alloc .buf n] ++ writtenTrace rowData 1 ++ [.release .buf] :=
  rgb_encode_tags zeroIndeterminate 1 1
    (.double fun _ _ => { red := 1, green := 2, blue := 3 }) freshHandle [] (by decide)

/-- C23 (counterexample): on a 1 by 1 single-band grayscale file
(SamplesPerPixel=1, Photometric=MinIsBlack or MinIsWhite) whose sample is 60,
`tiffToRGBImage` does not return normally, so it produces no gray pixel: the
guard `precondition(photometric == PHOTOMETRIC_RGB || photometric ==
PHOTOMETRIC_PALETTE, ...)` throws "Image isn't RGB." after the tag reads and
the destination pixel `(-7, -7, -7)` is left as it was. -/
theorem rgb_rejects_single_band :
    tiffToRGBImage zeroIndeterminate
        (some (exampleHandle (exampleTags 1 1 8 1 SAMPLEFORMAT_UINT PHOTOMETRIC_MINISBLACK
          PLANARCONFIG_CONTIG FILLORDER_MSB2LSB) 1 (fun _ => 60)))
        StandardRGBAccessor blankRGBImage
      = .thrown .notRGB (blankRGBImage.log rgbTagReads) ∧
    tiffToRGBImage zeroIndeterminate
        (some (exampleHandle (exampleTags 1 1 8 1 SAMPLEFORMAT_UINT PHOTOMETRIC_MINISWHITE
          PLANARCONFIG_CONTIG FILLORDER_MSB2LSB) 1 (fun _ => 60)))
        StandardRGBAccessor blankRGBImage
      = .thrown .notRGB (blankRGBImage.log rgbTagReads) ∧
    (blankRGBImage.log rgbTagReads).image 0 0
      = { red := .int (-7), green := .int (-7), blue := .int (-7) } ∧
    ¬ (∃ d1, tiffToRGBImage zeroIndeterminate
        (some (exampleHandle (exampleTags 1 1 8 1 SAMPLEFORMAT_UINT PHOTOMETRIC_MINISBLACK
          PLANARCONFIG_CONTIG FILLORDER_MSB2LSB) 1 (fun _ => 60)))
        StandardRGBAccessor blankRGBImage = .ok d1 ∧
      d1.image 0 0 = { red := .int 60, green := .int 60, blue := .int 60 }) := by
  refine ⟨rfl, rfl, rfl, ?_⟩
  rintro ⟨d1, h, -⟩
  rw [tiffToRGBImage_not_rgb _ _ _ _ (by decide) (by decide)] at h
  cases h

/-- C23 (amended): `tiffToRGBImage` does not convert single-band grayscale
input. On every non-null handle whose Photometric tag is MinIsBlack or
MinIsWhite, whatever the other tags are (SamplesPerPixel=1 included), the
call throws "Image isn't RGB."; it does not return normally, the destination
image is unchanged and the only calls made are the seven tag reads, so no
scanline was read and no accessor was called. -/
theorem rgb_single_band_not_converted {α : Type} (u : Indeterminate) (tiff : TiffImage)
    (a : RGBAccessor α) (d : Dest α) (p : Nat)
    (hphot : tiff.tags .PHOTOMETRIC = some p)
    (hgray : p = PHOTOMETRIC_MINISBLACK ∨ p = PHOTOMETRIC_MINISWHITE) :
    tiffToRGBImage u (some tiff) a d = .thrown .notRGB (d.log rgbTagReads) ∧
      (∀ d1, tiffToRGBImage u (some tiff) a d ≠ .ok d1) ∧
      (d.log rgbTagReads).image = d.image ∧
      (d.log rgbTagReads).trace = d.trace ++ rgbTagReads ∧
      ∀ e, e ∈ rgbTagReads → ∃ t, e = Event.getField t := by
  have e3 := TIFFGetField_of_tag tiff _ _ u.photometric hphot
  have hrun : tiffToRGBImage u (some tiff) a d = .thrown .notRGB (d.log rgbTagReads) := by
    apply tiffToRGBImage_not_rgb <;> rw [e3] <;> rcases hgray with h | h <;> rw [h] <;> decide
  refine ⟨hrun, fun d1 h => ?_, rfl, rfl, tagReads_are_getField.2⟩
  rw [hrun] at h
  cases h

/-- C23 (amended) at a concrete input: a 1 by 1 single-band file with
Photometric=MinIsWhite whose sample is 60. -/
theorem rgb_single_band_not_converted_witness :
    tiffToRGBImage zeroIndeterminate
        (some (exampleHandle (exampleTags 1 1 8 1 SAMPLEFORMAT_UINT PHOTOMETRIC_MINISWHITE
          PLANARCONFIG_CONTIG FILLORDER_MSB2LSB) 1 (fun _ => 60)))
        StandardRGBAccessor blankRGBImage
      = .thrown .notRGB (blankRGBImage.log rgbTagReads) ∧
    (∀ d1, tiffToRGBImage zeroIndeterminate
        (some (exampleHandle (exampleTags 1 1 8 1 SAMPLEFORMAT_UINT PHOTOMETRIC_MINISWHITE
          PLANARCONFIG_CONTIG FILLORDER_MSB2LSB) 1 (fun _ => 60)))
        StandardRGBAccessor blankRGBImage ≠ .ok d1) ∧
    (blankRGBImage.log rgbTagReads).image = blankRGBImage.image ∧
    (blankRGBImage.log rgbTagReads).trace = blankRGBImage.trace ++ rgbTagReads ∧
    ∀ e, e ∈ rgbTagReads → ∃ t, e = Event.getField t :=
  rgb_single_band_not_converted zeroIndeterminate
    (exampleHandle (exampleTags 1 1 8 1 SAMPLEFORMAT_UINT PHOTOMETRIC_MINISWHITE
      PLANARCONFIG_CONTIG FILLORDER_MSB2LSB) 1 (fun _ => 60))
    StandardRGBAccessor blankRGBImage PHOTOMETRIC_MINISWHITE rfl (Or.inr rfl)

/-- C27: `importTiffImage` has exactly the outcome of `tiffToScalarImage`
when the accessor's value type is scalar and exactly that of `tiffToRGBImage`
when it is a vector; `createTiffImage` has exactly the outcome of
`createScalarTiffImage` for a scalar source and of `createRGBTiffImage` for a
vector source. The outcome includes the final state and the trace of calls,
so nothing is added. -/
theorem router_forwards {α β : Type} (u : Indeterminate) (tiff : Option TiffImage)
    (a : Accessor α) (d : Dest α) (b : RGBAccessor β) (e : Dest β)
    (w h : Nat) (src : ScalarSource) (rgb : RGBSource) (trace : List Event) :
    importTiffImage u tiff (.isScalar a) d = tiffToScalarImage u tiff a d ∧
    importTiffImage u tiff (.isVector b) e = tiffToRGBImage u tiff b e ∧
    createTiffImage u w h (.isScalar src) tiff trace
      = createScalarTiffImage u w h src tiff trace ∧
    createTiffImage u w h (.isVector rgb) tiff trace
      = createRGBTiffImage u w h rgb tiff trace :=
  ⟨rfl, rfl, rfl, rfl⟩

/-- C29: direct RGB decode of the contiguous layout. On a handle with
Photometric=RGB, SamplesPerPixel=3, PlanarConfig=Contiguous, a supported
(SampleFormat, BitsPerSample) and readable scanlines `row y` that fit the
scanline buffer, `tiffToRGBImage` returns normally and the pixel written at
`(x, y)` has red, green, blue = elements `3x`, `3x+1`, `3x+2` of scanline
`y`, each interpreted in the fixed-width type of the sample format and bit
width; pixels outside the `w` by `h` range are unchanged. No polarity
transform is applied: an unsigned 8-bit element `v` is handed on as `v`. -/
theorem rgb_contig_decode {α : Type} (u : Indeterminate) (tiff : TiffImage)
    (a : RGBAccessor α) (d : Dest α) (format bits w h : Nat) (row : Nat → Nat → Nat)
    (hsup : RGBSupported format bits)
    (hfmt : tiff.tags .SAMPLEFORMAT = some format)
    (hbits : tiff.tags .BITSPERSAMPLE = some bits)
    (hphot : tiff.tags .PHOTOMETRIC = some PHOTOMETRIC_RGB)
    (hspp : tiff.tags .SAMPLESPERPIXEL = some 3)
    (hplanar : tiff.tags .PLANARCONFIG = some PLANARCONFIG_CONTIG)
    (hw : tiff.tags .IMAGEWIDTH = some w)
    (hh : tiff.tags .IMAGELENGTH = some h)
    (hsize : 3 * w * (bits / 8) ≤ TIFFScanlineSize tiff)
    (hrows : ∀ y, y < h → tiff.rows y 0 = some (row y)) :
    ∃ d1, tiffToRGBImage u (some tiff) a d = .ok d1 ∧
      (∀ x y, x < w → y < h → d1.image x y =
        a.store
          { red := sampleValue format bits (elemOf (bits / 8) (row y) (3 * x))
            green := sampleValue format bits (elemOf (bits / 8) (row y) (3 * x + 1))
            blue := sampleValue format bits (elemOf (bits / 8) (row y) (3 * x + 2)) }
          (d.image x y)) ∧
      (∀ x y, ¬ (x < w ∧ y < h) → d1.image x y = d.image x y) ∧
      (format = SAMPLEFORMAT_UINT → bits = 8 → ∀ x y, x < w → y < h → d1.image x y =
        a.store
          { red := .int (row y (3 * x)), green := .int (row y (3 * x + 1)),
            blue := .int (row y (3 * x + 2)) }
          (d.image x y)) := by
  have e0 := TIFFGetField_of_tag tiff _ _ 1 hfmt
  have e1 := TIFFGetField_of_tag tiff _ _ u.bitsPerSample hbits
  obtain ⟨hvoid, deref, hsw, hspec⟩ := rgbSwitch_supported format bits hsup
  obtain ⟨d1, hrun, hpix, hout⟩ := rgb_contig_pixels u tiff a d deref (bits / 8)
    (sampleValue format bits) w h
    (TIFFGetField_of_tag tiff _ _ u.photometric hphot) (by rw [e0]; exact hvoid)
    (TIFFGetField_of_tag tiff _ _ u.samplesPerPixel hspp) (by rw [e0, e1]; exact hsw) hspec
    (TIFFGetField_of_tag tiff _ _ u.planarConfig hplanar)
    (TIFFGetField_of_tag tiff _ _ u.w hw) (TIFFGetField_of_tag tiff _ _ u.h hh) hsize
  have hpix1 : ∀ x y, x < w → y < h → d1.image x y =
      a.store
        { red := sampleValue format bits (elemOf (bits / 8) (row y) (3 * x))
          green := sampleValue format bits (elemOf (bits / 8) (row y) (3 * x + 1))
          blue := sampleValue format bits (elemOf (bits / 8) (row y) (3 * x + 2)) }
        (d.image x y) := by
    intro x y hx hy
    rw [hpix x y (row y) hx hy (hrows y hy)]
    have i0 : 0 + x * 3 = 3 * x := by omega
    have i1 : 1 + x * 3 = 3 * x + 1 := by omega
    have i2 : 2 + x * 3 = 3 * x + 2 := by omega
    rw [i0, i1, i2]
  refine ⟨d1, hrun, hpix1, hout, ?_⟩
  intro hf hb x y hx hy
  rw [hpix1 x y hx hy, hf, hb]
  simp [sampleValue, elemOf_one]

/-- C29 at a concrete input: a 1 by 1 file of unsigned 8-bit samples whose
scanline is 200, 201, 202. -/
theorem rgb_contig_decode_witness :
    ∃ d1, tiffToRGBImage zeroIndeterminate
        (some (exampleHandle (exampleTags 1 1 8 3 SAMPLEFORMAT_UINT PHOTOMETRIC_RGB
          PLANARCONFIG_CONTIG FILLORDER_MSB2LSB) 3 (fun i => 200 + i)))
        StandardRGBAccessor blankRGBImage = .ok d1 ∧
      d1.image 0 0 = { red := .int 200, green := .int 201, blue := .int 202 } := by
  obtain ⟨d1, h1, -, -, h4⟩ := rgb_contig_decode zeroIndeterminate
    (exampleHandle (exampleTags 1 1 8 3 SAMPLEFORMAT_UINT PHOTOMETRIC_RGB
      PLANARCONFIG_CONTIG FILLORDER_MSB2LSB) 3 (fun i => 200 + i))
    StandardRGBAccessor blankRGBImage SAMPLEFORMAT_UINT 8 1 1 (fun _ i => 200 + i)
    (by decide) rfl rfl rfl rfl rfl rfl rfl (by decide) (fun _ _ => rfl)
  refine ⟨d1, h1, ?_⟩
  rw [h4 rfl rfl 0 0 (by decide) (by decide)]
  rfl

/-- For every supported pair of the `PHOTOMETRIC_RGB` branch other than
(SignedInt, 8), the sample expression that `tiffToScalarImage` selects under
MinIsBlack is the dereference that `tiffToRGBImage` selects. -/
theorem extraction_agrees (format bits : Nat) (hsup : RGBSupported format bits)
    (hne : ¬ (format = SAMPLEFORMAT_INT ∧ bits = 8)) :
    ∃ sample, (∀ fill, scalarSwitch format bits fill 0 1 255 0 = .ok sample) ∧
      rgbSwitch format bits = .ok sample := by
  rcases hsup with ⟨hf | hf, hb | hb | hb⟩ | ⟨hf, hb | hb⟩ <;> subst hf <;> subst hb
  · refine ⟨sampleUInt 1, fun _ => ?_, rfl⟩
    have e : sampleByte 0 1 = sampleUInt 1 := by
      funext buf x
      simp [sampleByte, sampleUInt]
    simp [scalarSwitch, e]
  · exact ⟨_, fun _ => rfl, rfl⟩
  · exact ⟨_, fun _ => rfl, rfl⟩
  · exact absurd ⟨rfl, rfl⟩ hne
  · exact ⟨_, fun _ => rfl, rfl⟩
  · exact ⟨_, fun _ => rfl, rfl⟩
  · exact ⟨_, fun _ => rfl, rfl⟩
  · exact ⟨_, fun _ => rfl, rfl⟩

/-- C30 (what the code does): for the pair (SignedInt, 8) the two decoders do
not extract a sample the same way. On the sample byte 200 of a 1 by 1 file,
`tiffToScalarImage` under MinIsBlack hands 200 to the accessor (it reads
through `(uint8 *)buf`), while `tiffToRGBImage` hands -56 to each channel (it
reads through `int8 *`). -/
theorem int8_extraction_differs :
    (∃ d1, tiffToScalarImage zeroIndeterminate
        (some (exampleHandle (exampleTags 1 1 8 1 SAMPLEFORMAT_INT PHOTOMETRIC_MINISBLACK
          PLANARCONFIG_CONTIG FILLORDER_MSB2LSB) 1 (fun _ => 200)))
        StandardValueAccessor blankImage = .ok d1 ∧
      d1.image 0 0 = .int 200) ∧
    (∃ d1, tiffToRGBImage zeroIndeterminate
        (some (exampleHandle (exampleTags 1 1 8 3 SAMPLEFORMAT_INT PHOTOMETRIC_RGB
          PLANARCONFIG_CONTIG FILLORDER_MSB2LSB) 3 (fun _ => 200)))
        StandardRGBAccessor blankRGBImage = .ok d1 ∧
      d1.image 0 0 = { red := .int (-56), green := .int (-56), blue := .int (-56) }) :=
  ⟨⟨_, rfl, by decide⟩, ⟨_, rfl, by decide⟩⟩

/-- The selection of `tiffToScalarImage` throws nothing but "unsupported
number of bits per pixel" and "internal error.". -/
theorem scalarSwitch_error (format bits fill : Nat) (offset scale max min : Int) (f : Failure)
    (h : scalarSwitch format bits fill offset scale max min = .error f) :
    f = .unsupportedBits ∨ f = .internalError := by
  unfold scalarSwitch at h
  split_ifs at h <;> cases h <;> simp

/-- The selection of the `PHOTOMETRIC_RGB` branch throws nothing but
"unsupported number of bits per pixel" and "internal error.". -/
theorem rgbSwitch_error (format bits : Nat) (f : Failure)
    (h : rgbSwitch format bits = .error f) :
    f = .unsupportedBits ∨ f = .internalError := by
  unfold rgbSwitch at h
  split_ifs at h <;> cases h <;> simp

/-- The row loop of the palette branch never throws. -/
theorem paletteLoop_not_thrown {α : Type} (a : RGBAccessor α) (w h : Nat)
    (s : PaletteState α) (e : Failure) (s1 : PaletteState α) :
    paletteLoop a w h s ≠ .thrown e s1 := by
  unfold paletteLoop
  refine forLoop_not_thrown h _ (fun y s2 e2 s3 => ?_) s e s1
  unfold paletteRow
  refine forLoop_not_thrown w _ (fun x s4 e4 s5 => ?_) _ e2 s3
  cases hc : s4.raster[x + y * w]? <;> simp

/-- The row loop of the `PHOTOMETRIC_RGB` branch never throws. -/
theorem rgbLoop_not_thrown {α : Type} (tiff : TiffImage) (a : RGBAccessor α)
    (deref : List Nat → Nat → Option Value) (planarConfig offset w h : Nat)
    (s : RGBState α) (e : Failure) (s1 : RGBState α) :
    rgbLoop tiff a deref planarConfig offset w h s ≠ .thrown e s1 := by
  unfold rgbLoop
  refine forLoop_not_thrown h _ (fun y s2 e2 s3 => ?_) s e s1
  unfold rgbRow
  refine forLoop_not_thrown w _ (fun x s4 e4 s5 => ?_) _ e2 s3
  cases hc : rgbDeref deref planarConfig offset s4.bufs x <;> simp

/-- If a result mapped over its state is a throw, the result is that throw. -/
theorem Result.map_thrown {σ τ : Type} (g : σ → τ) (r : Result σ) (e : Failure) (t : τ)
    (h : r.map g = .thrown e t) : ∃ s, r = .thrown e s := by
  cases r with
  | ok s => simp [Result.map] at h
  | thrown e2 s => simp only [Result.map, Result.thrown.injEq] at h; exact ⟨s, by rw [h.1]⟩
  | undefined => simp [Result.map] at h

/-- A run of `tiffToScalarImage` on a non-null handle that does not throw
"undefined pixeltype (SAMPLEFORMAT_VOID)." unless the value read for the
SampleFormat tag is `SAMPLEFORMAT_VOID`. -/
theorem tiffToScalarImage_not_void {α : Type} (u : Indeterminate) (tiff : TiffImage)
    (a : Accessor α) (d d1 : Dest α)
    (hfmt : TIFFGetField tiff .SAMPLEFORMAT 1 ≠ SAMPLEFORMAT_VOID) :
    tiffToScalarImage u (some tiff) a d ≠ .thrown .undefinedPixeltype d1 := by
  intro hrun
  unfold tiffToScalarImage at hrun
  simp only [] at hrun
  by_cases h1 : TIFFGetField tiff .PHOTOMETRIC u.photometric = PHOTOMETRIC_MINISWHITE ∨
      TIFFGetField tiff .PHOTOMETRIC u.photometric = PHOTOMETRIC_MINISBLACK
  · by_cases h2 : TIFFGetField tiff .SAMPLESPERPIXEL u.samplesPerPixel = 1
    · rw [if_neg (fun hn => hn h1), if_neg (fun hn => hn h2), if_neg (fun hn => hn hfmt)] at hrun
      obtain ⟨s, hs⟩ := Result.map_thrown _ _ _ _ hrun
      split at hs
      · exact scalarLoop_not_thrown _ _ _ _ _ _ _ _ hs
      · rename_i e he
        rcases scalarSwitch_error _ _ _ _ _ _ _ e he with h | h <;> rw [h] at hs <;> cases hs
    · rw [if_neg (fun hn => hn h1), if_pos h2] at hrun
      cases hrun
  · rw [if_pos h1] at hrun
    cases hrun

/-- A run of `tiffToRGBImage` on a non-null handle does not throw "undefined
pixeltype (SAMPLEFORMAT_VOID)." unless the value read for the SampleFormat
tag is `SAMPLEFORMAT_VOID`. -/
theorem tiffToRGBImage_not_void {α : Type} (u : Indeterminate) (tiff : TiffImage)
    (a : RGBAccessor α) (d d1 : Dest α)
    (hfmt : TIFFGetField tiff .SAMPLEFORMAT 1 ≠ SAMPLEFORMAT_VOID) :
    tiffToRGBImage u (some tiff) a d ≠ .thrown .undefinedPixeltype d1 := by
  intro hrun
  unfold tiffToRGBImage at hrun
  simp only [] at hrun
  by_cases h1 : TIFFGetField tiff .PHOTOMETRIC u.photometric = PHOTOMETRIC_RGB ∨
      TIFFGetField tiff .PHOTOMETRIC u.photometric = PHOTOMETRIC_PALETTE
  · rw [if_neg (fun hn => hn h1), if_neg (fun hn => hn hfmt)] at hrun
    by_cases h3 : TIFFGetField tiff .PHOTOMETRIC u.photometric = PHOTOMETRIC_PALETTE
    · rw [if_pos h3] at hrun
      obtain ⟨s, hs⟩ := Result.map_thrown _ _ _ _ hrun
      split at hs
      · cases hs
      · exact paletteLoop_not_thrown _ _ _ _ _ _ hs
    · have h4 : TIFFGetField tiff .PHOTOMETRIC u.photometric = PHOTOMETRIC_RGB :=
        h1.resolve_right h3
      rw [if_neg h3, if_pos h4] at hrun
      by_cases h5 : TIFFGetField tiff .SAMPLESPERPIXEL u.samplesPerPixel = 3
      · rw [if_neg (fun hn => hn h5)] at hrun
        obtain ⟨s, hs⟩ := Result.map_thrown _ _ _ _ hrun
        split at hs
        · exact rgbLoop_not_thrown _ _ _ _ _ _ _ _ _ _ hs
        · rename_i e he
          rcases rgbSwitch_error _ _ e he with h | h <;> rw [h] at hs <;> cases hs
      · rw [if_pos h5] at hrun
        cases hrun
  · rw [if_pos h1] at hrun
    cases hrun

/-- C26: when the SampleFormat tag is absent, `TIFFGetField` leaves the
variable at its initial value 1 (`SAMPLEFORMAT_UINT`). If the codec reports
the same scanline size with and without the tag, `tiffToScalarImage` and
`tiffToRGBImage` have on such a handle exactly the outcome they have on the
same handle with SampleFormat=UnsignedInt, and neither throws "undefined
pixeltype (SAMPLEFORMAT_VOID).". -/
theorem absent_format_is_uint {α β : Type} (u : Indeterminate) (tiff : TiffImage)
    (a : Accessor α) (d : Dest α) (b : RGBAccessor β) (e : Dest β)
    (habs : tiff.tags .SAMPLEFORMAT = none)
    (hsize : TIFFScanlineSize (TIFFSetField tiff .SAMPLEFORMAT SAMPLEFORMAT_UINT)
      = TIFFScanlineSize tiff) :
    tiffToScalarImage u (some tiff) a d
      = tiffToScalarImage u (some (TIFFSetField tiff .SAMPLEFORMAT SAMPLEFORMAT_UINT)) a d ∧
    tiffToRGBImage u (some tiff) b e
      = tiffToRGBImage u (some (TIFFSetField tiff .SAMPLEFORMAT SAMPLEFORMAT_UINT)) b e ∧
    (∀ d1, tiffToScalarImage u (some tiff) a d ≠ .thrown .undefinedPixeltype d1) ∧
    (∀ e1, tiffToRGBImage u (some tiff) b e ≠ .thrown .undefinedPixeltype e1) := by
  have hF : TIFFGetField tiff .SAMPLEFORMAT 1 = SAMPLEFORMAT_UINT := by
    simp [TIFFGetField, habs]
  have hF1 : TIFFGetField (TIFFSetField tiff .SAMPLEFORMAT SAMPLEFORMAT_UINT) .SAMPLEFORMAT 1
      = TIFFGetField tiff .SAMPLEFORMAT 1 := by
    rw [hF, TIFFGetField_set_same]
  have hO : ∀ t z, t ≠ Tag.SAMPLEFORMAT →
      TIFFGetField (TIFFSetField tiff .SAMPLEFORMAT SAMPLEFORMAT_UINT) t z
        = TIFFGetField tiff t z :=
    fun t z ht => TIFFGetField_set_other tiff _ t _ z ht
  have g1 := hO .BITSPERSAMPLE u.bitsPerSample (by decide)
  have g2 := hO .SAMPLESPERPIXEL u.samplesPerPixel (by decide)
  have g3 := hO .FILLORDER u.fillorder (by decide)
  have g4 := hO .PHOTOMETRIC u.photometric (by decide)
  have g5 := hO .PLANARCONFIG u.planarConfig (by decide)
  have g6 := hO .IMAGEWIDTH u.w (by decide)
  have g7 := hO .IMAGELENGTH u.h (by decide)
  have hloop : ∀ (sample : List Nat → Nat → Option Value) (w h : Nat) (s : ScalarState α),
      scalarLoop (TIFFSetField tiff .SAMPLEFORMAT SAMPLEFORMAT_UINT) a sample w h s
        = scalarLoop tiff a sample w h s := fun _ _ _ _ => rfl
  have hrgb : ∀ (deref : List Nat → Nat → Option Value) (p o w h : Nat) (s : RGBState β),
      rgbLoop (TIFFSetField tiff .SAMPLEFORMAT SAMPLEFORMAT_UINT) b deref p o w h s
        = rgbLoop tiff b deref p o w h s := fun _ _ _ _ _ _ => rfl
  have hexp : ∀ r, TIFFReadRGBAImage (TIFFSetField tiff .SAMPLEFORMAT SAMPLEFORMAT_UINT) r
      = TIFFReadRGBAImage tiff r := fun _ => rfl
  refine ⟨?_, ?_, fun d1 => tiffToScalarImage_not_void u tiff a d d1 (by rw [hF]; decide),
    fun e1 => tiffToRGBImage_not_void u tiff b e e1 (by rw [hF]; decide)⟩
  · unfold tiffToScalarImage
    simp only [hF1, g1, g2, g3, g4, g6, g7, hsize, hloop]
  · unfold tiffToRGBImage
    simp only [hF1, g1, g2, g4, g5, g6, g7, hsize, hrgb, hexp]

/-- C26 at a concrete input: a 1 by 1 grayscale file without a SampleFormat
tag. -/
theorem absent_format_is_uint_witness :
    tiffToScalarImage zeroIndeterminate
        (some (exampleHandle (exampleTagsNoFormat 1 1 8 1 PHOTOMETRIC_MINISBLACK
          PLANARCONFIG_CONTIG FILLORDER_MSB2LSB) 1 (fun _ => 60)))
        StandardValueAccessor blankImage
      = tiffToScalarImage zeroIndeterminate
        (some (TIFFSetField (exampleHandle (exampleTagsNoFormat 1 1 8 1 PHOTOMETRIC_MINISBLACK
          PLANARCONFIG_CONTIG FILLORDER_MSB2LSB) 1 (fun _ => 60))
          .SAMPLEFORMAT SAMPLEFORMAT_UINT))
        StandardValueAccessor blankImage :=
  (absent_format_is_uint zeroIndeterminate
    (exampleHandle (exampleTagsNoFormat 1 1 8 1 PHOTOMETRIC_MINISBLACK
      PLANARCONFIG_CONTIG FILLORDER_MSB2LSB) 1 (fun _ => 60))
    StandardValueAccessor blankImage StandardRGBAccessor blankRGBImage rfl rfl).1

/-- A byte read `((uint8 *)buf)[x]` inside the buffer yields the byte at
position `x`. -/
theorem readLE_one (buf : List Nat) (x : Nat) (hx : x < buf.length) :
    readLE 1 buf x = some (buf.getD x 0) := by
  have h := readLE_map_range 1 buf.length x (fun i => buf.getD i 0) (by omega)
  rw [map_range_getD, elemOf_one] at h
  exact h

/-- Byte `x` of a scanline that an encoder filled through `uint8 *`. -/
theorem getD_encodedRow_one (u : Indeterminate) (bufsize w x : Nat) (c : Nat → Nat)
    (hx : x < w) (hw : w ≤ bufsize) :
    (encodedRow u bufsize 1 w c).getD x 0 = c x % 256 := by
  have hlen := (encodedRow_inv u bufsize 1 w c (by omega)).1
  have h1 := readLE_one (encodedRow u bufsize 1 w c) x (by omega)
  have h2 : readLE 1 (encodedRow u bufsize 1 w c) x = some (c x % 256 ^ 1) :=
    readLE_encodeRow 1 c w x _ hx
  rw [h1] at h2
  simpa using h2

/-- The pattern that `p[x] = a(xs)` stores through `uint8 *` for a pixel
holding `255 - v` or `v`, for a byte `v`. -/
theorem toUnsigned_polarity (p v : Nat) (hv : v < 256) :
    toUnsigned 8 (Value.toInt (.int (if p = PHOTOMETRIC_MINISWHITE then 255 - (v : Int)
      else (v : Int)))) = if p = PHOTOMETRIC_MINISWHITE then 255 - v else v := by
  simp only [Value.toInt, toUnsigned]
  split_ifs <;> omega

/-- C24: encode after decode on 8-bit unsigned single-band files. Take a
readable `w` by `h` file with SampleFormat=UnsignedInt, BitsPerSample=8,
SamplesPerPixel=1 and Photometric `p` MinIsWhite or MinIsBlack, whose
scanline `y` holds the bytes `row y`. Decoding it with `tiffToScalarImage`
into an `unsigned char` image and encoding that image with
`createScalarTiffImage` on a handle `out` whose writes succeed both return
normally; the written file is tagged Photometric=MinIsBlack and its
scanline `y` holds at column `x` the byte `row y x` when `p` is MinIsBlack
and `255 - row y x` when `p` is MinIsWhite. Decoding the written file gives
the same image as decoding the original file. -/
theorem scalar_reencode_uint8 (u u1 u2 : Indeterminate) (tiff out : TiffImage)
    (w h p : Nat) (row : Nat → Nat → Nat) (d : Dest Value) (trace : List Event)
    (hfmt : TIFFGetField tiff .SAMPLEFORMAT 1 = SAMPLEFORMAT_UINT)
    (hbits : tiff.tags .BITSPERSAMPLE = some 8)
    (hspp : tiff.tags .SAMPLESPERPIXEL = some 1)
    (hphot : tiff.tags .PHOTOMETRIC = some p)
    (hp : p = PHOTOMETRIC_MINISWHITE ∨ p = PHOTOMETRIC_MINISBLACK)
    (hw : tiff.tags .IMAGEWIDTH = some w)
    (hh : tiff.tags .IMAGELENGTH = some h)
    (hsize : w ≤ TIFFScanlineSize tiff)
    (hrows : ∀ y, y < h → tiff.rows y 0 = some (row y))
    (hbyte : ∀ x y, x < w → y < h → row y x < 256)
    (hwrite : ∀ y, y < h → out.writeFails y = false)
    (hout : w ≤ TIFFScanlineSize
      (writtenTags out w h 8 1 SAMPLEFORMAT_UINT PHOTOMETRIC_MINISBLACK)) :
    ∃ d1, tiffToScalarImage u (some tiff) StandardValueAccessor d = .ok d1 ∧
      ∃ s, createScalarTiffImage u1 w h (ucharImage d1.image) (some out) trace = .ok s ∧
        s.tiff.tags .PHOTOMETRIC = some PHOTOMETRIC_MINISBLACK ∧
        (∀ x y, x < w → y < h → ∃ r, s.tiff.rows y 0 = some r ∧
          r x = if p = PHOTOMETRIC_MINISWHITE then 255 - row y x else row y x) ∧
        ∃ d2, tiffToScalarImage u2 (some s.tiff) StandardValueAccessor d = .ok d2 ∧
          d2.image = d1.image := by
  have e1 := TIFFGetField_of_tag tiff _ _ u.bitsPerSample hbits
  have e2 := TIFFGetField_of_tag tiff _ _ u.samplesPerPixel hspp
  have e3 := TIFFGetField_of_tag tiff _ _ u.photometric hphot
  -- the first decoding
  obtain ⟨d1, hrun1, hpix1, hout1⟩ := scalar_pixel u tiff StandardValueAccessor d
    (sampleByte (if p = PHOTOMETRIC_MINISWHITE then 255 else 0)
      (if p = PHOTOMETRIC_MINISWHITE then -1 else 1)) w h
    (by rw [e3]; exact hp) e2 (by rw [hfmt]; decide)
    (by rw [hfmt, e1, e3]; rfl)
    (TIFFGetField_of_tag tiff _ _ u.w hw) (TIFFGetField_of_tag tiff _ _ u.h hh)
    (by
      intro buf hlen x1 hx1
      simp only [sampleByte, Option.isSome_map']
      exact readLE_isSome 1 buf x1 (by omega))
  have hval : ∀ x y, x < w → y < h → d1.image x y =
      .int (if p = PHOTOMETRIC_MINISWHITE then 255 - (row y x : Int) else (row y x : Int)) := by
    intro x y hx hy
    rw [hpix1 x y (row y) hx hy (hrows y hy)]
    simp only [sampleByte, readLE_map_range 1 (TIFFScanlineSize tiff) x (row y) (by omega),
      elemOf_one, Option.map_some', Option.getD_some, StandardValueAccessor]
    rcases hp with hp | hp
    · subst hp; simp; ring_nf
    · subst hp; simp
  refine ⟨d1, hrun1, ?_⟩
  -- the encoding
  have hcell : ∀ x y, x < w → y < h → toUnsigned 8 ((d1.image x y).toInt)
      = if p = PHOTOMETRIC_MINISWHITE then 255 - row y x else row y x := by
    intro x y hx hy
    rw [hval x y hx hy]
    exact toUnsigned_polarity p (row y x) (hbyte x y hx hy)
  have hout1k : 1 * w ≤ TIFFScanlineSize
      (writtenTags out w h 8 1 SAMPLEFORMAT_UINT PHOTOMETRIC_MINISBLACK) := by omega
  have henc := createScalarTiffImageOf_ok 8 SAMPLEFORMAT_UINT 1
    (fun x y => toUnsigned 8 ((d1.image x y).toInt)) u1 w h out trace hout1k
  obtain ⟨s, hs, -, -, d2, hrun2, hpix2⟩ := decode_encoded_scalar 8 SAMPLEFORMAT_UINT 1
    (fun x y => toUnsigned 8 ((d1.image x y).toInt)) (sampleByte 0 1)
    (fun (b : Nat) => Value.int (0 + 1 * (b : Int))) u1 u2 w h out trace
    StandardValueAccessor d (by decide) (fun _ => rfl) (fun _ _ => rfl) hwrite hout1k
  have hseq := Result.ok.inj (henc.symm.trans hs)
  refine ⟨s, hs, ?_, ?_, d2, hrun2, ?_⟩
  · rw [← hseq]
    simp only [(writtenHandle_fields _ _ h).1]
    exact (writtenTags_get out w h 8 1 SAMPLEFORMAT_UINT PHOTOMETRIC_MINISBLACK).2.2.2.2.2.2
  · intro x y hx hy
    refine ⟨fun i => (encodedRow u1
      (TIFFScanlineSize (writtenTags out w h 8 1 SAMPLEFORMAT_UINT PHOTOMETRIC_MINISBLACK))
      1 w (fun x => toUnsigned 8 ((d1.image x y).toInt))).getD i 0, ?_, ?_⟩
    · rw [← hseq]
      exact writtenHandle_rows _ _ h y hy
        (by rw [(writtenTags_fields out w h 8 1 SAMPLEFORMAT_UINT PHOTOMETRIC_MINISBLACK).2]
            exact hwrite)
    · simp only []
      rw [getD_encodedRow_one u1 _ w x _ hx hout, hcell x y hx hy]
      have := hbyte x y hx hy
      split_ifs <;> omega
  · funext x y
    rw [hpix2 x y]
    by_cases hxy : x < w ∧ y < h
    · rw [if_pos hxy]
      simp only [StandardValueAccessor]
      rw [hcell x y hxy.1 hxy.2, hval x y hxy.1 hxy.2]
      have := hbyte x y hxy.1 hxy.2
      split_ifs
      · congr 1; omega
      · congr 1; omega
    · rw [if_neg hxy, hout1 x y hxy]

/-- C24 at a concrete input: a 1 by 1 MinIsWhite file whose sample is 60,
re-encoded on a fresh handle. -/
theorem scalar_reencode_uint8_witness :
    ∃ d1, tiffToScalarImage zeroIndeterminate
        (some (exampleHandle (exampleTags 1 1 8 1 SAMPLEFORMAT_UINT PHOTOMETRIC_MINISWHITE
          PLANARCONFIG_CONTIG FILLORDER_MSB2LSB) 1 (fun _ => 60)))
        StandardValueAccessor blankImage = .ok d1 ∧
      ∃ s, createScalarTiffImage zeroIndeterminate 1 1 (ucharImage d1.image)
          (some freshHandle) [] = .ok s ∧
        s.tiff.tags .PHOTOMETRIC = some PHOTOMETRIC_MINISBLACK ∧
        (∀ x y, x < 1 → y < 1 → ∃ r, s.tiff.rows y 0 = some r ∧
          r x = if PHOTOMETRIC_MINISWHITE = PHOTOMETRIC_MINISWHITE then 255 - 60 else 60) ∧
        ∃ d2, tiffToScalarImage zeroIndeterminate (some s.tiff) StandardValueAccessor
            blankImage = .ok d2 ∧
          d2.image = d1.image :=
  scalar_reencode_uint8 zeroIndeterminate zeroIndeterminate zeroIndeterminate
    (exampleHandle (exampleTags 1 1 8 1 SAMPLEFORMAT_UINT PHOTOMETRIC_MINISWHITE
      PLANARCONFIG_CONTIG FILLORDER_MSB2LSB) 1 (fun _ => 60))
    freshHandle 1 1 PHOTOMETRIC_MINISWHITE (fun _ _ => 60) blankImage []
    rfl rfl rfl rfl (Or.inl rfl) rfl rfl (by decide) (fun _ _ => rfl)
    (fun _ _ _ _ => (by decide : (60 : Nat) < 256)) (fun _ _ => rfl) (by decide)

/-! ## Resource safety -/

theorem heapEvents_append (l1 l2 : List Event) :
    heapEvents (l1 ++ l2) = heapEvents l1 ++ heapEvents l2 := by
  simp [heapEvents]

/-- Only allocations and releases change the set of live buffers. -/
theorem liveAfter_heapEvents (l : List Event) (live : List Buffer) :
    liveAfter live (heapEvents l) = liveAfter live l := by
  induction l generalizing live with
  | nil => rfl
  | cons e t ih =>
    cases e <;> simp [heapEvents, Event.isHeap, liveAfter] <;> exact ih _

theorem Extends.refl (t0 : List Event) : Extends t0 [] t0 :=
  ⟨[], by simp, rfl⟩

/-- Appending calls with allocations and releases `H2`. -/
theorem Extends.append {t0 H t : List Event} (h : Extends t0 H t) (l2 H2 : List Event)
    (h2 : heapEvents l2 = H2) : Extends t0 (H ++ H2) (t ++ l2) := by
  obtain ⟨l, hl, hH⟩ := h
  exact ⟨l ++ l2, by rw [hl, List.append_assoc], by rw [heapEvents_append, hH, h2]⟩

/-- Appending calls that neither allocate nor release. -/
theorem Extends.quiet {t0 H t : List Event} (h : Extends t0 H t) (l2 : List Event)
    (h2 : heapEvents l2 = []) : Extends t0 H (t ++ l2) := by
  have := h.append l2 [] h2
  rwa [List.append_nil] at this

theorem Result.All.imp {σ : Type} {P Q : σ → Prop} (h : ∀ s, P s → Q s) (r : Result σ)
    (hr : r.All P) : r.All Q := by
  cases r with
  | ok s => exact h s hr
  | thrown e s => exact h s hr
  | undefined => trivial

theorem Result.all_map {σ τ : Type} (P : τ → Prop) (g : σ → τ) (r : Result σ)
    (hr : r.All fun s => P (g s)) : (r.map g).All P := by
  cases r with
  | ok s => exact hr
  | thrown e s => exact hr
  | undefined => trivial

theorem Result.all_bind {σ : Type} (P : σ → Prop) (r : Result σ) (f : σ → Result σ)
    (hr : r.All P) (hf : ∀ s, P s → (f s).All P) : (r.bind f).All P := by
  cases r with
  | ok s => exact hf s hr
  | thrown e s => exact hr
  | undefined => trivial

/-- A property that every iteration preserves, whether it returns or throws,
holds of the state in which the loop returns or throws. -/
theorem forLoop_all {σ : Type} (P : σ → Prop) (n : Nat) (body : Nat → σ → Result σ)
    (hb : ∀ i s, P s → (body i s).All P) (s : σ) (hs : P s) :
    (forLoop n body s).All P := by
  induction n with
  | zero => exact hs
  | succ n ih =>
    rw [forLoop]
    exact Result.all_bind P _ _ ih (hb n)

/-- An accessor call neither allocates nor releases, whether it throws or
not. -/
theorem tryPut_all {α : Type} (t0 H : List Event) (d : Dest α) (x y : Nat)
    (f : α → Option α) (e : Event) (he : e.isHeap = false) (hd : Extends t0 H d.trace) :
    (d.tryPut x y f e).All fun d1 => Extends t0 H d1.trace := by
  unfold Dest.tryPut
  cases f (d.image x y) with
  | none => exact hd.quiet [e] (by simp [heapEvents, he])
  | some p => exact hd.quiet [e] (by simp [heapEvents, he])

theorem tryPutRGB_all {α : Type} (t0 H : List Event) (d : Dest α)
    (a : ThrowingRGBAccessor α) (x y : Nat) (p : RGBPixel) (hd : Extends t0 H d.trace) :
    (d.tryPutRGB a x y p).All fun d1 => Extends t0 H d1.trace := by
  unfold Dest.tryPutRGB
  refine Result.all_bind _ _ _ (Result.all_bind _ _ _ (tryPut_all t0 H d x y _ _ rfl hd) ?_) ?_
  · intro d1 h1
    exact tryPut_all t0 H d1 x y _ _ rfl h1
  · intro d1 h1
    exact tryPut_all t0 H d1 x y _ _ rfl h1

theorem scalarLoopT_all {α : Type} (t0 H : List Event) (tiff : TiffImage)
    (a : ThrowingAccessor α) (sample : List Nat → Nat → Option Value) (w h : Nat)
    (s : ScalarState α) (hs : Extends t0 H s.dest.trace) :
    (scalarLoopT tiff a sample w h s).All fun s1 => Extends t0 H s1.dest.trace := by
  unfold scalarLoopT
  refine forLoop_all _ h _ (fun y s2 h2 => ?_) s hs
  unfold scalarRowT
  refine forLoop_all _ w _ (fun x s3 h3 => ?_) _ (h2.quiet _ rfl)
  cases sample s3.buf x with
  | none => trivial
  | some v =>
    exact Result.all_map _ _ _ (tryPut_all t0 H s3.dest x y _ _ rfl h3)

theorem paletteLoopT_all {α : Type} (t0 H : List Event) (a : ThrowingRGBAccessor α)
    (w h : Nat) (s : PaletteState α) (hs : Extends t0 H s.dest.trace) :
    (paletteLoopT a w h s).All fun s1 => Extends t0 H s1.dest.trace := by
  unfold paletteLoopT
  refine forLoop_all _ h _ (fun y s2 h2 => ?_) s hs
  unfold paletteRowT
  refine forLoop_all _ w _ (fun x s3 h3 => ?_) _ h2
  cases s3.raster[x + y * w]? with
  | none => trivial
  | some p =>
    exact Result.all_map _ _ _ (tryPutRGB_all t0 H s3.dest a x y _ h3)

theorem rgbLoopT_all {α : Type} (t0 H : List Event) (tiff : TiffImage)
    (a : ThrowingRGBAccessor α) (deref : List Nat → Nat → Option Value)
    (planarConfig offset w h : Nat) (s : RGBState α) (hs : Extends t0 H s.dest.trace) :
    (rgbLoopT tiff a deref planarConfig offset w h s).All
      fun s1 => Extends t0 H s1.dest.trace := by
  unfold rgbLoopT
  refine forLoop_all _ h _ (fun y s2 h2 => ?_) s hs
  unfold rgbRowT
  have hq : heapEvents (rgbReadEvents planarConfig y) = [] := by
    unfold rgbReadEvents
    split_ifs <;> rfl
  refine forLoop_all _ w _ (fun x s3 h3 => ?_) _ (h2.quiet _ hq)
  cases rgbDeref deref planarConfig offset s3.bufs x with
  | none => trivial
  | some p =>
    exact Result.all_map _ _ _ (tryPutRGB_all t0 H s3.dest a x y _ h3)

/-- Calls that allocate the buffers `bs` and release them leave no buffer
live. -/
theorem balanced_of_extends (t0 t : List Event) (bs : List (Buffer × Nat))
    (hn : (bs.map Prod.fst).Nodup)
    (hlive : liveAfter [] ((bs.map fun p => Event.alloc p.1 p.2) ++
      (bs.map fun p => Event.release p.1)) = [])
    (h : Extends t0 ((bs.map fun p => Event.alloc p.1 p.2) ++
      (bs.map fun p => Event.release p.1)) t) :
    Balanced t0 t := by
  obtain ⟨l, hl, hH⟩ := h
  exact ⟨l, bs, hl, ⟨hn, hH⟩, by rw [← liveAfter_heapEvents, hH]; exact hlive⟩

/-- Calls without allocation and release are balanced. -/
theorem balanced_quiet (t0 l : List Event) (hl : heapEvents l = []) :
    Balanced t0 (t0 ++ l) :=
  balanced_of_extends t0 _ [] List.nodup_nil rfl ⟨l, rfl, hl⟩

/-- Resource safety of `tiffToScalarImage` with an accessor that may throw. -/
theorem tiffToScalarImageT_balanced {α : Type} (u : Indeterminate) (tiff : Option TiffImage)
    (a : ThrowingAccessor α) (d : Dest α) :
    (tiffToScalarImageT u tiff a d).All fun d1 => Balanced d.trace d1.trace := by
  cases tiff with
  | none => exact ⟨[], [], by simp, ⟨List.nodup_nil, rfl⟩, rfl⟩
  | some tiff =>
    unfold tiffToScalarImageT
    simp only []
    by_cases h1 : TIFFGetField tiff .PHOTOMETRIC u.photometric = PHOTOMETRIC_MINISWHITE ∨
        TIFFGetField tiff .PHOTOMETRIC u.photometric = PHOTOMETRIC_MINISBLACK
    · by_cases h2 : TIFFGetField tiff .SAMPLESPERPIXEL u.samplesPerPixel = 1
      · by_cases h3 : TIFFGetField tiff .SAMPLEFORMAT 1 = SAMPLEFORMAT_VOID
        · rw [if_neg (fun hn => hn h1), if_neg (fun hn => hn h2), if_pos (fun hn => hn h3)]
          exact balanced_quiet d.trace _ rfl
        · rw [if_neg (fun hn => hn h1), if_neg (fun hn => hn h2), if_neg (fun hn => hn h3)]
          refine Result.all_map _ _ _ ?_
          have hstart : Extends d.trace [.alloc .buf (TIFFScanlineSize tiff)]
              ((d.log [.getField .SAMPLEFORMAT, .getField .BITSPERSAMPLE,
                .getField .SAMPLESPERPIXEL, .getField .FILLORDER, .getField .PHOTOMETRIC,
                .getField .IMAGEWIDTH, .getField .IMAGELENGTH]).log
                  [.scanlineSize, .alloc .buf (TIFFScanlineSize tiff)]).trace :=
            ⟨scalarTagReads ++ [.scanlineSize, .alloc .buf (TIFFScanlineSize tiff)],
              by simp only [Dest.log, List.append_assoc, scalarTagReads], by rfl⟩
          have hend : ∀ s : ScalarState α,
              Extends d.trace [.alloc .buf (TIFFScanlineSize tiff)] s.dest.trace →
              Balanced d.trace (s.dest.log [.release .buf]).trace := fun s hs =>
            balanced_of_extends d.trace _ [(.buf, TIFFScanlineSize tiff)] (by simp) rfl
              (hs.append [.release .buf] [.release .buf] rfl)
          split
          · exact Result.All.imp hend _ (scalarLoopT_all d.trace _ tiff a _ _ _ _ hstart)
          · exact hend _ hstart
      · rw [if_neg (fun hn => hn h1), if_pos h2]
        exact balanced_quiet d.trace _ rfl
    · rw [if_pos h1]
      exact balanced_quiet d.trace _ rfl

/-- Resource safety of `tiffToRGBImage` with an accessor that may throw. -/
theorem tiffToRGBImageT_balanced {α : Type} (u : Indeterminate) (tiff : Option TiffImage)
    (a : ThrowingRGBAccessor α) (d : Dest α) :
    (tiffToRGBImageT u tiff a d).All fun d1 => Balanced d.trace d1.trace := by
  cases tiff with
  | none => exact ⟨[], [], by simp, ⟨List.nodup_nil, rfl⟩, rfl⟩
  | some tiff =>
    unfold tiffToRGBImageT
    simp only []
    by_cases h1 : TIFFGetField tiff .PHOTOMETRIC u.photometric = PHOTOMETRIC_RGB ∨
        TIFFGetField tiff .PHOTOMETRIC u.photometric = PHOTOMETRIC_PALETTE
    · by_cases h2 : TIFFGetField tiff .SAMPLEFORMAT 1 = SAMPLEFORMAT_VOID
      · rw [if_neg (fun hn => hn h1), if_pos (fun hn => hn h2)]
        exact balanced_quiet d.trace _ rfl
      · rw [if_neg (fun hn => hn h1), if_neg (fun hn => hn h2)]
        by_cases h3 : TIFFGetField tiff .PHOTOMETRIC u.photometric = PHOTOMETRIC_PALETTE
        · rw [if_pos h3]
          refine Result.all_map _ _ _ ?_
          have hstart : Extends d.trace
              [.alloc .raster (TIFFGetField tiff .IMAGEWIDTH u.w *
                TIFFGetField tiff .IMAGELENGTH u.h)]
              ((d.log [.getField .SAMPLEFORMAT, .getField .BITSPERSAMPLE,
                .getField .SAMPLESPERPIXEL, .getField .PHOTOMETRIC, .getField .PLANARCONFIG,
                .getField .IMAGEWIDTH, .getField .IMAGELENGTH]).log
                  [.alloc .raster (TIFFGetField tiff .IMAGEWIDTH u.w *
                    TIFFGetField tiff .IMAGELENGTH u.h),
                   .readRGBAImage (TIFFGetField tiff .IMAGEWIDTH u.w)
                    (TIFFGetField tiff .IMAGELENGTH u.h)]).trace :=
            ⟨rgbTagReads ++ [.alloc .raster (TIFFGetField tiff .IMAGEWIDTH u.w *
                TIFFGetField tiff .IMAGELENGTH u.h),
               .readRGBAImage (TIFFGetField tiff .IMAGEWIDTH u.w)
                (TIFFGetField tiff .IMAGELENGTH u.h)],
              by simp only [Dest.log, List.append_assoc, rgbTagReads], by rfl⟩
          have hend : ∀ s : PaletteState α,
              Extends d.trace
                [.alloc .raster (TIFFGetField tiff .IMAGEWIDTH u.w *
                  TIFFGetField tiff .IMAGELENGTH u.h)] s.dest.trace →
              Balanced d.trace (s.dest.log [.release .raster]).trace := fun s hs =>
            balanced_of_extends d.trace _
              [(.raster, TIFFGetField tiff .IMAGEWIDTH u.w *
                TIFFGetField tiff .IMAGELENGTH u.h)] (by simp) rfl
              (hs.append [.release .raster] [.release .raster] rfl)
          split
          · exact hend _ hstart
          · exact Result.All.imp hend _ (paletteLoopT_all d.trace _ a _ _ _ hstart)
        · have h4 : TIFFGetField tiff .PHOTOMETRIC u.photometric = PHOTOMETRIC_RGB :=
            h1.resolve_right h3
          rw [if_neg h3, if_pos h4]
          by_cases h5 : TIFFGetField tiff .SAMPLESPERPIXEL u.samplesPerPixel = 3
          · rw [if_neg (fun hn => hn h5)]
            refine Result.all_map _ _ _ ?_
            have hstart : Extends d.trace
                [.alloc .bufr (TIFFScanlineSize tiff), .alloc .bufg (TIFFScanlineSize tiff),
                  .alloc .bufb (TIFFScanlineSize tiff)]
                ((d.log [.getField .SAMPLEFORMAT, .getField .BITSPERSAMPLE,
                  .getField .SAMPLESPERPIXEL, .getField .PHOTOMETRIC, .getField .PLANARCONFIG,
                  .getField .IMAGEWIDTH, .getField .IMAGELENGTH]).log
                    [.scanlineSize, .alloc .bufr (TIFFScanlineSize tiff),
                      .alloc .bufg (TIFFScanlineSize tiff),
                      .alloc .bufb (TIFFScanlineSize tiff)]).trace :=
              ⟨rgbTagReads ++ [.scanlineSize, .alloc .bufr (TIFFScanlineSize tiff),
                  .alloc .bufg (TIFFScanlineSize tiff), .alloc .bufb (TIFFScanlineSize tiff)],
                by simp only [Dest.log, List.append_assoc, rgbTagReads], by rfl⟩
            have hend : ∀ s : RGBState α,
                Extends d.trace
                  [.alloc .bufr (TIFFScanlineSize tiff), .alloc .bufg (TIFFScanlineSize tiff),
                    .alloc .bufb (TIFFScanlineSize tiff)] s.dest.trace →
                Balanced d.trace
                  (s.dest.log [.release .bufr, .release .bufg, .release .bufb]).trace :=
              fun s hs =>
              balanced_of_extends d.trace _
                [(.bufr, TIFFScanlineSize tiff), (.bufg, TIFFScanlineSize tiff),
                  (.bufb, TIFFScanlineSize tiff)] (by simp) rfl
                (hs.append [.release .bufr, .release .bufg, .release .bufb]
                  [.release .bufr, .release .bufg, .release .bufb] rfl)
            split
            · exact Result.All.imp hend _
                (rgbLoopT_all d.trace _ tiff a _ _ _ _ _ _ hstart)
            · exact hend _ hstart
          · rw [if_pos h5]
            exact balanced_quiet d.trace _ rfl
    · rw [if_pos h1]
      exact balanced_quiet d.trace _ rfl

/-- Resource safety of the overloads of `createScalarTiffImage` with a
source accessor that may throw. -/
theorem createScalarTiffImageOfT_balanced (bits format k : Nat)
    (cell : Nat → Nat → Option Nat) (u : Indeterminate) (w h : Nat)
    (tiff : Option TiffImage) (trace : List Event) :
    (createScalarTiffImageOfT bits format k cell u w h tiff trace).All
      fun s => Balanced trace s.trace := by
  cases tiff with
  | none => trivial
  | some tiff =>
    unfold createScalarTiffImageOfT
    simp only []
    refine Result.all_map _ _ _ ?_
    have hend : ∀ s : EncodeState,
        Extends trace [.alloc .buf (TIFFScanlineSize
          (writtenTags tiff w h bits 1 format PHOTOMETRIC_MINISBLACK))] s.sink.trace →
        Balanced trace (s.sink.trace ++ [.release .buf]) := fun s hs =>
      balanced_of_extends trace _ [(.buf, TIFFScanlineSize
        (writtenTags tiff w h bits 1 format PHOTOMETRIC_MINISBLACK))] (by simp) rfl
        (hs.append [.release .buf] [.release .buf] rfl)
    refine Result.All.imp hend _ (forLoop_all _ h _ (fun y s2 h2 => ?_) _ ?_)
    · refine Result.all_bind _ _ _ (forLoop_all _ w _ (fun x s3 h3 => ?_) s2 h2) ?_
      · cases cell x y with
        | none => exact h3
        | some c =>
          cases hw : writeLE k s3.buf x c with
          | none => simp only [hw]; trivial
          | some buf => simp only [hw]; exact h3
      · intro s3 h3
        exact h3.quiet _ rfl
    · exact ⟨tagWrites w h bits 1 format PHOTOMETRIC_MINISBLACK ++
        [.scanlineSize, .alloc .buf (TIFFScanlineSize
          (writtenTags tiff w h bits 1 format PHOTOMETRIC_MINISBLACK))],
        by simp [Sink.setField, tagWrites, writtenTags], by rfl⟩

/-- Resource safety of the overloads of `createRGBTiffImage` with a source
accessor that may throw. -/
theorem createRGBTiffImageOfT_balanced (bits format k : Nat)
    (red green blue : Nat → Nat → Option Nat) (u : Indeterminate) (w h : Nat)
    (tiff : Option TiffImage) (trace : List Event) :
    (createRGBTiffImageOfT bits format k red green blue u w h tiff trace).All
      fun s => Balanced trace s.trace := by
  cases tiff with
  | none => trivial
  | some tiff =>
    unfold createRGBTiffImageOfT
    simp only []
    refine Result.all_map _ _ _ ?_
    have hend : ∀ s : EncodeState,
        Extends trace [.alloc .buf (TIFFScanlineSize
          (writtenTags tiff w h bits 3 format PHOTOMETRIC_RGB))] s.sink.trace →
        Balanced trace (s.sink.trace ++ [.release .buf]) := fun s hs =>
      balanced_of_extends trace _ [(.buf, TIFFScanlineSize
        (writtenTags tiff w h bits 3 format PHOTOMETRIC_RGB))] (by simp) rfl
        (hs.append [.release .buf] [.release .buf] rfl)
    refine Result.All.imp hend _ (forLoop_all _ h _ (fun y s2 h2 => ?_) _ ?_)
    · refine Result.all_bind _ _ _ (forLoop_all _ w _ (fun x s3 h3 => ?_) s2 h2) ?_
      · cases red x y with
        | none => exact h3
        | some r =>
          cases hr : writeLE k s3.buf (0 + x * 3) r with
          | none => simp only [hr]; trivial
          | some buf1 =>
            cases green x y with
            | none => simp only [hr]; exact h3
            | some g =>
              cases hg : writeLE k buf1 (1 + x * 3) g with
              | none => simp only [hr, hg]; trivial
              | some buf2 =>
                cases blue x y with
                | none => simp only [hr, hg]; exact h3
                | some b =>
                  cases hb : writeLE k buf2 (2 + x * 3) b with
                  | none => simp only [hr, hg, hb]; trivial
                  | some buf3 => simp only [hr, hg, hb]; exact h3
      · intro s3 h3
        exact h3.quiet _ rfl
    · exact ⟨tagWrites w h bits 3 format PHOTOMETRIC_RGB ++
        [.scanlineSize, .alloc .buf (TIFFScanlineSize
          (writtenTags tiff w h bits 3 format PHOTOMETRIC_RGB))],
        by simp [Sink.setField, tagWrites, writtenTags], by rfl⟩

/-- An accessor call that does not throw is the call of the accessor that
always returns. -/
theorem tryPut_total {α : Type} (d : Dest α) (x y : Nat) (g : α → α) (e : Event) :
    d.tryPut x y (fun p => some (g p)) e = .ok (d.put x y g e) := by
  simp only [Dest.tryPut, Dest.put, Result.ok.injEq, Dest.mk.injEq, and_true]
  funext x1 y1
  split_ifs with h
  · rw [h.1, h.2]
  · rfl

theorem tryPutRGB_total {α : Type} (d : Dest α) (a : RGBAccessor α) (x y : Nat)
    (p : RGBPixel) : d.tryPutRGB a.total x y p = .ok (d.putRGB a x y p) := by
  simp only [Dest.tryPutRGB, RGBAccessor.total, tryPut_total, Result.bind, Dest.putRGB]

/-- With an accessor that never throws, `tiffToScalarImageT` is
`tiffToScalarImage`. -/
theorem tiffToScalarImageT_total {α : Type} (u : Indeterminate) (tiff : Option TiffImage)
    (a : Accessor α) (d : Dest α) :
    tiffToScalarImageT u tiff a.total d = tiffToScalarImage u tiff a d := by
  have hrow : ∀ (sample : List Nat → Nat → Option Value) (w y : Nat),
      scalarRowT a.total sample w y = scalarRow a sample w y := by
    intro sample w y
    funext s
    unfold scalarRowT scalarRow
    congr 1
    funext x s1
    cases sample s1.buf x with
    | none => rfl
    | some v => simp only [Accessor.total, tryPut_total, Result.map]
  have hloop : ∀ (tiff : TiffImage) (sample : List Nat → Nat → Option Value) (w h : Nat),
      scalarLoopT tiff a.total sample w h = scalarLoop tiff a sample w h := by
    intro tiff sample w h
    funext s
    unfold scalarLoopT scalarLoop
    simp only [hrow]
  cases tiff with
  | none => rfl
  | some tiff =>
    unfold tiffToScalarImageT tiffToScalarImage
    simp only [hloop]

/-- With an accessor that never throws, `tiffToRGBImageT` is
`tiffToRGBImage`. -/
theorem tiffToRGBImageT_total {α : Type} (u : Indeterminate) (tiff : Option TiffImage)
    (a : RGBAccessor α) (d : Dest α) :
    tiffToRGBImageT u tiff a.total d = tiffToRGBImage u tiff a d := by
  have hprow : ∀ (w y : Nat), paletteRowT a.total w y = paletteRow a w y := by
    intro w y
    funext s
    unfold paletteRowT paletteRow
    congr 1
    funext x s1
    cases s1.raster[x + y * w]? with
    | none => rfl
    | some p => simp only [tryPutRGB_total, Result.map]
  have hploop : ∀ (w h : Nat), paletteLoopT a.total w h = paletteLoop a w h := by
    intro w h
    funext s
    unfold paletteLoopT paletteLoop
    simp only [hprow]
  have hrow : ∀ (deref : List Nat → Nat → Option Value) (p o w y : Nat),
      rgbRowT a.total deref p o w y = rgbRow a deref p o w y := by
    intro deref p o w y
    funext s
    unfold rgbRowT rgbRow
    congr 1
    funext x s1
    cases rgbDeref deref p o s1.bufs x with
    | none => rfl
    | some q => simp only [tryPutRGB_total, Result.map]
  have hloop : ∀ (tiff : TiffImage) (deref : List Nat → Nat → Option Value) (p o w h : Nat),
      rgbLoopT tiff a.total deref p o w h = rgbLoop tiff a deref p o w h := by
    intro tiff deref p o w h
    funext s
    unfold rgbLoopT rgbLoop
    simp only [hrow]
  cases tiff with
  | none => rfl
  | some tiff =>
    unfold tiffToRGBImageT tiffToRGBImage
    simp only [hploop, hloop]

/-- With a source accessor that never throws, the common body of the
overloads of `createScalarTiffImage` is the one defined first. -/
theorem createScalarTiffImageOfT_total (bits format k : Nat) (cell : Nat → Nat → Nat)
    (u : Indeterminate) (w h : Nat) (tiff : Option TiffImage) (trace : List Event) :
    createScalarTiffImageOfT bits format k (fun x y => some (cell x y)) u w h tiff trace
      = createScalarTiffImageOf bits format k cell u w h tiff trace := by
  cases tiff <;> rfl

/-- With a source accessor that never throws, the common body of the
overloads of `createRGBTiffImage` is the one defined first. -/
theorem createRGBTiffImageOfT_total (bits format k : Nat) (red green blue : Nat → Nat → Nat)
    (u : Indeterminate) (w h : Nat) (tiff : Option TiffImage) (trace : List Event) :
    createRGBTiffImageOfT bits format k (fun x y => some (red x y))
        (fun x y => some (green x y)) (fun x y => some (blue x y)) u w h tiff trace
      = createRGBTiffImageOf bits format k red green blue u w h tiff trace := by
  cases tiff <;> rfl

/-- C28: resource safety. In each of the four conversion functions, with
accessors that may throw at any call, whenever the call returns or throws
the calls it made extend the trace by a sequence in which every buffer that
is allocated (the scanline buffer; the raster; the three channel buffers) is
released exactly once and nothing else is released, so that no buffer is live
afterwards. This covers normal completion, the failures of the
preconditions (nothing allocated), "unsupported number of bits per pixel"
and "internal error.", the failure of the palette expansion, and an
exception of an accessor at any row and column. Allocation itself is taken
to succeed, and a run with undefined behaviour has no final state. -/
theorem buffers_released {α β : Type} (u : Indeterminate) (tiff : Option TiffImage)
    (a : ThrowingAccessor α) (d : Dest α) (b : ThrowingRGBAccessor β) (e : Dest β)
    (bits format k w h : Nat) (cell red green blue : Nat → Nat → Option Nat)
    (trace : List Event) :
    ((tiffToScalarImageT u tiff a d).All fun d1 => Balanced d.trace d1.trace) ∧
    ((tiffToRGBImageT u tiff b e).All fun e1 => Balanced e.trace e1.trace) ∧
    ((createScalarTiffImageOfT bits format k cell u w h tiff trace).All
      fun s => Balanced trace s.trace) ∧
    ((createRGBTiffImageOfT bits format k red green blue u w h tiff trace).All
      fun s => Balanced trace s.trace) :=
  ⟨tiffToScalarImageT_balanced u tiff a d, tiffToRGBImageT_balanced u tiff b e,
    createScalarTiffImageOfT_balanced bits format k cell u w h tiff trace,
    createRGBTiffImageOfT_balanced bits format k red green blue u w h tiff trace⟩

/-- C28 at a concrete input: a 1 by 2 file decoded with an accessor that
throws at row 1. The call passes the exception on after the calls of row 0,
the scanline read of row 1, the failing accessor call and the release of the
buffer; no buffer is live afterwards. -/
theorem buffers_released_witness :
    (∃ d1, tiffToScalarImageT zeroIndeterminate
        (some (exampleHandle (exampleTags 1 2 8 1 SAMPLEFORMAT_UINT PHOTOMETRIC_MINISBLACK
          PLANARCONFIG_CONTIG FILLORDER_MSB2LSB) 1 (fun _ => 60)))
        (exampleFailingAccessor 1) blankImage = .thrown .foreign d1 ∧
      d1.trace = scalarPrelude 1 ++
        [.readScanline 0 0, .set 0 0 (.int 60), .readScanline 1 0, .set 0 1 (.int 60),
          .release .buf] ∧
      liveAfter [] d1.trace = []) ∧
    Balanced blankImage.trace
      (scalarPrelude 1 ++
        [.readScanline 0 0, .set 0 0 (.int 60), .readScanline 1 0, .set 0 1 (.int 60),
          .release .buf]) :=
  ⟨⟨_, rfl, rfl, rfl⟩,
    (buffers_released zeroIndeterminate
      (some (exampleHandle (exampleTags 1 2 8 1 SAMPLEFORMAT_UINT PHOTOMETRIC_MINISBLACK
        PLANARCONFIG_CONTIG FILLORDER_MSB2LSB) 1 (fun _ => 60)))
      (exampleFailingAccessor 1) blankImage (exampleFailingRGBAccessor 1) blankRGBImage
      8 SAMPLEFORMAT_UINT 1 1 2 (fun _ _ => none) (fun _ _ => none) (fun _ _ => none)
      (fun _ _ => none) []).1⟩

/-! ## One-bit samples -/

/-- Reading a byte through `int8 *` and shifting it arithmetically by at most
7 places leaves in the lowest bit the bit of the byte at that place. -/
theorem signed_bit (b k : Nat) (hb : b < 256) (hk : k ≤ 7) :
    and1 (toSigned 8 b >>> k) ≠ 0 ↔ b.testBit k = true := by
  rw [← testBit_of_shift_and]
  simp only [and1, toSigned, Int.shiftRight_eq_div_pow, Nat.shiftRight_eq_div_pow,
    Nat.and_one_is_mod]
  interval_cases k <;> split_ifs <;> omega

/-- Bit `7 - k` of the reversed byte is bit `k` of the byte. -/
theorem testBit_reverseBits8 (b k : Nat) (hk : k ≤ 7) :
    (reverseBits8 b).testBit (7 - k) = b.testBit k := by
  rw [Nat.testBit_to_div_mod, Nat.testBit_to_div_mod]
  unfold reverseBits8
  have h0 : b % 2 < 2 := Nat.mod_lt _ (by decide)
  have h1 : b / 2 % 2 < 2 := Nat.mod_lt _ (by decide)
  have h2 : b / 4 % 2 < 2 := Nat.mod_lt _ (by decide)
  have h3 : b / 8 % 2 < 2 := Nat.mod_lt _ (by decide)
  have h4 : b / 16 % 2 < 2 := Nat.mod_lt _ (by decide)
  have h5 : b / 32 % 2 < 2 := Nat.mod_lt _ (by decide)
  have h6 : b / 64 % 2 < 2 := Nat.mod_lt _ (by decide)
  have h7 : b / 128 % 2 < 2 := Nat.mod_lt _ (by decide)
  interval_cases k <;> simp only [decide_eq_decide] <;> norm_num <;>
    generalize b % 2 = x0 at * <;> generalize b / 2 % 2 = x1 at * <;>
    generalize b / 4 % 2 = x2 at * <;> generalize b / 8 % 2 = x3 at * <;>
    generalize b / 16 % 2 = x4 at * <;> generalize b / 32 % 2 = x5 at * <;>
    generalize b / 64 % 2 = x6 at * <;> generalize b / 128 % 2 = x7 at * <;> omega

/-- The unsigned 1-bit sample expression on a scanline that was read as
`row`. -/
theorem sampleUInt1_row (fill : Nat) (max min : Int) (n : Nat) (row : Nat → Nat) (x : Nat)
    (hx : x / 8 + 1 ≤ n) :
    sampleUInt1 fill max min ((List.range n).map row) x = some (.int
      (if (row (x / 8)).testBit (if fill = FILLORDER_MSB2LSB then 7 - x % 8 else x % 8) = true
        then max else min)) := by
  simp only [sampleUInt1, readLE_map_range 1 n (x / 8) row (by omega), elemOf_one,
    Option.map_some', testBit_of_shift_and]
  split_ifs <;> rfl

/-- The signed 1-bit sample expression on a scanline of bytes that was read
as `row`. -/
theorem sampleInt1_row (fill : Nat) (max min : Int) (n : Nat) (row : Nat → Nat) (x : Nat)
    (hx : x / 8 + 1 ≤ n) (hb : row (x / 8) < 256) :
    sampleInt1 fill max min ((List.range n).map row) x = some (.int
      (if (row (x / 8)).testBit (if fill = FILLORDER_MSB2LSB then 7 - x % 8 else x % 8) = true
        then max else min)) := by
  simp only [sampleInt1, readLE_map_range 1 n (x / 8) row (by omega), elemOf_one,
    Option.map_some', signed_bit _ _ hb (show 7 - x % 8 ≤ 7 by omega),
    signed_bit _ _ hb (show x % 8 ≤ 7 by omega)]
  split_ifs <;> rfl

/-- The pixels that `tiffToScalarImage` writes for a 1-bit file of either
integer sample format. -/
theorem bit_pixel {α : Type} (u : Indeterminate) (tiff : TiffImage)
    (a : Accessor α) (d : Dest α) (w h p fill : Nat)
    (hf : TIFFGetField tiff .SAMPLEFORMAT 1 = SAMPLEFORMAT_UINT ∨
      TIFFGetField tiff .SAMPLEFORMAT 1 = SAMPLEFORMAT_INT)
    (hbits : tiff.tags .BITSPERSAMPLE = some 1)
    (hfill : tiff.tags .FILLORDER = some fill)
    (hspp : tiff.tags .SAMPLESPERPIXEL = some 1)
    (hphot : tiff.tags .PHOTOMETRIC = some p)
    (hp : p = PHOTOMETRIC_MINISWHITE ∨ p = PHOTOMETRIC_MINISBLACK)
    (hw : tiff.tags .IMAGEWIDTH = some w)
    (hh : tiff.tags .IMAGELENGTH = some h)
    (hsize : w ≤ 8 * TIFFScanlineSize tiff) :
    ∃ d1, tiffToScalarImage u (some tiff) a d = .ok d1 ∧
      (∀ x y row, x < w → y < h → tiff.rows y 0 = some row →
        (TIFFGetField tiff .SAMPLEFORMAT 1 = SAMPLEFORMAT_INT → row (x / 8) < 256) →
        d1.image x y = a.set (.int (bitIntensity fill p row x)) (d.image x y)) ∧
      ∀ x y, ¬ (x < w ∧ y < h) → d1.image x y = d.image x y := by
  have e1 := TIFFGetField_of_tag tiff _ _ u.bitsPerSample hbits
  have e2 := TIFFGetField_of_tag tiff _ _ u.samplesPerPixel hspp
  have e3 := TIFFGetField_of_tag tiff _ _ u.photometric hphot
  have e6 := TIFFGetField_of_tag tiff _ _ u.fillorder hfill
  rcases hf with hf | hf
  · obtain ⟨d1, hrun, hpix, hout⟩ := scalar_pixel u tiff a d
      (sampleUInt1 fill (if p = PHOTOMETRIC_MINISWHITE then 0 else 255)
        (if p = PHOTOMETRIC_MINISWHITE then 255 else 0)) w h
      (by rw [e3]; exact hp) e2 (by rw [hf]; decide)
      (by rw [hf, e1, e3, e6]; rfl)
      (TIFFGetField_of_tag tiff _ _ u.w hw) (TIFFGetField_of_tag tiff _ _ u.h hh)
      (by
        intro buf hlen x1 hx1
        simp only [sampleUInt1, Option.isSome_map']
        exact readLE_isSome 1 buf (x1 / 8) (by omega))
    refine ⟨d1, hrun, ?_, hout⟩
    intro x y row hx hy hrow _
    rw [hpix x y row hx hy hrow, sampleUInt1_row _ _ _ _ row x (by omega)]
    rfl
  · obtain ⟨d1, hrun, hpix, hout⟩ := scalar_pixel u tiff a d
      (sampleInt1 fill (if p = PHOTOMETRIC_MINISWHITE then 0 else 255)
        (if p = PHOTOMETRIC_MINISWHITE then 255 else 0)) w h
      (by rw [e3]; exact hp) e2 (by rw [hf]; decide)
      (by rw [hf, e1, e3, e6]; rfl)
      (TIFFGetField_of_tag tiff _ _ u.w hw) (TIFFGetField_of_tag tiff _ _ u.h hh)
      (by
        intro buf hlen x1 hx1
        simp only [sampleInt1, Option.isSome_map']
        exact readLE_isSome 1 buf (x1 / 8) (by omega))
    refine ⟨d1, hrun, ?_, hout⟩
    intro x y row hx hy hrow hb
    rw [hpix x y row hx hy hrow, sampleInt1_row _ _ _ _ row x (by omega) (hb hf)]
    rfl

/-- The pixels that `tiffToScalarImage` writes for an 8-bit unsigned file. -/
theorem byte_pixel {α : Type} (u : Indeterminate) (tiff : TiffImage)
    (a : Accessor α) (d : Dest α) (w h p : Nat)
    (hfmt : TIFFGetField tiff .SAMPLEFORMAT 1 = SAMPLEFORMAT_UINT)
    (hbits : tiff.tags .BITSPERSAMPLE = some 8)
    (hspp : tiff.tags .SAMPLESPERPIXEL = some 1)
    (hphot : tiff.tags .PHOTOMETRIC = some p)
    (hp : p = PHOTOMETRIC_MINISWHITE ∨ p = PHOTOMETRIC_MINISBLACK)
    (hw : tiff.tags .IMAGEWIDTH = some w)
    (hh : tiff.tags .IMAGELENGTH = some h)
    (hsize : w ≤ TIFFScanlineSize tiff) :
    ∃ d1, tiffToScalarImage u (some tiff) a d = .ok d1 ∧
      (∀ x y row, x < w → y < h → tiff.rows y 0 = some row →
        d1.image x y =
          a.set (.int (if p = PHOTOMETRIC_MINISWHITE then 255 - (row x : Int)
            else (row x : Int))) (d.image x y)) ∧
      ∀ x y, ¬ (x < w ∧ y < h) → d1.image x y = d.image x y := by
  have e1 := TIFFGetField_of_tag tiff _ _ u.bitsPerSample hbits
  have e2 := TIFFGetField_of_tag tiff _ _ u.samplesPerPixel hspp
  have e3 := TIFFGetField_of_tag tiff _ _ u.photometric hphot
  obtain ⟨d1, hrun, hpix, hout⟩ := scalar_pixel u tiff a d
    (sampleByte (if p = PHOTOMETRIC_MINISWHITE then 255 else 0)
      (if p = PHOTOMETRIC_MINISWHITE then -1 else 1)) w h
    (by rw [e3]; exact hp) e2 (by rw [hfmt]; decide)
    (by rw [hfmt, e1, e3]; rfl)
    (TIFFGetField_of_tag tiff _ _ u.w hw) (TIFFGetField_of_tag tiff _ _ u.h hh)
    (by
      intro buf hlen x1 hx1
      simp only [sampleByte, Option.isSome_map']
      exact readLE_isSome 1 buf x1 (by omega))
  refine ⟨d1, hrun, ?_, hout⟩
  intro x y row hx hy hrow
  rw [hpix x y row hx hy hrow]
  simp only [sampleByte, readLE_map_range 1 (TIFFScanlineSize tiff) x row (by omega), elemOf_one,
    Option.map_some', Option.getD_some]
  rcases hp with hp | hp
  · subst hp; simp; ring_nf
  · subst hp; simp

/-- Setting one tag leaves the other tags as they were. -/
theorem tags_set_other (tiff : TiffImage) (t t1 : Tag) (v : Nat) (h : t1 ≠ t) :
    (TIFFSetField tiff t v).tags t1 = tiff.tags t1 := by
  simp [TIFFSetField, h]

/-- C32: 1-bit scalar decode, least significant bit first. On a one-band file
with SampleFormat=UnsignedInt (present or defaulted), BitsPerSample=1 and
FillOrder=LSB2MSB, `tiffToScalarImage` returns normally and has handed to the
accessor at `(x, y)`, for the scanline `row` read for row `y`: when bit
`x mod 8` of byte `x div 8` is set, 255 under MinIsBlack and 0 under
MinIsWhite; when it is clear, 0 under MinIsBlack and 255 under MinIsWhite. -/
theorem scalar_bit_lsb_first {α : Type} (u : Indeterminate) (tiff : TiffImage)
    (a : Accessor α) (d : Dest α) (w h p : Nat)
    (hfmt : TIFFGetField tiff .SAMPLEFORMAT 1 = SAMPLEFORMAT_UINT)
    (hbits : tiff.tags .BITSPERSAMPLE = some 1)
    (hfill : tiff.tags .FILLORDER = some FILLORDER_LSB2MSB)
    (hspp : tiff.tags .SAMPLESPERPIXEL = some 1)
    (hphot : tiff.tags .PHOTOMETRIC = some p)
    (hp : p = PHOTOMETRIC_MINISWHITE ∨ p = PHOTOMETRIC_MINISBLACK)
    (hw : tiff.tags .IMAGEWIDTH = some w)
    (hh : tiff.tags .IMAGELENGTH = some h)
    (hsize : w ≤ 8 * TIFFScanlineSize tiff) :
    ∃ d1, tiffToScalarImage u (some tiff) a d = .ok d1 ∧
      ∀ x y row, x < w → y < h → tiff.rows y 0 = some row →
        d1.image x y =
          a.set (.int (if (row (x / 8)).testBit (x % 8) = true
                       then (if p = PHOTOMETRIC_MINISWHITE then 0 else 255)
                       else (if p = PHOTOMETRIC_MINISWHITE then 255 else 0)))
            (d.image x y) := by
  obtain ⟨d1, hrun, hpix, -⟩ := bit_pixel u tiff a d w h p FILLORDER_LSB2MSB (Or.inl hfmt)
    hbits hfill hspp hphot hp hw hh hsize
  refine ⟨d1, hrun, ?_⟩
  intro x y row hx hy hrow
  rw [hpix x y row hx hy hrow (fun hi => absurd (hfmt.symm.trans hi) (by decide))]
  rfl

/-- C32 at a concrete input: the byte `0b10110000` decoded least significant
bit first under MinIsBlack gives 0, 0, 0, 0, 255, 255, 0, 255 over the
columns 0 to 7. -/
theorem scalar_bit_lsb_first_witness :
    ∃ d1, tiffToScalarImage zeroIndeterminate
        (some (exampleHandle (exampleTags 8 1 1 1 SAMPLEFORMAT_UINT PHOTOMETRIC_MINISBLACK
          PLANARCONFIG_CONTIG FILLORDER_LSB2MSB) 1 (fun _ => 0b10110000)))
        StandardValueAccessor blankImage = .ok d1 ∧
      (List.range 8).map (fun x => d1.image x 0) =
        [.int 0, .int 0, .int 0, .int 0, .int 255, .int 255, .int 0, .int 255] := by
  obtain ⟨d1, h1, h2⟩ := scalar_bit_lsb_first zeroIndeterminate
    (exampleHandle (exampleTags 8 1 1 1 SAMPLEFORMAT_UINT PHOTOMETRIC_MINISBLACK
      PLANARCONFIG_CONTIG FILLORDER_LSB2MSB) 1 (fun _ => 0b10110000))
    StandardValueAccessor blankImage 8 1 PHOTOMETRIC_MINISBLACK rfl rfl rfl rfl rfl
    (Or.inr rfl) rfl rfl (by decide)
  refine ⟨d1, h1, ?_⟩
  simp only [List.range, List.range.loop, List.map]
  rw [h2 0 0 _ (by decide) (by decide) rfl, h2 1 0 _ (by decide) (by decide) rfl,
    h2 2 0 _ (by decide) (by decide) rfl, h2 3 0 _ (by decide) (by decide) rfl,
    h2 4 0 _ (by decide) (by decide) rfl, h2 5 0 _ (by decide) (by decide) rfl,
    h2 6 0 _ (by decide) (by decide) rfl, h2 7 0 _ (by decide) (by decide) rfl]
  decide

/-- C34: polarity is an exact complement on the narrow formats. Take a
readable one-band file of bytes with SampleFormat=UnsignedInt and
BitsPerSample 1 or 8, once tagged Photometric=MinIsWhite and once tagged
MinIsBlack. Both decodings return normally, and at every `(x, y)` of the
`w` by `h` range the integer handed to the accessor under MinIsWhite is 255
minus the one handed to it under MinIsBlack; both lie between 0 and 255. -/
theorem polarity_complement {α : Type} (u : Indeterminate) (tiff : TiffImage)
    (a : Accessor α) (d : Dest α) (w h bits fill : Nat) (row : Nat → Nat → Nat)
    (hfmt : TIFFGetField tiff .SAMPLEFORMAT 1 = SAMPLEFORMAT_UINT)
    (hbits : tiff.tags .BITSPERSAMPLE = some bits)
    (hb : bits = 1 ∨ bits = 8)
    (hfill : tiff.tags .FILLORDER = some fill)
    (hspp : tiff.tags .SAMPLESPERPIXEL = some 1)
    (hw : tiff.tags .IMAGEWIDTH = some w)
    (hh : tiff.tags .IMAGELENGTH = some h)
    (hsizeW : w * bits ≤
      8 * TIFFScanlineSize (TIFFSetField tiff .PHOTOMETRIC PHOTOMETRIC_MINISWHITE))
    (hsizeB : w * bits ≤
      8 * TIFFScanlineSize (TIFFSetField tiff .PHOTOMETRIC PHOTOMETRIC_MINISBLACK))
    (hrows : ∀ y, y < h → tiff.rows y 0 = some (row y))
    (hbyte : ∀ y i, row y i < 256) :
    ∃ dW dB,
      tiffToScalarImage u (some (TIFFSetField tiff .PHOTOMETRIC PHOTOMETRIC_MINISWHITE)) a d
        = .ok dW ∧
      tiffToScalarImage u (some (TIFFSetField tiff .PHOTOMETRIC PHOTOMETRIC_MINISBLACK)) a d
        = .ok dB ∧
      ∀ x y, x < w → y < h → ∃ vW vB : Int,
        dW.image x y = a.set (.int vW) (d.image x y) ∧
        dB.image x y = a.set (.int vB) (d.image x y) ∧
        vW = 255 - vB ∧ 0 ≤ vB ∧ vB ≤ 255 ∧ 0 ≤ vW ∧ vW ≤ 255 := by
  have tg : ∀ (v : Nat) (t : Tag), t ≠ .PHOTOMETRIC →
      (TIFFSetField tiff .PHOTOMETRIC v).tags t = tiff.tags t :=
    fun v t ht => tags_set_other tiff _ t v ht
  have tf : ∀ v, TIFFGetField (TIFFSetField tiff .PHOTOMETRIC v) .SAMPLEFORMAT 1
      = SAMPLEFORMAT_UINT := fun v => by
    rw [TIFFGetField_set_other tiff _ _ _ _ (by decide)]; exact hfmt
  have tp : ∀ v, (TIFFSetField tiff .PHOTOMETRIC v).tags .PHOTOMETRIC = some v :=
    fun v => by simp [TIFFSetField]
  rcases hb with hb | hb <;> subst hb
  · obtain ⟨dW, hrunW, hpixW, -⟩ := bit_pixel u
      (TIFFSetField tiff .PHOTOMETRIC PHOTOMETRIC_MINISWHITE) a d w h PHOTOMETRIC_MINISWHITE
      fill (Or.inl (tf _)) ((tg _ _ (by decide)).trans hbits)
      ((tg _ _ (by decide)).trans hfill) ((tg _ _ (by decide)).trans hspp) (tp _)
      (Or.inl rfl) ((tg _ _ (by decide)).trans hw) ((tg _ _ (by decide)).trans hh)
      (by omega)
    obtain ⟨dB, hrunB, hpixB, -⟩ := bit_pixel u
      (TIFFSetField tiff .PHOTOMETRIC PHOTOMETRIC_MINISBLACK) a d w h PHOTOMETRIC_MINISBLACK
      fill (Or.inl (tf _)) ((tg _ _ (by decide)).trans hbits)
      ((tg _ _ (by decide)).trans hfill) ((tg _ _ (by decide)).trans hspp) (tp _)
      (Or.inr rfl) ((tg _ _ (by decide)).trans hw) ((tg _ _ (by decide)).trans hh)
      (by omega)
    refine ⟨dW, dB, hrunW, hrunB, ?_⟩
    intro x y hx hy
    refine ⟨_, _, hpixW x y (row y) hx hy (hrows y hy) (fun _ => hbyte y _),
      hpixB x y (row y) hx hy (hrows y hy) (fun _ => hbyte y _), ?_⟩
    unfold bitIntensity
    split_ifs <;> simp_all
  · obtain ⟨dW, hrunW, hpixW, -⟩ := byte_pixel u
      (TIFFSetField tiff .PHOTOMETRIC PHOTOMETRIC_MINISWHITE) a d w h PHOTOMETRIC_MINISWHITE
      (tf _) ((tg _ _ (by decide)).trans hbits) ((tg _ _ (by decide)).trans hspp) (tp _)
      (Or.inl rfl) ((tg _ _ (by decide)).trans hw) ((tg _ _ (by decide)).trans hh)
      (by omega)
    obtain ⟨dB, hrunB, hpixB, -⟩ := byte_pixel u
      (TIFFSetField tiff .PHOTOMETRIC PHOTOMETRIC_MINISBLACK) a d w h PHOTOMETRIC_MINISBLACK
      (tf _) ((tg _ _ (by decide)).trans hbits) ((tg _ _ (by decide)).trans hspp) (tp _)
      (Or.inr rfl) ((tg _ _ (by decide)).trans hw) ((tg _ _ (by decide)).trans hh)
      (by omega)
    refine ⟨dW, dB, hrunW, hrunB, ?_⟩
    intro x y hx hy
    refine ⟨_, _, hpixW x y (row y) hx hy (hrows y hy),
      hpixB x y (row y) hx hy (hrows y hy), ?_⟩
    have hbx := hbyte y x
    rw [if_pos rfl, if_neg (by decide)]
    omega

/-- C34 at a concrete input: a 1 by 1 file of 8-bit samples whose sample is
60. -/
theorem polarity_complement_witness :
    ∃ dW dB,
      tiffToScalarImage zeroIndeterminate
        (some (TIFFSetField (exampleHandle (exampleTags 1 1 8 1 SAMPLEFORMAT_UINT
          PHOTOMETRIC_RGB PLANARCONFIG_CONTIG FILLORDER_MSB2LSB) 1 (fun _ => 60))
          .PHOTOMETRIC PHOTOMETRIC_MINISWHITE))
        StandardValueAccessor blankImage = .ok dW ∧
      tiffToScalarImage zeroIndeterminate
        (some (TIFFSetField (exampleHandle (exampleTags 1 1 8 1 SAMPLEFORMAT_UINT
          PHOTOMETRIC_RGB PLANARCONFIG_CONTIG FILLORDER_MSB2LSB) 1 (fun _ => 60))
          .PHOTOMETRIC PHOTOMETRIC_MINISBLACK))
        StandardValueAccessor blankImage = .ok dB ∧
      ∀ x y, x < 1 → y < 1 → ∃ vW vB : Int,
        dW.image x y = StandardValueAccessor.set (.int vW) (blankImage.image x y) ∧
        dB.image x y = StandardValueAccessor.set (.int vB) (blankImage.image x y) ∧
        vW = 255 - vB ∧ 0 ≤ vB ∧ vB ≤ 255 ∧ 0 ≤ vW ∧ vW ≤ 255 :=
  polarity_complement zeroIndeterminate
    (exampleHandle (exampleTags 1 1 8 1 SAMPLEFORMAT_UINT PHOTOMETRIC_RGB
      PLANARCONFIG_CONTIG FILLORDER_MSB2LSB) 1 (fun _ => 60))
    StandardValueAccessor blankImage 1 1 8 FILLORDER_MSB2LSB (fun _ _ => 60)
    rfl rfl (Or.inr rfl) rfl rfl rfl rfl (by decide) (by decide) (fun _ _ => rfl)
    (fun _ _ => (by decide : (60 : Nat) < 256))

/-- C35: 1-bit decode does not depend on signedness. Take a readable one-band
file of bytes with BitsPerSample=1, any FillOrder and Photometric MinIsWhite
or MinIsBlack, once tagged SampleFormat=UnsignedInt and once tagged
SampleFormat=SignedInt. Both decodings return normally with the same
image. -/
theorem bit_decode_ignores_signedness {α : Type} (u : Indeterminate) (tiff : TiffImage)
    (a : Accessor α) (d : Dest α) (w h p fill : Nat) (row : Nat → Nat → Nat)
    (hbits : tiff.tags .BITSPERSAMPLE = some 1)
    (hfill : tiff.tags .FILLORDER = some fill)
    (hspp : tiff.tags .SAMPLESPERPIXEL = some 1)
    (hphot : tiff.tags .PHOTOMETRIC = some p)
    (hp : p = PHOTOMETRIC_MINISWHITE ∨ p = PHOTOMETRIC_MINISBLACK)
    (hw : tiff.tags .IMAGEWIDTH = some w)
    (hh : tiff.tags .IMAGELENGTH = some h)
    (hsizeU : w ≤ 8 * TIFFScanlineSize (TIFFSetField tiff .SAMPLEFORMAT SAMPLEFORMAT_UINT))
    (hsizeI : w ≤ 8 * TIFFScanlineSize (TIFFSetField tiff .SAMPLEFORMAT SAMPLEFORMAT_INT))
    (hrows : ∀ y, y < h → tiff.rows y 0 = some (row y))
    (hbyte : ∀ y i, row y i < 256) :
    ∃ dU dI,
      tiffToScalarImage u (some (TIFFSetField tiff .SAMPLEFORMAT SAMPLEFORMAT_UINT)) a d
        = .ok dU ∧
      tiffToScalarImage u (some (TIFFSetField tiff .SAMPLEFORMAT SAMPLEFORMAT_INT)) a d
        = .ok dI ∧
      dI.image = dU.image := by
  have tg : ∀ (v : Nat) (t : Tag), t ≠ .SAMPLEFORMAT →
      (TIFFSetField tiff .SAMPLEFORMAT v).tags t = tiff.tags t :=
    fun v t ht => tags_set_other tiff _ t v ht
  obtain ⟨dU, hrunU, hpixU, houtU⟩ := bit_pixel u
    (TIFFSetField tiff .SAMPLEFORMAT SAMPLEFORMAT_UINT) a d w h p fill
    (Or.inl (TIFFGetField_set_same tiff _ _ _)) ((tg _ _ (by decide)).trans hbits)
    ((tg _ _ (by decide)).trans hfill) ((tg _ _ (by decide)).trans hspp)
    ((tg _ _ (by decide)).trans hphot) hp ((tg _ _ (by decide)).trans hw)
    ((tg _ _ (by decide)).trans hh) hsizeU
  obtain ⟨dI, hrunI, hpixI, houtI⟩ := bit_pixel u
    (TIFFSetField tiff .SAMPLEFORMAT SAMPLEFORMAT_INT) a d w h p fill
    (Or.inr (TIFFGetField_set_same tiff _ _ _)) ((tg _ _ (by decide)).trans hbits)
    ((tg _ _ (by decide)).trans hfill) ((tg _ _ (by decide)).trans hspp)
    ((tg _ _ (by decide)).trans hphot) hp ((tg _ _ (by decide)).trans hw)
    ((tg _ _ (by decide)).trans hh) hsizeI
  refine ⟨dU, dI, hrunU, hrunI, ?_⟩
  funext x y
  by_cases hxy : x < w ∧ y < h
  · rw [hpixI x y (row y) hxy.1 hxy.2 (hrows y hxy.2) (fun _ => hbyte y _),
      hpixU x y (row y) hxy.1 hxy.2 (hrows y hxy.2) (fun _ => hbyte y _)]
  · rw [houtI x y hxy, houtU x y hxy]

/-- C35 at a concrete input: the byte `0xB0`, whose top bit is set, over 8
columns. -/
theorem bit_decode_ignores_signedness_witness :
    ∃ dU dI,
      tiffToScalarImage zeroIndeterminate
        (some (TIFFSetField (exampleHandle (exampleTags 8 1 1 1 SAMPLEFORMAT_VOID
          PHOTOMETRIC_MINISBLACK PLANARCONFIG_CONTIG FILLORDER_MSB2LSB) 1 (fun _ => 0xB0))
          .SAMPLEFORMAT SAMPLEFORMAT_UINT))
        StandardValueAccessor blankImage = .ok dU ∧
      tiffToScalarImage zeroIndeterminate
        (some (TIFFSetField (exampleHandle (exampleTags 8 1 1 1 SAMPLEFORMAT_VOID
          PHOTOMETRIC_MINISBLACK PLANARCONFIG_CONTIG FILLORDER_MSB2LSB) 1 (fun _ => 0xB0))
          .SAMPLEFORMAT SAMPLEFORMAT_INT))
        StandardValueAccessor blankImage = .ok dI ∧
      dI.image = dU.image :=
  bit_decode_ignores_signedness zeroIndeterminate
    (exampleHandle (exampleTags 8 1 1 1 SAMPLEFORMAT_VOID PHOTOMETRIC_MINISBLACK
      PLANARCONFIG_CONTIG FILLORDER_MSB2LSB) 1 (fun _ => 0xB0))
    StandardValueAccessor blankImage 8 1 PHOTOMETRIC_MINISBLACK FILLORDER_MSB2LSB
    (fun _ _ => 0xB0) rfl rfl rfl rfl (Or.inr rfl) rfl rfl (by decide) (by decide)
    (fun _ _ => rfl) (fun _ _ => (by decide : (0xB0 : Nat) < 256))

/-- C36: fill-order duality. Take a readable one-band file with
SampleFormat=UnsignedInt, BitsPerSample=1, Photometric MinIsWhite or
MinIsBlack and a FillOrder tag with any value other than `FILLORDER_MSB2LSB`.
Decoding it gives the same image as decoding the file tagged
`FILLORDER_MSB2LSB` in which every byte of every scanline has its 8 bits
reversed, and the pixel at `(x, y)` is the one of least-significant-bit-first
decoding: bit `x mod 8` of byte `x div 8` of scanline `y`. -/
theorem fill_order_duality {α : Type} (u : Indeterminate) (tiff : TiffImage)
    (a : Accessor α) (d : Dest α) (w h p fill : Nat) (row : Nat → Nat → Nat)
    (hfmt : TIFFGetField tiff .SAMPLEFORMAT 1 = SAMPLEFORMAT_UINT)
    (hbits : tiff.tags .BITSPERSAMPLE = some 1)
    (hfill : tiff.tags .FILLORDER = some fill)
    (hne : fill ≠ FILLORDER_MSB2LSB)
    (hspp : tiff.tags .SAMPLESPERPIXEL = some 1)
    (hphot : tiff.tags .PHOTOMETRIC = some p)
    (hp : p = PHOTOMETRIC_MINISWHITE ∨ p = PHOTOMETRIC_MINISBLACK)
    (hw : tiff.tags .IMAGEWIDTH = some w)
    (hh : tiff.tags .IMAGELENGTH = some h)
    (hsize : w ≤ 8 * TIFFScanlineSize tiff)
    (hsizeR : w ≤ 8 * TIFFScanlineSize (reverseFill tiff FILLORDER_MSB2LSB))
    (hrows : ∀ y, y < h → tiff.rows y 0 = some (row y)) :
    ∃ d1 d2, tiffToScalarImage u (some tiff) a d = .ok d1 ∧
      tiffToScalarImage u (some (reverseFill tiff FILLORDER_MSB2LSB)) a d = .ok d2 ∧
      d2.image = d1.image ∧
      ∀ x y, x < w → y < h →
        d1.image x y = a.set (.int (bitIntensity FILLORDER_LSB2MSB p (row y) x)) (d.image x y) := by
  have tg : ∀ (t : Tag), t ≠ .FILLORDER →
      (reverseFill tiff FILLORDER_MSB2LSB).tags t = tiff.tags t :=
    fun t ht => tags_set_other tiff _ t _ ht
  have tfmt : TIFFGetField (reverseFill tiff FILLORDER_MSB2LSB) .SAMPLEFORMAT 1
      = SAMPLEFORMAT_UINT := by
    rw [← hfmt]
    exact TIFFGetField_set_other tiff .FILLORDER .SAMPLEFORMAT FILLORDER_MSB2LSB 1 (by decide)
  have tfill : (reverseFill tiff FILLORDER_MSB2LSB).tags .FILLORDER
      = some FILLORDER_MSB2LSB := by
    simp [reverseFill, TIFFSetField]
  have trows : ∀ y, y < h → (reverseFill tiff FILLORDER_MSB2LSB).rows y 0
      = some (fun i => reverseBits8 (row y i)) := by
    intro y hy
    simp [reverseFill, hrows y hy]
  obtain ⟨d1, hrun1, hpix1, hout1⟩ := bit_pixel u tiff a d w h p fill (Or.inl hfmt)
    hbits hfill hspp hphot hp hw hh hsize
  obtain ⟨d2, hrun2, hpix2, hout2⟩ := bit_pixel u (reverseFill tiff FILLORDER_MSB2LSB) a d
    w h p FILLORDER_MSB2LSB (Or.inl tfmt) ((tg _ (by decide)).trans hbits) tfill
    ((tg _ (by decide)).trans hspp) ((tg _ (by decide)).trans hphot) hp
    ((tg _ (by decide)).trans hw) ((tg _ (by decide)).trans hh) hsizeR
  have hU : ∀ (T : TiffImage), TIFFGetField T .SAMPLEFORMAT 1 = SAMPLEFORMAT_UINT →
      ∀ n : Nat, TIFFGetField T .SAMPLEFORMAT 1 = SAMPLEFORMAT_INT → n < 256 :=
    fun T hT n hi => absurd (hT.symm.trans hi) (by decide)
  have hlsb : ∀ x y, bitIntensity fill p (row y) x
      = bitIntensity FILLORDER_LSB2MSB p (row y) x := by
    intro x y
    simp only [bitIntensity, if_neg hne,
      if_neg (show ¬ FILLORDER_LSB2MSB = FILLORDER_MSB2LSB by decide)]
  have hrev : ∀ x y, bitIntensity FILLORDER_MSB2LSB p (fun i => reverseBits8 (row y i)) x
      = bitIntensity fill p (row y) x := by
    intro x y
    simp only [bitIntensity, if_neg hne, if_true,
      testBit_reverseBits8 (row y (x / 8)) (x % 8) (by omega)]
  refine ⟨d1, d2, hrun1, hrun2, ?_, ?_⟩
  · funext x y
    by_cases hxy : x < w ∧ y < h
    · rw [hpix2 x y _ hxy.1 hxy.2 (trows y hxy.2) (hU _ tfmt _),
        hpix1 x y _ hxy.1 hxy.2 (hrows y hxy.2) (hU _ hfmt _), hrev]
    · rw [hout2 x y hxy, hout1 x y hxy]
  · intro x y hx hy
    rw [hpix1 x y _ hx hy (hrows y hy) (hU _ hfmt _), hlsb]

/-- C36 at a concrete input: the byte `0b10110000` of a file whose FillOrder
tag holds the value 7, over 8 columns. -/
theorem fill_order_duality_witness :
    ∃ d1 d2, tiffToScalarImage zeroIndeterminate
        (some (exampleHandle (exampleTags 8 1 1 1 SAMPLEFORMAT_UINT PHOTOMETRIC_MINISBLACK
          PLANARCONFIG_CONTIG 7) 1 (fun _ => 0b10110000)))
        StandardValueAccessor blankImage = .ok d1 ∧
      tiffToScalarImage zeroIndeterminate
        (some (reverseFill (exampleHandle (exampleTags 8 1 1 1 SAMPLEFORMAT_UINT
          PHOTOMETRIC_MINISBLACK PLANARCONFIG_CONTIG 7) 1 (fun _ => 0b10110000))
          FILLORDER_MSB2LSB))
        StandardValueAccessor blankImage = .ok d2 ∧
      d2.image = d1.image ∧
      ∀ x y, x < 8 → y < 1 →
        d1.image x y = StandardValueAccessor.set
          (.int (bitIntensity FILLORDER_LSB2MSB PHOTOMETRIC_MINISBLACK
            ((fun _ _ => 0b10110000) y) x)) (blankImage.image x y) :=
  fill_order_duality zeroIndeterminate
    (exampleHandle (exampleTags 8 1 1 1 SAMPLEFORMAT_UINT PHOTOMETRIC_MINISBLACK
      PLANARCONFIG_CONTIG 7) 1 (fun _ => 0b10110000))
    StandardValueAccessor blankImage 8 1 PHOTOMETRIC_MINISBLACK 7 (fun _ _ => 0b10110000)
    rfl rfl rfl (by decide) rfl rfl (Or.inr rfl) rfl rfl (by decide) (by decide)
    (fun _ _ => rfl)

/-- An option that is defined is its value. -/
theorem eq_some_getD {β : Type} (o : Option β) (z : β) (h : o.isSome) :
    o = some (o.getD z) := by
  cases o with
  | none => simp at h
  | some v => rfl

/-- A loop that returns normally after `n + 1` iterations returned normally
after `n`, and its last iteration returned normally. -/
theorem forLoop_succ_ok {σ : Type} (n : Nat) (body : Nat → σ → Result σ) (s s1 : σ)
    (h : forLoop (n + 1) body s = .ok s1) :
    ∃ s2, forLoop n body s = .ok s2 ∧ body n s2 = .ok s1 := by
  rw [forLoop] at h
  cases hc : forLoop n body s with
  | ok s2 => rw [hc] at h; exact ⟨s2, rfl, h⟩
  | thrown e s2 => rw [hc] at h; cases h
  | undefined => rw [hc] at h; cases h

/-- A normal return of the inner loop of `tiffToScalarImage` means that every
sample read of the row was inside the buffer. -/
theorem scalarRow_inv {α : Type} (a : Accessor α) (sample : List Nat → Nat → Option Value)
    (w y : Nat) (s s1 : ScalarState α) (hrun : scalarRow a sample w y s = .ok s1) :
    ∀ x, x < w → (sample s.buf x).isSome := by
  induction w generalizing s1 with
  | zero => intro x hx; omega
  | succ w ih =>
    obtain ⟨s2, hc, hb⟩ := forLoop_succ_ok w _ s s1 hrun
    have hprev := ih s2 hc
    have hrow := scalarRow_ok a sample w y s (fun x => (sample s.buf x).getD (.int 0))
      (fun x hx => eq_some_getD _ _ (hprev x hx))
    have hbuf : s2.buf = s.buf := by
      have := hrow.symm.trans hc
      rw [← Result.ok.inj this]
    intro x hx
    by_cases hxw : x < w
    · exact hprev x hxw
    · have hxe : x = w := by omega
      subst hxe
      simp only [hbuf] at hb
      cases hs : sample s.buf x with
      | none => rw [hs] at hb; cases hb
      | some v => rfl

/-- A normal return of the row loop of `tiffToScalarImage` means that every
sample read was inside the buffer. -/
theorem scalarLoop_inv {α : Type} (tiff : TiffImage) (a : Accessor α)
    (sample : List Nat → Nat → Option Value) (w h : Nat) (s s1 : ScalarState α)
    (hrun : scalarLoop tiff a sample w h s = .ok s1) :
    ∀ y, y < h → ∀ x, x < w → (sample (scanBuf tiff s.buf (y + 1)) x).isSome := by
  induction h generalizing s1 with
  | zero => intro y hy; omega
  | succ h ih =>
    obtain ⟨s2, hc, hb⟩ := forLoop_succ_ok h _ s s1 hrun
    have hprev := ih s2 hc
    have hloop := scalarLoop_ok tiff a sample w h s
      (fun x y => (sample (scanBuf tiff s.buf (y + 1)) x).getD (.int 0))
      (fun y hy x hx => eq_some_getD _ _ (hprev y hy x hx))
    have hbuf : s2.buf = scanBuf tiff s.buf h := by
      have := hloop.symm.trans hc
      rw [← Result.ok.inj this]
    intro y hy
    by_cases hyh : y < h
    · exact hprev y hyh
    · have hye : y = h := by omega
      subst hye
      have := scalarRow_inv a sample w y _ s1 hb
      simpa only [hbuf, scanBuf] using this

/-- If a result mapped over its state is a normal return, the result is a
normal return. -/
theorem Result.map_ok {σ τ : Type} (g : σ → τ) (r : Result σ) (t : τ)
    (h : r.map g = .ok t) : ∃ s, r = .ok s ∧ g s = t := by
  cases r with
  | ok s => simp only [Result.map, Result.ok.injEq] at h; exact ⟨s, rfl, h⟩
  | thrown e s => simp [Result.map] at h
  | undefined => simp [Result.map] at h

/-- The calls of the decoded rows, row by row: the scanline read of row `y`
followed by the accessor calls at columns 0 to `w - 1`. -/
theorem scalarTrace_eq_flatMap (v : Nat → Nat → Value) (w h : Nat) :
    scalarTrace v w h = (List.range h).flatMap fun y =>
      Event.readScanline y 0 :: (List.range w).map fun x => Event.set x y (v x y) := by
  induction h with
  | zero => rfl
  | succ h ih =>
    rw [scalarTrace, ih, List.range_succ, List.flatMap_append]
    simp [rowTrace, List.flatMap]

/-- C33: write footprint of scalar decode. Whenever `tiffToScalarImage`
returns normally, with `w` and `h` the values read for ImageWidth and
ImageLength and `sample` the sample expression selected by (SampleFormat,
BitsPerSample): after the calls that precede the row loop it has, for
`y = 0, ..., h - 1` in this order, read scanline `y` once and then called the
accessor once at each cursor `(0, y), ..., (w - 1, y)` in this order, and
finally released the buffer. The pixel at `(x, y)` of that rectangle
was set from the sample at column `x` of the buffer as filled by the read of
scanline `y`; every pixel outside the rectangle is unchanged. -/
theorem scalar_footprint {α : Type} (u : Indeterminate) (tiff : TiffImage)
    (a : Accessor α) (d d1 : Dest α)
    (hrun : tiffToScalarImage u (some tiff) a d = .ok d1) :
    ∃ sample : List Nat → Nat → Option Value,
      d1.trace = d.trace ++ scalarPrelude (TIFFScanlineSize tiff) ++
        ((List.range (TIFFGetField tiff .IMAGELENGTH u.h)).flatMap fun y =>
          Event.readScanline y 0 ::
            (List.range (TIFFGetField tiff .IMAGEWIDTH u.w)).map fun x =>
              Event.set x y (scalarValue u tiff sample x y)) ++ [.release .buf] ∧
      (∀ x y, d1.image x y =
        if x < TIFFGetField tiff .IMAGEWIDTH u.w ∧ y < TIFFGetField tiff .IMAGELENGTH u.h
        then a.set (scalarValue u tiff sample x y) (d.image x y) else d.image x y) ∧
      (∀ x y row, tiff.rows y 0 = some row → scalarValue u tiff sample x y =
        (sample ((List.range (TIFFScanlineSize tiff)).map row) x).getD (.int 0)) ∧
      ∃ offset scale max min, scalarSwitch (TIFFGetField tiff .SAMPLEFORMAT 1)
        (TIFFGetField tiff .BITSPERSAMPLE u.bitsPerSample)
        (TIFFGetField tiff .FILLORDER u.fillorder) offset scale max min = .ok sample := by
  have hrun0 := hrun
  unfold tiffToScalarImage at hrun
  simp only [] at hrun
  by_cases h1 : TIFFGetField tiff .PHOTOMETRIC u.photometric = PHOTOMETRIC_MINISWHITE ∨
      TIFFGetField tiff .PHOTOMETRIC u.photometric = PHOTOMETRIC_MINISBLACK
  · by_cases h2 : TIFFGetField tiff .SAMPLESPERPIXEL u.samplesPerPixel = 1
    · by_cases h3 : TIFFGetField tiff .SAMPLEFORMAT 1 = SAMPLEFORMAT_VOID
      · rw [if_neg (fun hn => hn h1), if_neg (fun hn => hn h2), if_pos (fun hn => hn h3)]
          at hrun
        cases hrun
      · rw [if_neg (fun hn => hn h1), if_neg (fun hn => hn h2), if_neg (fun hn => hn h3)]
          at hrun
        obtain ⟨s, hs, -⟩ := Result.map_ok _ _ _ hrun
        cases hsw : scalarSwitch (TIFFGetField tiff .SAMPLEFORMAT 1)
            (TIFFGetField tiff .BITSPERSAMPLE u.bitsPerSample)
            (TIFFGetField tiff .FILLORDER u.fillorder)
            (if TIFFGetField tiff .PHOTOMETRIC u.photometric = PHOTOMETRIC_MINISWHITE
              then 255 else 0)
            (if TIFFGetField tiff .PHOTOMETRIC u.photometric = PHOTOMETRIC_MINISWHITE
              then -1 else 1)
            (if TIFFGetField tiff .PHOTOMETRIC u.photometric = PHOTOMETRIC_MINISWHITE
              then 0 else 255)
            (if TIFFGetField tiff .PHOTOMETRIC u.photometric = PHOTOMETRIC_MINISWHITE
              then 255 else 0) with
        | error e => rw [hsw] at hs; cases hs
        | ok sample =>
          rw [hsw] at hs
          have hinv := scalarLoop_inv tiff a sample _ _ _ s hs
          have hfull := tiffToScalarImage_run u tiff a d sample (scalarValue u tiff sample)
            h1 h2 h3 hsw (fun y hy x hx => eq_some_getD _ _ (hinv y hy x hx))
          have hd := Result.ok.inj (hfull.symm.trans hrun0)
          refine ⟨sample, ?_, ?_, ?_, _, _, _, _, hsw⟩
          · rw [← hd, scalarTrace_eq_flatMap]
          · intro x y
            rw [← hd]
          · intro x y row hrow
            exact scalarValue_of_row u tiff sample x y row hrow
    · rw [if_neg (fun hn => hn h1), if_pos h2] at hrun
      cases hrun
  · rw [if_pos h1] at hrun
    cases hrun

/-- C33 at a concrete input: a 2 by 2 file of 8-bit samples whose scanlines
hold 10, 11. -/
theorem scalar_footprint_witness :
    ∃ d1 sample, tiffToScalarImage zeroIndeterminate
        (some (exampleHandle (exampleTags 2 2 8 1 SAMPLEFORMAT_UINT PHOTOMETRIC_MINISBLACK
          PLANARCONFIG_CONTIG FILLORDER_MSB2LSB) 2 (fun i => 10 + i)))
        StandardValueAccessor blankImage = .ok d1 ∧
      d1.trace = blankImage.trace ++ scalarPrelude 2 ++
        ((List.range 2).flatMap fun y =>
          Event.readScanline y 0 ::
            (List.range 2).map fun x =>
              Event.set x y (scalarValue zeroIndeterminate
                (exampleHandle (exampleTags 2 2 8 1 SAMPLEFORMAT_UINT PHOTOMETRIC_MINISBLACK
                  PLANARCONFIG_CONTIG FILLORDER_MSB2LSB) 2 (fun i => 10 + i)) sample x y)) ++
        [.release .buf] := by
  obtain ⟨sample, h1, -⟩ := scalar_footprint zeroIndeterminate
    (exampleHandle (exampleTags 2 2 8 1 SAMPLEFORMAT_UINT PHOTOMETRIC_MINISBLACK
      PLANARCONFIG_CONTIG FILLORDER_MSB2LSB) 2 (fun i => 10 + i))
    StandardValueAccessor blankImage _ rfl
  exact ⟨_, sample, rfl, h1⟩

/-- The scanline writes of an encoder, one per row in increasing order. -/
theorem writtenTrace_eq_map (rowData : Nat → List Nat) (h : Nat) :
    writtenTrace rowData h = (List.range h).map fun y => Event.writeScanline y (rowData y) := by
  induction h with
  | zero => rfl
  | succ h ih => rw [writtenTrace, ih, List.range_succ, List.map_append]; rfl

/-- The conversion of an integer to an unsigned type of `bits` bits yields a
pattern of `bits` bits. -/
theorem toUnsigned_lt (bits : Nat) (v : Int) : toUnsigned bits v < 2 ^ bits := by
  unfold toUnsigned
  have hpos : (0 : Int) < 2 ^ bits := by positivity
  have h1 := Int.emod_nonneg v (ne_of_gt hpos)
  have h2 := Int.emod_lt_of_pos v hpos
  have h3 : ((v % 2 ^ bits).toNat : Int) = v % 2 ^ bits := Int.toNat_of_nonneg h1
  have h4 : ((v % 2 ^ bits).toNat : Int) < ((2 ^ bits : Nat) : Int) := by
    rw [h3]; push_cast; exact h2
  exact_mod_cast h4

/-- The trace and the scanlines of a successful run of the common body of
the overloads of `createRGBTiffImage`, for cells that fit the element type. -/
theorem createRGBTiffImageOf_packing (bits format k : Nat) (red green blue : Nat → Nat → Nat)
    (u : Indeterminate) (w h : Nat) (tiff : TiffImage) (trace : List Event)
    (hsize : k * (3 * w) ≤
      TIFFScanlineSize (writtenTags tiff w h bits 3 format PHOTOMETRIC_RGB))
    (hr : ∀ x y, red x y < 256 ^ k) (hg : ∀ x y, green x y < 256 ^ k)
    (hb : ∀ x y, blue x y < 256 ^ k) :
    ∃ (s : Sink) (rowData : Nat → List Nat) (n : Nat),
      createRGBTiffImageOf bits format k red green blue u w h (some tiff) trace = .ok s ∧
      s.trace = trace ++ tagWrites w h bits 3 format PHOTOMETRIC_RGB ++
        [.scanlineSize, .alloc .buf n] ++
        ((List.range h).map fun y => Event.writeScanline y (rowData y)) ++ [.release .buf] ∧
      ∀ x y, x < w → y < h →
        readLE k (rowData y) (3 * x) = some (red x y) ∧
        readLE k (rowData y) (3 * x + 1) = some (green x y) ∧
        readLE k (rowData y) (3 * x + 2) = some (blue x y) := by
  refine ⟨_, (fun y => encodedRow u
      (TIFFScanlineSize (writtenTags tiff w h bits 3 format PHOTOMETRIC_RGB))
      k (3 * w) (interleave (fun x => red x y) (fun x => green x y) (fun x => blue x y))),
    TIFFScanlineSize (writtenTags tiff w h bits 3 format PHOTOMETRIC_RGB),
    createRGBTiffImageOf_ok bits format k red green blue u w h tiff trace hsize, ?_, ?_⟩
  · simp [encodePrelude, tagWrites, writtenTrace_eq_map]
  · intro x y hx hy
    have e0 := readLE_encodeRow k
      (interleave (fun x => red x y) (fun x => green x y) (fun x => blue x y)) (3 * w) (3 * x)
      ((newBuffer u .buf (TIFFScanlineSize
        (writtenTags tiff w h bits 3 format PHOTOMETRIC_RGB))).drop (k * (3 * w))) (by omega)
    have e1 := readLE_encodeRow k
      (interleave (fun x => red x y) (fun x => green x y) (fun x => blue x y)) (3 * w)
      (3 * x + 1)
      ((newBuffer u .buf (TIFFScanlineSize
        (writtenTags tiff w h bits 3 format PHOTOMETRIC_RGB))).drop (k * (3 * w))) (by omega)
    have e2 := readLE_encodeRow k
      (interleave (fun x => red x y) (fun x => green x y) (fun x => blue x y)) (3 * w)
      (3 * x + 2)
      ((newBuffer u .buf (TIFFScanlineSize
        (writtenTags tiff w h bits 3 format PHOTOMETRIC_RGB))).drop (k * (3 * w))) (by omega)
    have i0 : interleave (fun x => red x y) (fun x => green x y) (fun x => blue x y) (3 * x)
        = red x y := by
      have a1 : 3 * x % 3 = 0 := by omega
      have a2 : 3 * x / 3 = x := by omega
      simp only [interleave, a1, a2, if_true]
    have i1 : interleave (fun x => red x y) (fun x => green x y) (fun x => blue x y)
        (3 * x + 1) = green x y := by
      have a1 : (3 * x + 1) % 3 = 1 := by omega
      have a2 : (3 * x + 1) / 3 = x := by omega
      simp [interleave, a1, a2]
    have i2 : interleave (fun x => red x y) (fun x => green x y) (fun x => blue x y)
        (3 * x + 2) = blue x y := by
      have a1 : (3 * x + 2) % 3 = 2 := by omega
      have a2 : (3 * x + 2) / 3 = x := by omega
      simp [interleave, a1, a2]
    rw [i0, Nat.mod_eq_of_lt (hr x y)] at e0
    rw [i1, Nat.mod_eq_of_lt (hg x y)] at e1
    rw [i2, Nat.mod_eq_of_lt (hb x y)] at e2
    exact ⟨e0, e1, e2⟩

/-- C31: packing of the RGB encoder. For every component type and every `w`
by `h` range, `createRGBTiffImage` on a handle whose scanline buffer holds
the `3 w` samples of a row returns normally; after the tag writes and the
allocation it calls `TIFFWriteScanline` once for each row `y = 0, ...,
h - 1`, in this order, and releases the buffer. The buffer passed for row
`y` holds at elements `3x`, `3x+1`, `3x+2` of the on-disk element type the
red, green and blue component of the source pixel `(x, y)` converted to that
type, for every `x < w`. -/
theorem rgb_encode_packing (u : Indeterminate) (w h : Nat) (src : RGBSource)
    (tiff : TiffImage) (trace : List Event)
    (hsize : src.bytes * (3 * w) ≤ TIFFScanlineSize
      (writtenTags tiff w h src.encoding.1 3 src.encoding.2 PHOTOMETRIC_RGB)) :
    ∃ (s : Sink) (rowData : Nat → List Nat) (n : Nat), createRGBTiffImage u w h src (some tiff) trace = .ok s ∧
      s.trace = trace ++ tagWrites w h src.encoding.1 3 src.encoding.2 PHOTOMETRIC_RGB ++
        [.scanlineSize, .alloc .buf n] ++
        ((List.range h).map fun y => Event.writeScanline y (rowData y)) ++ [.release .buf] ∧
      ∀ x y, x < w → y < h →
        readLE src.bytes (rowData y) (3 * x) = some (src.onDisk x y).red ∧
        readLE src.bytes (rowData y) (3 * x + 1) = some (src.onDisk x y).green ∧
        readLE src.bytes (rowData y) (3 * x + 2) = some (src.onDisk x y).blue := by
  cases src with
  | uchar f =>
    exact createRGBTiffImageOf_packing 8 SAMPLEFORMAT_UINT 1 _ _ _ u w h tiff trace hsize
      (fun _ _ => toUnsigned_lt 8 _) (fun _ _ => toUnsigned_lt 8 _)
      (fun _ _ => toUnsigned_lt 8 _)
  | short f =>
    exact createRGBTiffImageOf_packing 16 SAMPLEFORMAT_INT 2 _ _ _ u w h tiff trace hsize
      (fun _ _ => toUnsigned_lt 16 _) (fun _ _ => toUnsigned_lt 16 _)
      (fun _ _ => toUnsigned_lt 16 _)
  | int f =>
    exact createRGBTiffImageOf_packing 32 SAMPLEFORMAT_INT 4 _ _ _ u w h tiff trace hsize
      (fun _ _ => toUnsigned_lt 32 _) (fun _ _ => toUnsigned_lt 32 _)
      (fun _ _ => toUnsigned_lt 32 _)
  | float f =>
    exact createRGBTiffImageOf_packing 32 SAMPLEFORMAT_IEEEFP 4 _ _ _ u w h tiff trace hsize
      (fun _ _ => Nat.mod_lt _ (by decide)) (fun _ _ => Nat.mod_lt _ (by decide))
      (fun _ _ => Nat.mod_lt _ (by decide))
  | double f =>
    exact createRGBTiffImageOf_packing 64 SAMPLEFORMAT_IEEEFP 8 _ _ _ u w h tiff trace hsize
      (fun _ _ => Nat.mod_lt _ (by decide)) (fun _ _ => Nat.mod_lt _ (by decide))
      (fun _ _ => Nat.mod_lt _ (by decide))

/-- C31 at a concrete input: the 1 by 1 image of `unsigned char` components
(5, 6, 7) written to a fresh handle. -/
theorem rgb_encode_packing_witness :
    ∃ (s : Sink) (rowData : Nat → List Nat) (n : Nat), createRGBTiffImage zeroIndeterminate 1 1
        (.uchar fun _ _ => { red := 5, green := 6, blue := 7 }) (some freshHandle) []
        = .ok s ∧
      s.trace = [] ++ tagWrites 1 1 8 3 SAMPLEFORMAT_UINT PHOTOMETRIC_RGB ++
        [.scanlineSize, .alloc .buf n] ++
        ((List.range 1).map fun y => Event.writeScanline y (rowData y)) ++ [.release .buf] ∧
      ∀ x y, x < 1 → y < 1 →
        readLE 1 (rowData y) (3 * x) = some 5 ∧
        readLE 1 (rowData y) (3 * x + 1) = some 6 ∧
        readLE 1 (rowData y) (3 * x + 2) = some 7 :=
  rgb_encode_packing zeroIndeterminate 1 1
    (.uchar fun _ _ => { red := 5, green := 6, blue := 7 }) freshHandle [] (by decide)

/-! ## Buffer indices -/

end Vigra
